import Mathlib

/-! HealthBridge portal: booking, access control and session gates.

A shallow embedding of the parts of the portal that decide who may do what and
whether an appointment slot is free:

* `src/config/db.js`            the tables (rows as structures, tables as lists)
* `src/models/Appointment.js`   `create`, `update`, `cancel`, `getAvailableSlots`,
                                `getByPatient`, `getByDoctor`
* `src/models/Prescription.js`  `findById`, the list queries, `requestRefill`
* `src/models/User.js`          `findById`, `findByEmail`, `update`, the reset-token,
                                password, 2FA and activation updates
* `src/middleware/auth.js`      `isAuthenticated`, `is2FAVerified`, `requireRole`,
                                `canAccessPatient`, `rateLimitLogin`, `trackActivity`,
                                `logAction`
* `src/routes/appointments.js`  the GET, POST, PUT and PUT cancel handlers
* `src/routes/prescriptions.js` the GET handlers and the refill handler
* `src/routes/patients.js`      the patient detail and lab-result handlers
* `src/routes/auth.js`          login, verify-2fa, forgot-password, reset-password, me,
                                and the three password validator chains

Conventions of the embedding.  A table is the list of its rows in insertion
order.  A column of `appointments` declared without NOT NULL is an option, whose
`none` is NULL; the `created_at` and `updated_at` columns, which SQLite fills
with the wall clock, are left out except where a query orders by them.  The
`patient_id` member of a booking and the `limit` and `patient_id` parameters of
the read routes are kept as sent and go through `parseInt` as the handlers have
it; the ids in a route path and the `doctor_id` of a booking, which the validator
has accepted as an integer, are the integers `parseInt` returns; the other
optional members are strings or numbers.  A member of the body of a PUT is
absent, `null` or a value.  A handler is a function from
the database (and the request) to a response and the database after the request;
a statement that throws inside the handler's `try` block yields the 500 response
of its `catch` block.  The application-wide `trackActivity`, which runs before
every route and writes only `req.session.lastActivity`, is a function of its own
and is not repeated inside each route.
-/

namespace Portal

/-! ## Tables (src/config/db.js) -/

/-- Row of `users`. -/
structure UserRow where
  id : Int
  email : String
  password : String
  first_name : String
  last_name : String
  role : String
  two_factor_secret : Option String := none
  two_factor_enabled : Bool := false
  password_reset_token : Option String := none
  password_reset_expires : Option String := none
  is_active : Bool := true
  last_login : Option String := none
  phone : Option String := none
  date_of_birth : Option String := none
  gender : Option String := none
  address : Option String := none
  specialty : Option String := none
  license_number : Option String := none
  insurance_id : Option String := none
  emergency_contact : Option String := none
  emergency_phone : Option String := none
  profile_image : Option String := some "/images/default-avatar.png"
deriving DecidableEq, Repr

/-- Row of `appointments`; the defaults are the column defaults of the schema.
The columns declared without NOT NULL (`duration`, `status`, `reason`, `notes`,
`location`) are options, `none` being NULL. -/
structure AppointmentRow where
  id : Int
  patient_id : Int
  doctor_id : Int
  date : String
  time : String
  duration : Option Int := some 30
  type : String := "checkup"
  status : Option String := some "scheduled"
  reason : Option String := none
  notes : Option String := none
  location : Option String := some "Main Office"
deriving DecidableEq, Repr

/-- Row of `notifications` (without the rowid). -/
structure NotificationRow where
  user_id : Int
  type : String
  title : String
  message : String
  is_read : Bool := false
  link : Option String := none
deriving DecidableEq, Repr

/-- Row of `audit_log` (without the rowid). -/
structure AuditRow where
  user_id : Option Int
  action : String
  resource : Option String
  resource_id : Option Int
  details : String
  ip_address : String
deriving DecidableEq, Repr

/-- Row of `prescriptions`. -/
structure PrescriptionRow where
  id : Int
  patient_id : Int
  doctor_id : Int
  medication : String
  dosage : String
  frequency : String
  start_date : String
  end_date : Option String := none
  refills_remaining : Int := 0
  refills_total : Int := 0
  status : String := "active"
  pharmacy : Option String := none
  instructions : Option String := none
  side_effects : Option String := none
  created_at : String := ""
deriving DecidableEq, Repr

/-- Row of `lab_results`. -/
structure LabResultRow where
  id : Int
  patient_id : Int
  doctor_id : Int
  test_name : String
  category : String
  result_value : String
  reference_range : Option String := none
  unit : Option String := none
  status : String := "normal"
  notes : Option String := none
  test_date : String
  result_date : Option String := none
deriving DecidableEq, Repr

/-- The database: the tables the booking, access-control and login code
touches, and the `sqlite_sequence` counter of the AUTOINCREMENT key of
`appointments`. -/
structure Db where
  users : List UserRow := []
  appointments : List AppointmentRow := []
  appointments_seq : Int := 0
  notifications : List NotificationRow := []
  audit_log : List AuditRow := []
  prescriptions : List PrescriptionRow := []
  lab_results : List LabResultRow := []
deriving DecidableEq, Repr

/-! ## Appointment.getAvailableSlots (src/models/Appointment.js 170-186) -/

/-- `String.prototype.padStart(targetLength, padString)` for a one-character pad. -/
def padStart (s : String) (targetLength : Nat) (pad : Char) : String :=
  String.mk (List.replicate (targetLength - s.length) pad) ++ s

/-- Values taken by `hour` in `for (let hour = 8; hour < 17; hour++)`. -/
def slotHours : List Nat := (List.range 17).filter (fun hour => 8 ≤ hour)

/-- Values taken by `min` in `for (let min = 0; min < 60; min += 30)`. -/
def slotMinutes : List Nat := (List.range 60).filter (fun min => min % 30 = 0)

/-- The array `allSlots` built by the two nested loops. -/
def allSlots : List String :=
  slotHours.flatMap fun hour =>
    slotMinutes.map fun min =>
      padStart (toString hour) 2 '0' ++ ":" ++ padStart (toString min) 2 '0'

namespace Appointment

/-- SQL's `status != 'cancelled'` as a WHERE condition: true for a status other
than `cancelled`; not true for `cancelled`, and not true for NULL, whose
comparison with any value is NULL. -/
def notCancelled (status : Option String) : Bool :=
  match status with
  | some s => s != "cancelled"
  | none => false

/-- The query of `getAvailableSlots`:
`SELECT time, duration FROM appointments WHERE doctor_id = ? AND date = ? AND status != 'cancelled'`. -/
def booked (db : Db) (doctorId : Int) (date : String) : List (String × Option Int) :=
  (db.appointments.filter fun a =>
    a.doctor_id == doctorId && a.date == date && notCancelled a.status).map
      fun a => (a.time, a.duration)

/-- `Appointment.getAvailableSlots(doctorId, date)`. -/
def getAvailableSlots (db : Db) (doctorId : Int) (date : String) : List String :=
  let bookedTimes := (booked db doctorId date).map fun b => b.1
  allSlots.filter fun slot => !bookedTimes.contains slot

end Appointment


/-! ## Sessions, responses and the audit log (src/middleware/auth.js) -/

/-- The members of `req.session` the code reads and writes; a member that was
never assigned is `none`. -/
structure Session where
  userId : Option Int := none
  role : Option String := none
  twoFactorVerified : Option Bool := none
  lastActivity : Option Nat := none
deriving DecidableEq, Repr

/-- The value of `req.user`: the columns selected by `isAuthenticated`. -/
structure ReqUser where
  id : Int
  email : String
  role : String
  first_name : String
  last_name : String
  is_active : Bool
deriving DecidableEq, Repr

/-- An HTTP response: the status, the `error` or `message` member of the JSON
body, and the `appointment` member when the body has one. -/
structure Response where
  status : Nat
  text : String := ""
  appointment : Option AppointmentRow := none
deriving DecidableEq, Repr

/-- What a middleware does: call `next()` or answer the request. -/
inductive Verdict where
  | next
  | respond (r : Response)
deriving DecidableEq, Repr

/-- JavaScript truthiness of a number that may be absent. -/
def truthyInt : Option Int → Bool
  | some n => n != 0
  | none => false

/-- JavaScript truthiness of a string that may be absent. -/
def truthyStr : Option String → Bool
  | some s => s != ""
  | none => false

/-- `a || b` for a string member that may be absent. -/
def strOr (a : Option String) (b : String) : String :=
  match a with
  | some s => if s != "" then s else b
  | none => b

/-- `a || b` for a number member that may be absent. -/
def intOr (a : Option Int) (b : Int) : Int :=
  match a with
  | some n => if n != 0 then n else b
  | none => b

/-- `a || null` for a string member that may be absent. -/
def strOrNull (a : Option String) : Option String :=
  match a with
  | some s => if s != "" then some s else none
  | none => none

/-- Whether a row of `users` has the given id (the target of the foreign keys). -/
def Db.hasUser (db : Db) (id : Int) : Bool :=
  db.users.any fun u => u.id == id

/-- `logAction`: the INSERT into `audit_log` inside a `try`; the statement
fails on the foreign key `user_id REFERENCES users(id)`, and the `catch` only
prints, so a failed insert leaves the database as it was. -/
def logAction (db : Db) (userId : Option Int) (action : String) (resource : Option String)
    (resourceId : Option Int) (details : String) (ipAddress : String) : Db :=
  let fkOk := match userId with
    | some u => db.hasUser u
    | none => true
  if fkOk then
    { db with audit_log := db.audit_log ++
        [{ user_id := userId, action := action, resource := resource,
           resource_id := resourceId, details := details, ip_address := ipAddress }] }
  else db

/-- `isAuthenticated`: on success the selected user row becomes `req.user`. -/
def isAuthenticated (db : Db) (session : Option Session) : Except Response ReqUser :=
  let denied : Response := { status := 401, text := "Authentication required. Please log in." }
  match session with
  | none => .error denied
  | some s =>
    if truthyInt s.userId then
      match db.users.find? fun u => some u.id == s.userId with
      | some user =>
        if user.is_active then
          .ok { id := user.id, email := user.email, role := user.role,
                first_name := user.first_name, last_name := user.last_name,
                is_active := user.is_active }
        else .error denied
      | none => .error denied
    else .error denied

/-- `is2FAVerified`: exported by the middleware module, mounted on no route. -/
def is2FAVerified (db : Db) (session : Option Session) : Verdict :=
  match session with
  | none => .respond { status := 401, text := "Authentication required." }
  | some s =>
    if truthyInt s.userId then
      match db.users.find? fun u => some u.id == s.userId with
      | some user =>
        if user.two_factor_enabled && !(s.twoFactorVerified == some true) then
          .respond { status := 403, text := "Two-factor authentication required." }
        else .next
      | none => .next
    else .respond { status := 401, text := "Authentication required." }

namespace User

/-- `User.findById(id)`; the SELECT list leaves out the password, the 2FA
secret and the reset-token columns, which no caller modelled here reads. -/
def findById (db : Db) (id : Int) : Option UserRow :=
  db.users.find? fun u => u.id == id

end User

/-! ## Request members and parseInt

A handler looks at a member of `req.body` or `req.query` in two ways: `if (v)`
and `parseInt(v)`, which starts by converting `v` to a string. -/

/-- A member of `req.body` as those two operations see it: absent (or `null`), a
JSON number, given by the text `String(v)` of its value (`"3"`, `"2.9"`,
`"1e+21"`), or a JSON string.  (`false` acts as an absent member; `true`, an
array or an object acts as a string with the same truthiness and the same
`parseInt`.) -/
inductive BodyMember where
  | absent
  | number (text : String)
  | string (s : String)
deriving DecidableEq, Repr

/-- JavaScript truthiness: a number other than zero, a string other than `""`. -/
def BodyMember.truthy : BodyMember → Bool
  | .absent => false
  | .number text => text != "0"
  | .string s => s != ""

/-- `String(v)`. -/
def BodyMember.text : BodyMember → String
  | .absent => "undefined"
  | .number text => text
  | .string s => s

/-- The characters `parseInt` skips at the start of its argument: the WhiteSpace
and LineTerminator code points of ECMAScript. -/
def isStrWhiteSpace (c : Char) : Bool :=
  c.val == 0x09 || c.val == 0x0A || c.val == 0x0B || c.val == 0x0C || c.val == 0x0D
    || c.val == 0x20 || c.val == 0xA0 || c.val == 0x1680
    || (decide (0x2000 ≤ c.val) && decide (c.val ≤ 0x200A))
    || c.val == 0x2028 || c.val == 0x2029 || c.val == 0x202F || c.val == 0x205F
    || c.val == 0x3000 || c.val == 0xFEFF

/-- The value of a character as a digit in radix 10 or 16. -/
def digitValue (radix : Nat) (c : Char) : Option Nat :=
  if c.isDigit then some (c.toNat - 48)
  else if radix == 16 && decide (97 ≤ c.toNat) && decide (c.toNat ≤ 102) then
    some (c.toNat - 87)
  else if radix == 16 && decide (65 ≤ c.toNat) && decide (c.toNat ≤ 70) then
    some (c.toNat - 55)
  else none

/-- The values of the digits at the start of the list, up to the first character
that is not a digit of the radix. -/
def leadingDigits (radix : Nat) : List Char → List Nat
  | [] => []
  | c :: rest =>
    match digitValue radix c with
    | some d => d :: leadingDigits radix rest
    | none => []

/-- The number of binary digits of `n`, computed in at most `fuel` halvings. -/
def bitLengthAux : Nat → Nat → Nat
  | 0, _ => 0
  | fuel + 1, n => if n = 0 then 0 else bitLengthAux fuel (n / 2) + 1

/-- The number of binary digits of `n`. -/
def bitLength (n : Nat) : Nat := bitLengthAux n n

/-- The Number value of a natural number: the nearest number with 53 significant
binary digits, a tie going to the even one.  (A result of 2^1024 or more stands
for `Infinity`; the statements below treat it like every other number outside the
64-bit range.) -/
def toNumber (n : Nat) : Nat :=
  if bitLength n ≤ 53 then n
  else
    let q := 2 ^ (bitLength n - 53)
    let lower := n / q
    let rest := n % q
    if 2 * rest > q || (2 * rest == q && lower % 2 == 1) then (lower + 1) * q else lower * q

/-- `parseInt(string)` without a radix argument; `none` is `NaN`.  Leading white
space is skipped, a sign is read, a `0x` or `0X` prefix selects radix 16, and the
longest run of digits that follows is the value. -/
def parseInt (string : String) : Option Int :=
  let s := string.data.dropWhile isStrWhiteSpace
  let negative := s.head? == some '-'
  let s1 := if s.head? == some '-' || s.head? == some '+' then s.tail else s
  let hex := match s1 with
    | '0' :: x :: _ => x == 'x' || x == 'X'
    | _ => false
  let radix := if hex then 16 else 10
  let digits := leadingDigits radix (if hex then s1.drop 2 else s1)
  if digits.isEmpty then none
  else
    let mathInt := digits.foldl (fun acc d => acc * radix + d) 0
    some (if negative then -(toNumber mathInt : Int) else (toNumber mathInt : Int))

/-! ## Appointment.create, update, cancel (src/models/Appointment.js 4-64) -/

/-- The values allowed by the CHECK constraint on `appointments.status`. -/
def appointmentStatuses : List String :=
  ["scheduled", "confirmed", "in-progress", "completed", "cancelled", "no-show"]

/-- The `data` object passed to `Appointment.create`; an absent member is `none`,
and so is a `patient_id` that is `NaN`. -/
structure CreateData where
  patient_id : Option Int
  doctor_id : Int
  date : String
  time : String
  duration : Option Int := none
  type : Option String := none
  status : Option String := none
  reason : Option String := none
  notes : Option String := none
  location : Option String := none
deriving DecidableEq, Repr

/-- The members of the `updates` object that are in `allowedFields`
(`date, time, duration, type, status, reason, notes, location`); every other key
is skipped by the loop of `Appointment.update`.  An absent key is `none`, a key
whose value is `null` is `some none`, and a key with a value `v` is
`some (some v)`. -/
structure Updates where
  date : Option (Option String) := none
  time : Option (Option String) := none
  duration : Option (Option Int) := none
  type : Option (Option String) := none
  status : Option (Option String) := none
  reason : Option (Option String) := none
  notes : Option (Option String) := none
  location : Option (Option String) := none
deriving DecidableEq, Repr

/-- The CHECK constraint of the column `status`: `status IN ('scheduled', ...)`.
A CHECK fails only when its expression is false, and for NULL it is NULL. -/
def statusCheck (status : Option String) : Bool :=
  match status with
  | some s => appointmentStatuses.contains s
  | none => true

namespace Appointment

/-- `Appointment.findById(id)`: the row joined with its patient and its doctor;
of the joined columns only the existence of both users matters here. -/
def findById (db : Db) (id : Int) : Option AppointmentRow :=
  db.appointments.find? fun a => a.id == id && db.hasUser a.patient_id && db.hasUser a.doctor_id

/-- The rowid an AUTOINCREMENT table gives the next inserted row: one more than
the largest rowid ever used (`sqlite_sequence`) or present. -/
def nextId (db : Db) : Int :=
  (db.appointments.foldl (fun m a => max m a.id) db.appointments_seq) + 1

/-- The row bound to the INSERT of `Appointment.create` when `data.patient_id` is
the number `patientId`: the `||` defaults of lines 24-35 applied to `data`, and
the rowid SQLite assigns. -/
def newRow (db : Db) (data : CreateData) (patientId : Int) : AppointmentRow :=
  { id := nextId db
    patient_id := patientId
    doctor_id := data.doctor_id
    date := data.date
    time := data.time
    duration := some (intOr data.duration 30)
    type := strOr data.type "checkup"
    status := some (strOr data.status "scheduled")
    reason := strOrNull data.reason
    notes := strOrNull data.notes
    location := some (strOr data.location "Main Office") }

/-- `Appointment.create(data)`.  `none` is the exception of `stmt.run` when the
row violates the NOT NULL constraint of `patient_id` (a `NaN` is bound as NULL), a
foreign key (`patient_id`, `doctor_id` reference `users(id)`, and
`foreign_keys = ON`) or the CHECK on `status`; otherwise the result is the row
returned by `findById(result.lastInsertRowid)` and the database after the insert. -/
def create (db : Db) (data : CreateData) : Option (Option AppointmentRow × Db) :=
  match data.patient_id with
  | none => none
  | some patientId =>
    let row := newRow db data patientId
    if db.hasUser row.patient_id && db.hasUser row.doctor_id
        && statusCheck row.status then
      let db1 : Db :=
        { db with appointments := db.appointments ++ [row], appointments_seq := row.id }
      some (findById db1 row.id, db1)
    else none

/-- The array `setClauses` after the loop over `Object.entries(updates)`. -/
def setClauses (u : Updates) : List String :=
  (if u.date.isSome then ["date = ?"] else []) ++
  (if u.time.isSome then ["time = ?"] else []) ++
  (if u.duration.isSome then ["duration = ?"] else []) ++
  (if u.type.isSome then ["type = ?"] else []) ++
  (if u.status.isSome then ["status = ?"] else []) ++
  (if u.reason.isSome then ["reason = ?"] else []) ++
  (if u.notes.isSome then ["notes = ?"] else []) ++
  (if u.location.isSome then ["location = ?"] else [])

/-- The new value of a NOT NULL column: the given value, the old one when the key
is absent (a `null` is refused by `notNullOk` before it is stored). -/
def setNotNull (member : Option (Option String)) (old : String) : String :=
  match member with
  | some (some v) => v
  | _ => old

/-- The effect of the SET list on one row; a `null` makes a nullable column NULL. -/
def applySet (u : Updates) (a : AppointmentRow) : AppointmentRow :=
  { a with
    date := setNotNull u.date a.date
    time := setNotNull u.time a.time
    duration := u.duration.getD a.duration
    type := setNotNull u.type a.type
    status := u.status.getD a.status
    reason := u.reason.getD a.reason
    notes := u.notes.getD a.notes
    location := u.location.getD a.location }

/-- The NOT NULL constraints of `date`, `time` and `type`: none of them is set to
`null`. -/
def notNullOk (u : Updates) : Bool :=
  !(u.date == some none || u.time == some none || u.type == some none)

/-- `Appointment.update(id, updates)`.  Outer `none`: the UPDATE throws (a
changed row violates a NOT NULL constraint or the CHECK on `status`).  Inner
`none`: the function returns `null` without touching the database because no
allowed key was given. -/
def update (db : Db) (id : Int) (u : Updates) : Option (Option AppointmentRow × Db) :=
  if (setClauses u).length == 0 then some (none, db)
  else
    let rows := db.appointments.map fun a => if a.id == id then applySet u a else a
    if (rows.filter fun a => a.id == id).all fun a => notNullOk u && statusCheck a.status then
      let db1 : Db := { db with appointments := rows }
      some (findById db1 id, db1)
    else none

/-- `Appointment.cancel(id)`. -/
def cancel (db : Db) (id : Int) : Option (Option AppointmentRow × Db) :=
  update db id { status := some (some "cancelled") }

end Appointment

/-! ## The appointment routes (src/routes/appointments.js) -/

/-- The body of `POST /api/appointments` as the handler reads it: `doctor_id` is
`parseInt(req.body.doctor_id)` of a member the validator accepted as an integer,
`patient_id` the member as sent, and the optional members are strings or
numbers. -/
structure CreateBody where
  doctor_id : Int
  date : String
  time : String
  type : Option String := none
  reason : Option String := none
  duration : Option Int := none
  location : Option String := none
  patient_id : BodyMember := .absent
deriving DecidableEq, Repr

/-- A `POST /api/appointments` request.  `errorsEmpty` is the value of
`validationResult(req).isEmpty()`, the verdict of the express-validator chain
given to the route. -/
structure PostRequest where
  session : Option Session
  ip : String := "127.0.0.1"
  errorsEmpty : Bool := true
  body : CreateBody
deriving DecidableEq, Repr

/-- A `PUT /api/appointments/:id` or `PUT /api/appointments/:id/cancel` request;
`id` is `parseInt(req.params.id)`. -/
structure PutRequest where
  session : Option Session
  ip : String := "127.0.0.1"
  id : Int
  body : Updates := {}
deriving DecidableEq, Repr

namespace AppointmentRoutes

/-- The variable `patientId` of lines 146-154: the caller's id when the caller is
a patient, else `parseInt(req.body.patient_id)` when that member is truthy (the
inner `none` is `NaN`), else the handler answers 400 (the outer `none`). -/
def patientIdOf (user : ReqUser) (body : CreateBody) : Option (Option Int) :=
  if user.role == "patient" then some (some user.id)
  else if body.patient_id.truthy then some (parseInt body.patient_id.text)
  else none

/-- The test of lines 157-158: `doctor && doctor.role === 'doctor'`. -/
def validDoctor (db : Db) (doctorId : Int) : Bool :=
  match User.findById db doctorId with
  | some doctor => doctor.role == "doctor"
  | none => false

/-- The response of the `catch` block of the POST handler. -/
def postFailed : Response := { status := 500, text := "Failed to schedule appointment." }

/-- `router.post('/')` behind `router.use(isAuthenticated)` (lines 10, 133-198). -/
def post (db : Db) (req : PostRequest) : Response × Db :=
  match isAuthenticated db req.session with
  | .error r => (r, db)
  | .ok user =>
    if !req.errorsEmpty then ({ status := 400 }, db)
    else
      match patientIdOf user req.body with
      | none => ({ status := 400, text := "Patient ID is required." }, db)
      | some patientId =>
        if !validDoctor db req.body.doctor_id then
          ({ status := 400, text := "Invalid doctor selected." }, db)
        else if !(Appointment.getAvailableSlots db req.body.doctor_id req.body.date).contains
            req.body.time then
          ({ status := 409, text := "This time slot is no longer available." }, db)
        else
          match Appointment.create db
              { patient_id := patientId
                doctor_id := req.body.doctor_id
                date := req.body.date
                time := req.body.time
                duration := some (intOr req.body.duration 30)
                type := some (strOr req.body.type "checkup")
                reason := req.body.reason
                location := req.body.location } with
          | none => (postFailed, db)
          | some (appointment, db1) =>
            match patientId.bind (User.findById db1) with
            | none => (postFailed, db1)
            | some patient =>
              if !db1.hasUser req.body.doctor_id then (postFailed, db1)
              else
                let db2 : Db := { db1 with notifications := db1.notifications ++
                  [{ user_id := req.body.doctor_id
                     type := "appointment"
                     title := "New Appointment"
                     message := patient.first_name ++ " " ++ patient.last_name ++ " booked a "
                       ++ strOr req.body.type "checkup" ++ " on " ++ req.body.date ++ " at "
                       ++ req.body.time ++ "."
                     link := some "/appointments" }] }
                match appointment with
                | none => (postFailed, db2)
                | some created =>
                  let db3 := logAction db2 (some user.id) "CREATE_APPOINTMENT"
                    (some "appointments") (some created.id)
                    ("Appointment created for " ++ req.body.date ++ " at " ++ req.body.time) req.ip
                  ({ status := 201, text := "Appointment scheduled successfully."
                     appointment := some created }, db3)

/-- `router.put('/:id')` behind `router.use(isAuthenticated)` (lines 203-228). -/
def put (db : Db) (req : PutRequest) : Response × Db :=
  match isAuthenticated db req.session with
  | .error r => (r, db)
  | .ok user =>
    match Appointment.findById db req.id with
    | none => ({ status := 404, text := "Appointment not found." }, db)
    | some appointment =>
      if user.role == "patient" && appointment.patient_id != user.id then
        ({ status := 403, text := "Access denied." }, db)
      else if user.role == "doctor" && appointment.doctor_id != user.id then
        ({ status := 403, text := "Access denied." }, db)
      else
        match Appointment.update db req.id req.body with
        | none => ({ status := 500, text := "Failed to update appointment." }, db)
        | some (updated, db1) =>
          let db2 := logAction db1 (some user.id) "UPDATE_APPOINTMENT" (some "appointments")
            (some req.id) "Appointment updated" req.ip
          ({ status := 200, text := "Appointment updated.", appointment := updated }, db2)

/-- `router.put('/:id/cancel')` behind `router.use(isAuthenticated)` (lines 233-254). -/
def putCancel (db : Db) (req : PutRequest) : Response × Db :=
  match isAuthenticated db req.session with
  | .error r => (r, db)
  | .ok user =>
    match Appointment.findById db req.id with
    | none => ({ status := 404, text := "Appointment not found." }, db)
    | some appointment =>
      if user.role == "patient" && appointment.patient_id != user.id then
        ({ status := 403, text := "Access denied." }, db)
      else
        match Appointment.cancel db req.id with
        | none => ({ status := 500, text := "Failed to cancel appointment." }, db)
        | some (cancelled, db1) =>
          let db2 := logAction db1 (some user.id) "CANCEL_APPOINTMENT" (some "appointments")
            (some req.id) "Appointment cancelled" req.ip
          ({ status := 200, text := "Appointment cancelled.", appointment := cancelled }, db2)

end AppointmentRoutes

/-! ## canAccessPatient and trackActivity (src/middleware/auth.js 52-87, 117-129) -/

/-- `canAccessPatient`.  `patientId` is the number computed on line 53,
`parseInt(req.params.patientId || req.body.patient_id || req.query.patient_id)`,
with `none` for `NaN`; `user` is `req.user`. -/
def canAccessPatient (db : Db) (user : Option ReqUser) (patientId : Option Int) : Verdict :=
  match user with
  | none => .respond { status := 401, text := "Authentication required." }
  | some u =>
    if u.role == "admin" then .next
    else if u.role == "patient" then
      if some u.id != patientId then
        .respond { status := 403, text := "Access denied. You can only view your own records." }
      else .next
    else if u.role == "doctor" then
      let count := (db.appointments.filter fun a =>
        a.doctor_id == u.id && some a.patient_id == patientId).length
      if count > 0 then .next
      else .respond { status := 403, text := "Access denied. This patient is not assigned to you." }
    else .respond { status := 403, text := "Access denied." }

/-- The constant `timeout` of `trackActivity`, in milliseconds. -/
def sessionTimeout : Int := 30 * 60 * 1000

/-- `trackActivity`.  `now` is the value of the `Date.now()` call of line 119 and
`now2` that of the call of line 123.  The result is what the middleware does and
`req.session` afterwards (`none` once destroyed). -/
def trackActivity (session : Option Session) (now now2 : Nat) : Verdict × Option Session :=
  match session with
  | none => (.next, none)
  | some s =>
    if truthyInt s.userId then
      let s1 : Session := { s with lastActivity := some now }
      match s1.lastActivity with
      | some last =>
        if last != 0 && ((now2 : Int) - (last : Int) > sessionTimeout) then
          (.respond { status := 440
                      text := "Session expired due to inactivity. Please log in again." }, none)
        else (.next, some s1)
      | none => (.next, some s1)
    else (.next, some s)

/-! ## The slot grid as the specification words it -/

/-- Every half hour from 08:00 inclusive to 17:00 exclusive, written HH:MM. -/
def gridSlots : List String :=
  ["08:00", "08:30", "09:00", "09:30", "10:00", "10:30", "11:00", "11:30", "12:00",
   "12:30", "13:00", "13:30", "14:00", "14:30", "15:00", "15:30", "16:00", "16:30"]

/-! ## The booking-conflict invariant -/

/-- No two rows of the table whose status is not `cancelled` have the same
`(doctor_id, date, time)`. -/
def NoConflict (appointments : List AppointmentRow) : Prop :=
  appointments.Pairwise fun a b =>
    a.status = some "cancelled" ∨ b.status = some "cancelled" ∨
      ¬(a.doctor_id = b.doctor_id ∧ a.date = b.date ∧ a.time = b.time)

instance (appointments : List AppointmentRow) : Decidable (NoConflict appointments) := by
  unfold NoConflict; infer_instance

/-! ## A small clinic used in the examples -/

/-- One doctor (id 1), two patients (ids 2 and 3), one administrator (id 4). -/
def clinicUsers : List UserRow :=
  [ { id := 1, email := "d@x.org", password := "h1", first_name := "Dana", last_name := "Diaz",
      role := "doctor" },
    { id := 2, email := "p@x.org", password := "h2", first_name := "Pat", last_name := "Poe",
      role := "patient" },
    { id := 3, email := "q@x.org", password := "h3", first_name := "Quinn", last_name := "Roe",
      role := "patient" },
    { id := 4, email := "a@x.org", password := "h4", first_name := "Ada", last_name := "Min",
      role := "admin" } ]

/-- The clinic before any booking. -/
def clinic : Db := { users := clinicUsers }

/-- A fully logged-in session of the given user. -/
def sessionOf (userId : Int) : Session :=
  { userId := some userId, twoFactorVerified := some true, lastActivity := some 0 }


/-! ## GET /api/auth/me (src/routes/auth.js 378-384) -/

namespace AuthRoutes

/-- `router.get('/me', isAuthenticated, ...)`; the 200 body carries the profile
returned by `User.findById`. -/
def me (db : Db) (session : Option Session) : Response :=
  match isAuthenticated db session with
  | .error r => r
  | .ok user =>
    match User.findById db user.id with
    | none => { status := 404, text := "User not found." }
    | some _ => { status := 200 }

end AuthRoutes

/-- The clinic in which patient 2 has enabled two-factor authentication. -/
def clinicWith2FA : Db :=
  { users := clinicUsers.map fun u =>
      if u.id == 2 then { u with two_factor_secret := some "JBSWY3DP", two_factor_enabled := true }
      else u }

/-- The session of patient 2 right after the password check of the login route:
`userId`, `role` and `lastActivity` set, `twoFactorVerified = false`. -/
def pendingSession : Session :=
  { userId := some 2, role := some "patient", twoFactorVerified := some false,
    lastActivity := some 0 }

/-- The access-control decision table of the specification: admin always;
patient for their own id; doctor when some appointment row (of any status) links
the doctor to the target patient. -/
def AccessAllowed (db : Db) (u : ReqUser) (target : Option Int) : Prop :=
  u.role = "admin" ∨ (u.role = "patient" ∧ some u.id = target) ∨
    (u.role = "doctor" ∧ ∃ a ∈ db.appointments, a.doctor_id = u.id ∧ some a.patient_id = target)

/-! ## Auxiliary definitions used in the statements -/

/-- The request reaches the INSERT: the caller is authenticated, the fields are
valid, a patient id is determined, the doctor is valid and the slot is free. -/
def ReachesInsert (db : Db) (req : PostRequest) (user : ReqUser) (patientId : Int) : Prop :=
  isAuthenticated db req.session = .ok user ∧ req.errorsEmpty = true ∧
    AppointmentRoutes.patientIdOf user req.body = some (some patientId) ∧
    AppointmentRoutes.validDoctor db req.body.doctor_id = true ∧
    req.body.time ∈ Appointment.getAvailableSlots db req.body.doctor_id req.body.date

/-- The `data` object the POST handler passes to `Appointment.create`. -/
def postData (req : PostRequest) (patientId : Option Int) : CreateData :=
  { patient_id := patientId
    doctor_id := req.body.doctor_id
    date := req.body.date
    time := req.body.time
    duration := some (intOr req.body.duration 30)
    type := some (strOr req.body.type "checkup")
    reason := req.body.reason
    location := req.body.location }

/-- The table after `UPDATE appointments SET status = 'cancelled' WHERE id = ?`. -/
def cancelledRows (rows : List AppointmentRow) (id : Int) : List AppointmentRow :=
  rows.map fun a => if a.id == id then { a with status := some "cancelled" } else a

/-- The database after patient 2 books 09:00 and patient 3 books 09:30 with
doctor 1 on 2025-01-06, and patient 3 then moves the second booking to 09:00 with
`PUT /appointments/2`. -/
def doubleBooked : Db :=
  let db1 := (AppointmentRoutes.post clinic
    { session := some (sessionOf 2)
      body := { doctor_id := 1, date := "2025-01-06", time := "09:00" } }).2
  let db2 := (AppointmentRoutes.post db1
    { session := some (sessionOf 3)
      body := { doctor_id := 1, date := "2025-01-06", time := "09:30" } }).2
  (AppointmentRoutes.put db2
    { session := some (sessionOf 3), id := 2, body := { time := some (some "09:00") } }).2

/-- Two digits, a colon, two digits: the pattern `/^\d{2}:\d{2}$/` the POST route
gives to the validator of `time`. -/
def isHHMM (s : String) : Bool :=
  match s.data with
  | [a, b, c, d, e] => a.isDigit && b.isDigit && c == ':' && d.isDigit && e.isDigit
  | _ => false

/-- The clinic with one 60-minute appointment of doctor 1 at 09:00 on 2025-01-06. -/
def hourLongVisit : Db :=
  { users := clinicUsers
    appointments := [ { id := 1, patient_id := 2, doctor_id := 1, date := "2025-01-06",
                        time := "09:00", duration := some 60 } ]
    appointments_seq := 1 }

/-- The clinic of `hourLongVisit` after patient 2 sends `PUT /appointments/1` with
body `{status: null}`. -/
def statusCleared : Db :=
  (AppointmentRoutes.put hourLongVisit
    { session := some (sessionOf 2), id := 1, body := { status := some none } }).2

/-- An administrator books for patient id 99, which no row of `users` has. -/
def bookingForUnknownPatient : PostRequest :=
  { session := some (sessionOf 4)
    body := { doctor_id := 1, date := "2025-01-06", time := "09:00"
              patient_id := .number "99" } }

/-! ## Clock readings and their text forms

`Date.now()` is a number of milliseconds since 1970-01-01T00:00:00Z.  The code
stores two text forms of such an instant: `Date.prototype.toISOString()` and
SQLite's `datetime('now')`.  Both are written here for years 1970 to 9999. -/

/-- Year, month and day of the day with the given number, day 0 being
1970-01-01 (Gregorian calendar). -/
def civilFromDays (days : Nat) : Nat × Nat × Nat :=
  let z := days + 719468
  let era := z / 146097
  let doe := z % 146097
  let yoe := (doe - doe / 1460 + doe / 36524 - doe / 146096) / 365
  let doy := doe - (365 * yoe + yoe / 4 - yoe / 100)
  let mp := (5 * doy + 2) / 153
  let d := doy - (153 * mp + 2) / 5 + 1
  let m := if mp < 10 then mp + 3 else mp - 9
  let y := yoe + era * 400 + (if m ≤ 2 then 1 else 0)
  (y, m, d)

/-- The `YYYY-MM-DD` part common to both text forms. -/
def dateText (ms : Nat) : String :=
  let ymd := civilFromDays (ms / 86400000)
  padStart (toString ymd.1) 4 '0' ++ "-" ++ padStart (toString ymd.2.1) 2 '0' ++ "-"
    ++ padStart (toString ymd.2.2) 2 '0'

/-- The `HH:MM:SS` part common to both text forms. -/
def clockText (ms : Nat) : String :=
  let secs := (ms / 1000) % 86400
  padStart (toString (secs / 3600)) 2 '0' ++ ":" ++ padStart (toString (secs % 3600 / 60)) 2 '0'
    ++ ":" ++ padStart (toString (secs % 60)) 2 '0'

/-- `new Date(ms).toISOString()`: `YYYY-MM-DDTHH:MM:SS.sssZ`. -/
def toISOString (ms : Nat) : String :=
  dateText ms ++ "T" ++ clockText ms ++ "." ++ padStart (toString (ms % 1000)) 3 '0' ++ "Z"

/-- SQLite's `datetime('now')` at the instant `ms`: `YYYY-MM-DD HH:MM:SS`. -/
def sqliteDatetime (ms : Nat) : String :=
  dateText ms ++ " " ++ clockText ms

/-- SQLite's `a > b` on two TEXT values (BINARY collation): the order of the
character sequences. -/
def textGt (a b : String) : Bool :=
  decide (b.toList < a.toList)

/-! ## The external primitives -/

/-- The library and built-in calls the login code relies on:
`bcrypt.hash(password, 12)`, `bcrypt.compare(password, hash)`,
`speakeasy.totp.verify` with `encoding: 'base32'` and `window: 1`, as a function
of the secret, the submitted token and the time of the call, and
`String.prototype.toLowerCase()`. -/
structure Primitives where
  bcryptHash : String → String
  bcryptCompare : String → String → Bool
  totpVerify : String → String → Nat → Bool
  toLowerCase : String → String

/-! ## User model (src/models/User.js) -/

/-- `UPDATE users SET ... WHERE id = ?`: the rows with the given id are changed
by `f`. -/
def Db.updateUsers (db : Db) (id : Int) (f : UserRow → UserRow) : Db :=
  { db with users := db.users.map fun u => if u.id == id then f u else u }

namespace User

/-- `User.findByEmail(email)`: `SELECT * FROM users WHERE email = ?` with
`email.toLowerCase()`. -/
def findByEmail (P : Primitives) (db : Db) (email : String) : Option UserRow :=
  db.users.find? fun u => u.email == P.toLowerCase email

/-- `User.updatePassword(userId, newPassword)`. -/
def updatePassword (P : Primitives) (db : Db) (userId : Int) (newPassword : String) : Db :=
  db.updateUsers userId fun u => { u with password := P.bcryptHash newPassword }

/-- `User.updateLastLogin(userId)` at the instant `now`. -/
def updateLastLogin (db : Db) (userId : Int) (now : Nat) : Db :=
  db.updateUsers userId fun u => { u with last_login := some (sqliteDatetime now) }

/-- `User.setResetToken(userId, token, expires)`. -/
def setResetToken (db : Db) (userId : Int) (token expires : String) : Db :=
  db.updateUsers userId fun u =>
    { u with password_reset_token := some token, password_reset_expires := some expires }

/-- `User.findByResetToken(token)` at the instant `now`:
`WHERE password_reset_token = ? AND password_reset_expires > datetime('now')`. -/
def findByResetToken (db : Db) (token : String) (now : Nat) : Option UserRow :=
  db.users.find? fun u =>
    u.password_reset_token == some token &&
      match u.password_reset_expires with
      | some expires => textGt expires (sqliteDatetime now)
      | none => false

/-- `User.clearResetToken(userId)`. -/
def clearResetToken (db : Db) (userId : Int) : Db :=
  db.updateUsers userId fun u =>
    { u with password_reset_token := none, password_reset_expires := none }

end User

/-! ## rateLimitLogin (src/middleware/auth.js 89-114) -/

/-- The module-level `loginAttempts` Map: for each source address that has an
entry, the array of recorded attempt times. -/
abbrev LoginAttempts := String → Option (List Nat)

/-- `loginAttempts.set(ip, list)`. -/
def LoginAttempts.set (attempts : LoginAttempts) (ip : String) (list : List Nat) :
    LoginAttempts :=
  fun key => if key = ip then some list else attempts key

/-- The Map before any login request. -/
def noAttempts : LoginAttempts := fun _ => none

/-- The constant `windowMs` of `rateLimitLogin`. -/
def windowMs : Int := 15 * 60 * 1000

/-- The constant `maxAttempts` of `rateLimitLogin`. -/
def maxAttempts : Nat := 5

/-- The array `attempts` of `rateLimitLogin` after the filter of line 102. -/
def recentAttempts (attempts : LoginAttempts) (ip : String) (now : Nat) : List Nat :=
  ((attempts ip).getD []).filter fun time => decide ((now : Int) - (time : Int) < windowMs)

/-- `rateLimitLogin` for a request from `ip` at the instant `now`; `testMode`
is `process.env.NODE_ENV === 'test'`.  The `push` of line 112 acts on the array
that line 103 stored in the Map. -/
def rateLimitLogin (attempts : LoginAttempts) (db : Db) (ip : String) (now : Nat)
    (testMode : Bool) : Verdict × LoginAttempts × Db :=
  let attempts1 := if (attempts ip).isNone then attempts.set ip [] else attempts
  let kept := recentAttempts attempts1 ip now
  let attempts2 := attempts1.set ip kept
  if decide (kept.length ≥ maxAttempts) && !testMode then
    (.respond { status := 429
                text := "Too many login attempts. Please try again in 15 minutes." },
     attempts2,
     logAction db none "RATE_LIMIT_HIT" none none ("IP " ++ ip ++ " exceeded login rate limit") ip)
  else (.next, attempts2.set ip (kept ++ [now]), db)

/-! ## The login, 2FA and password-reset routes (src/routes/auth.js) -/

/-- The `user` member of a login response. -/
structure LoginUser where
  id : Int
  email : String
  role : String
  first_name : Option String := none
  last_name : Option String := none
deriving DecidableEq, Repr

/-- A response of the auth routes: the status, the `error` or `message` member,
and the members `requires2FA`, `user` and `_dev_reset_token` when present. -/
structure AuthResponse where
  status : Nat
  text : String := ""
  requires2FA : Bool := false
  user : Option LoginUser := none
  devResetToken : Option String := none
deriving DecidableEq, Repr

/-- A `POST /api/auth/login` request; `email` is the member after
`normalizeEmail()`, `errorsEmpty` the verdict of the validator chain. -/
structure LoginRequest where
  ip : String := "127.0.0.1"
  errorsEmpty : Bool := true
  email : String
  password : String
deriving DecidableEq, Repr

namespace AuthRoutes

/-- The handler of `router.post('/login', ...)` (lines 64-122), run once
`rateLimitLogin` has called next. -/
def loginHandler (P : Primitives) (db : Db) (session : Session) (req : LoginRequest)
    (now : Nat) : AuthResponse × Session × Db :=
  if !req.errorsEmpty then ({ status := 400 }, session, db)
  else
    match User.findByEmail P db req.email with
    | none => ({ status := 401, text := "Invalid email or password." }, session, db)
    | some user =>
      if !user.is_active then
        ({ status := 403
           text := "This account has been deactivated. Contact an administrator." }, session, db)
      else if !P.bcryptCompare req.password user.password then
        ({ status := 401, text := "Invalid email or password." }, session,
         logAction db none "LOGIN_FAILED" (some "users") none
           ("Failed login attempt for " ++ req.email) req.ip)
      else
        let session1 : Session :=
          { session with userId := some user.id, role := some user.role
                         lastActivity := some now }
        if user.two_factor_enabled then
          ({ status := 200, text := "Two-factor authentication required.", requires2FA := true
             user := some { id := user.id, email := user.email, role := user.role } },
           { session1 with twoFactorVerified := some false },
           logAction db (some user.id) "LOGIN_2FA_PENDING" (some "users") (some user.id)
             "2FA verification pending" req.ip)
        else
          ({ status := 200, text := "Login successful."
             user := some { id := user.id, email := user.email, role := user.role
                            first_name := some user.first_name
                            last_name := some user.last_name } },
           { session1 with twoFactorVerified := some true },
           logAction (User.updateLastLogin db user.id now) (some user.id) "LOGIN" (some "users")
             (some user.id) "Successful login" req.ip)

/-- `POST /api/auth/login`: `rateLimitLogin`, then the handler. -/
def login (P : Primitives) (testMode : Bool) (attempts : LoginAttempts) (db : Db)
    (session : Session) (req : LoginRequest) (now : Nat) :
    AuthResponse × Session × Db × LoginAttempts :=
  match rateLimitLogin attempts db req.ip now testMode with
  | (.respond r, attempts1, db1) => ({ status := r.status, text := r.text }, session, db1, attempts1)
  | (.next, attempts1, db1) =>
    let out := loginHandler P db1 session req now
    (out.1, out.2.1, out.2.2, attempts1)

/-- `router.post('/verify-2fa', ...)` (lines 127-174); the handler does not
consult `validationResult`.  A session user without a row makes `.email` throw,
which the `catch` answers with 500. -/
def verify2fa (P : Primitives) (db : Db) (session : Session) (token ip : String) (now : Nat) :
    AuthResponse × Session × Db :=
  if !truthyInt session.userId then
    ({ status := 401, text := "Please log in first." }, session, db)
  else
    match db.users.find? fun u => some u.id == session.userId with
    | none => ({ status := 500, text := "2FA verification failed." }, session, db)
    | some row =>
      match User.findByEmail P db row.email with
      | none => ({ status := 400, text := "2FA not configured for this account." }, session, db)
      | some user =>
        match user.two_factor_secret with
        | none => ({ status := 400, text := "2FA not configured for this account." }, session, db)
        | some secret =>
          if secret == "" then
            ({ status := 400, text := "2FA not configured for this account." }, session, db)
          else if !P.totpVerify secret token now then
            ({ status := 401, text := "Invalid verification code." }, session, db)
          else
            ({ status := 200, text := "Two-factor authentication verified."
               user := some { id := user.id, email := user.email, role := user.role
                              first_name := some user.first_name
                              last_name := some user.last_name } },
             { session with twoFactorVerified := some true },
             logAction (User.updateLastLogin db user.id now) (some user.id) "LOGIN_2FA_VERIFIED"
               (some "users") (some user.id) "2FA verification successful" ip)

/-- The message both branches of forgot-password send. -/
def resetLinkSent : String :=
  "If an account with that email exists, a reset link has been sent."

/-- `router.post('/forgot-password', ...)` (lines 261-294) at the instant `now`;
`randomToken` is the value of `crypto.randomBytes(32).toString('hex')`.  The
handler reads no environment variable. -/
def forgotPassword (P : Primitives) (db : Db) (errorsEmpty : Bool) (email ip : String)
    (now : Nat)
    (randomToken : String) : AuthResponse × Db :=
  if !errorsEmpty then ({ status := 400 }, db)
  else
    match User.findByEmail P db email with
    | none => ({ status := 200, text := resetLinkSent }, db)
    | some user =>
      let expires := toISOString (now + 3600000)
      let db1 := User.setResetToken db user.id randomToken expires
      let db2 := logAction db1 (some user.id) "PASSWORD_RESET_REQUEST" (some "users")
        (some user.id) "Password reset requested" ip
      ({ status := 200, text := resetLinkSent, devResetToken := some randomToken }, db2)

/-- `router.post('/reset-password', ...)` (lines 299-324) at the instant `now`. -/
def resetPassword (P : Primitives) (db : Db) (errorsEmpty : Bool) (token password ip : String)
    (now : Nat) : AuthResponse × Db :=
  if !errorsEmpty then ({ status := 400 }, db)
  else
    match User.findByResetToken db token now with
    | none => ({ status := 400, text := "Invalid or expired reset token." }, db)
    | some user =>
      let db1 := User.updatePassword P db user.id password
      let db2 := User.clearResetToken db1 user.id
      let db3 := logAction db2 (some user.id) "PASSWORD_RESET" (some "users") (some user.id)
        "Password reset completed" ip
      ({ status := 200
         text := "Password reset successful. You can now log in with your new password." }, db3)

end AuthRoutes

/-! ## requireRole (src/middleware/auth.js 34-49) -/

/-- `requireRole(...roles)` applied to `req.user`. -/
def requireRole (roles : List String) (db : Db) (user : Option ReqUser) (ip : String) :
    Verdict × Db :=
  match user with
  | none => (.respond { status := 401, text := "Authentication required." }, db)
  | some u =>
    if !roles.contains u.role then
      (.respond { status := 403, text := "Access denied. Insufficient permissions." },
       logAction db (some u.id) "ACCESS_DENIED" none none
         ("User with role '" ++ u.role ++ "' attempted to access route requiring: "
           ++ String.intercalate ", " roles) ip)
    else (.next, db)

/-! ## Query helpers: ORDER BY ... DESC on text columns, LIMIT -/

/-- SQLite's `a >= b` on two TEXT values. -/
def textGe (a b : String) : Bool := !textGt b a

/-- `ORDER BY key DESC` (rows with equal keys keep their table order). -/
def orderByDesc {α : Type} (key : α → String) (rows : List α) : List α :=
  rows.insertionSort fun a b => textGe (key a) (key b) = true

/-- `ORDER BY key1 DESC, key2 DESC`. -/
def orderByDesc2 {α : Type} (key1 key2 : α → String) (rows : List α) : List α :=
  rows.insertionSort fun a b =>
    (textGt (key1 a) (key1 b) || (key1 a == key1 b && textGe (key2 a) (key2 b))) = true

/-- `ORDER BY key1 ASC, key2 ASC`. -/
def orderByAsc2 {α : Type} (key1 key2 : α → String) (rows : List α) : List α :=
  rows.insertionSort fun a b =>
    (textGt (key1 b) (key1 a) || (key1 a == key1 b && textGe (key2 b) (key2 a))) = true

/-- `LIMIT ?` with the number `n` bound to the parameter as a floating-point
value.  SQLite turns it into an integer when that loses nothing and the integer
lies strictly between the smallest and the largest 64-bit integer, and fails with
'datatype mismatch' otherwise (`none`: the statement throws); a negative limit
means no limit. -/
def sqlLimit {α : Type} (n : Int) (rows : List α) : Option (List α) :=
  if n ≤ -(2 ^ 63) ∨ 2 ^ 63 ≤ n then none
  else if n < 0 then some rows
  else some (rows.take n.toNat)

/-- The `LIMIT ?` clause added under `if (filters.limit)`; `limit` is `none` when
the member is `undefined` or `NaN`, which are both falsy. -/
def limitIfTruthy {α : Type} (limit : Option Int) (rows : List α) : Option (List α) :=
  match limit with
  | some n => if n != 0 then sqlLimit n rows else some rows
  | none => some rows

/-- The expression `limit ? parseInt(limit) : undefined` of the list routes, for
the `limit` parameter of the query string (`none` when the parameter is absent);
the result `none` is `undefined` or `NaN`. -/
def parsedLimit (limit : Option String) : Option Int :=
  match limit with
  | some text => if text != "" then parseInt text else none
  | none => none

/-! ## Appointment.getByPatient, getByDoctor (src/models/Appointment.js 66-128) -/

/-- The `filters` object of the appointment list queries. -/
structure AppointmentFilters where
  status : Option String := none
  date : Option String := none
  from_ : Option String := none
  to_ : Option String := none
  limit : Option Int := none
deriving DecidableEq, Repr

/-- The optional `AND column = ?` clause for a text filter. -/
def matchesIfGiven (filter : Option String) (value : String) : Bool :=
  match filter with
  | some f => if f != "" then value == f else true
  | none => true

/-- The optional `AND column = ?` clause on a nullable column: a NULL equals no
value. -/
def matchesIfGivenNullable (filter : Option String) (value : Option String) : Bool :=
  match filter with
  | some f => if f != "" then value == some f else true
  | none => true

/-- The optional `AND a.date >= ?` clause. -/
def notBeforeIfGiven (filter : Option String) (value : String) : Bool :=
  match filter with
  | some f => if f != "" then textGe value f else true
  | none => true

/-- The optional `AND a.date <= ?` clause. -/
def notAfterIfGiven (filter : Option String) (value : String) : Bool :=
  match filter with
  | some f => if f != "" then textGe f value else true
  | none => true

namespace Appointment

/-- `Appointment.getByPatient(patientId, filters)`; the query does not read the
`date` member (`from_`, `to_` are the members `from` and `to`).  `none`: the
statement throws. -/
def getByPatient (db : Db) (patientId : Int) (filters : AppointmentFilters) :
    Option (List AppointmentRow) :=
  limitIfTruthy filters.limit <|
    orderByDesc2 (fun a => a.date) (fun a => a.time) <|
      db.appointments.filter fun a =>
        db.hasUser a.doctor_id && a.patient_id == patientId
          && matchesIfGivenNullable filters.status a.status
          && notBeforeIfGiven filters.from_ a.date && notAfterIfGiven filters.to_ a.date

/-- `Appointment.getByDoctor(doctorId, filters)`; `none`: the statement throws. -/
def getByDoctor (db : Db) (doctorId : Int) (filters : AppointmentFilters) :
    Option (List AppointmentRow) :=
  limitIfTruthy filters.limit <|
    orderByAsc2 (fun a => a.date) (fun a => a.time) <|
      db.appointments.filter fun a =>
        db.hasUser a.patient_id && a.doctor_id == doctorId
          && matchesIfGivenNullable filters.status a.status && matchesIfGiven filters.date a.date
          && notBeforeIfGiven filters.from_ a.date && notAfterIfGiven filters.to_ a.date

end Appointment

/-! ## Prescription model (src/models/Prescription.js) -/

/-- The `filters` object of the prescription list queries. -/
structure PrescriptionFilters where
  status : Option String := none
  patient_id : Option Int := none
  limit : Option Int := none
deriving DecidableEq, Repr

namespace Prescription

/-- `Prescription.findById(id)`: the row joined with its patient and doctor. -/
def findById (db : Db) (id : Int) : Option PrescriptionRow :=
  db.prescriptions.find? fun p => p.id == id && db.hasUser p.patient_id && db.hasUser p.doctor_id

/-- `Prescription.getByPatient(patientId, filters)`; `none`: the statement
throws. -/
def getByPatient (db : Db) (patientId : Int) (filters : PrescriptionFilters) :
    Option (List PrescriptionRow) :=
  limitIfTruthy filters.limit <|
    orderByDesc (fun p => p.created_at) <|
      db.prescriptions.filter fun p =>
        db.hasUser p.doctor_id && p.patient_id == patientId
          && matchesIfGiven filters.status p.status

/-- `Prescription.getByDoctor(doctorId, filters)`; `none`: the statement
throws. -/
def getByDoctor (db : Db) (doctorId : Int) (filters : PrescriptionFilters) :
    Option (List PrescriptionRow) :=
  limitIfTruthy filters.limit <|
    orderByDesc (fun p => p.created_at) <|
      db.prescriptions.filter fun p =>
        db.hasUser p.patient_id && p.doctor_id == doctorId
          && matchesIfGiven filters.status p.status
          && (if truthyInt filters.patient_id then some p.patient_id == filters.patient_id
              else true)

/-- `Prescription.getActiveMedications(patientId)`. -/
def getActiveMedications (db : Db) (patientId : Int) : List PrescriptionRow :=
  orderByDesc (fun p => p.start_date) <|
    db.prescriptions.filter fun p =>
      db.hasUser p.doctor_id && p.patient_id == patientId && p.status == "active"

/-- `Prescription.requestRefill(id)`: the `error` member, or the row returned by
`findById` after the UPDATE; and the database afterwards. -/
def requestRefill (db : Db) (id : Int) : Except String (Option PrescriptionRow) × Db :=
  match db.prescriptions.find? fun p => p.id == id with
  | none => (.error "No refills remaining for this prescription.", db)
  | some rx =>
    if rx.refills_remaining ≤ 0 then (.error "No refills remaining for this prescription.", db)
    else
      let db1 : Db := { db with prescriptions := db.prescriptions.map fun p =>
        if p.id == id then { p with refills_remaining := p.refills_remaining - 1 } else p }
      (.ok (findById db1 id), db1)

end Prescription

/-! ## Read routes of appointments (src/routes/appointments.js 15-45, 107-128) -/

/-- The query string of a list route; a parameter that is absent is `none`. -/
structure ListQuery where
  status : Option String := none
  from_ : Option String := none
  to_ : Option String := none
  limit : Option String := none
deriving DecidableEq, Repr

/-- The rows a route answers with, or the 500 response of its `catch` block when
the query throws. -/
def rowsOrFailed {α : Type} (text : String) (rows : Option (List α)) :
    Except Response (List α) :=
  match rows with
  | some r => .ok r
  | none => .error { status := 500, text := text }

/-- The `LIMIT ?` clause of the administrator's query, added under `limit ? ...`
with `parseInt(limit)` bound to it; a `NaN` is bound as NULL, which `LIMIT`
refuses as well. -/
def limitOfParameter {α : Type} (limit : Option String) (rows : List α) : Option (List α) :=
  if truthyStr limit then
    match parseInt (limit.getD "") with
    | some n => sqlLimit n rows
    | none => none
  else some rows

namespace AppointmentRoutes

/-- `router.get('/')`: the appointments of the caller; an administrator gets
every (joined) row.  `.ok rows` is the 200 response `{ appointments: rows }`. -/
def list (db : Db) (session : Option Session) (query : ListQuery) :
    Except Response (List AppointmentRow) :=
  match isAuthenticated db session with
  | .error r => .error r
  | .ok user =>
    let filters : AppointmentFilters :=
      { status := query.status, from_ := query.from_, to_ := query.to_
        limit := parsedLimit query.limit }
    if user.role == "doctor" then
      rowsOrFailed "Failed to retrieve appointments." (Appointment.getByDoctor db user.id filters)
    else if user.role == "patient" then
      rowsOrFailed "Failed to retrieve appointments." (Appointment.getByPatient db user.id filters)
    else
      rowsOrFailed "Failed to retrieve appointments." <|
        limitOfParameter query.limit <|
          orderByDesc2 (fun a => a.date) (fun a => a.time) <|
            db.appointments.filter fun a => db.hasUser a.patient_id && db.hasUser a.doctor_id

/-- `router.get('/:id')`; `.ok row` is the 200 response `{ appointment: row }`. -/
def get (db : Db) (session : Option Session) (id : Int) : Except Response AppointmentRow :=
  match isAuthenticated db session with
  | .error r => .error r
  | .ok user =>
    match Appointment.findById db id with
    | none => .error { status := 404, text := "Appointment not found." }
    | some appointment =>
      if user.role == "patient" && appointment.patient_id != user.id then
        .error { status := 403, text := "Access denied." }
      else if user.role == "doctor" && appointment.doctor_id != user.id then
        .error { status := 403, text := "Access denied." }
      else .ok appointment

end AppointmentRoutes

/-! ## Prescription routes (src/routes/prescriptions.js 14-90, 177-212) -/

namespace PrescriptionRoutes

/-- `router.get('/')`; `.ok rows` is the 200 response `{ prescriptions: rows }`. -/
def list (db : Db) (session : Option Session) (query : ListQuery) :
    Except Response (List PrescriptionRow) :=
  match isAuthenticated db session with
  | .error r => .error r
  | .ok user =>
    let filters : PrescriptionFilters :=
      { status := query.status, limit := parsedLimit query.limit }
    if user.role == "patient" then
      rowsOrFailed "Failed to retrieve prescriptions."
        (Prescription.getByPatient db user.id filters)
    else if user.role == "doctor" then
      rowsOrFailed "Failed to retrieve prescriptions."
        (Prescription.getByDoctor db user.id filters)
    else
      rowsOrFailed "Failed to retrieve prescriptions." <|
        limitOfParameter query.limit <|
          orderByDesc (fun p => p.created_at) <|
            db.prescriptions.filter fun p => db.hasUser p.patient_id && db.hasUser p.doctor_id

/-- `router.get('/active')`; `patientIdParam` is `req.query.patient_id`.  A
parameter `parseInt` cannot read gives `NaN`, which is bound as NULL and equals the
`patient_id` of no row.  `.ok rows` is the 200 response `{ medications: rows }`. -/
def active (db : Db) (session : Option Session) (patientIdParam : Option String) :
    Except Response (List PrescriptionRow) :=
  match isAuthenticated db session with
  | .error r => .error r
  | .ok user =>
    if user.role == "patient" then .ok (Prescription.getActiveMedications db user.id)
    else if truthyStr patientIdParam then
      match parseInt (patientIdParam.getD "") with
      | some patientId => .ok (Prescription.getActiveMedications db patientId)
      | none => .ok []
    else .error { status := 400, text := "patient_id is required." }

/-- `router.get('/:id')`; `.ok row` is the 200 response `{ prescription: row }`. -/
def get (db : Db) (session : Option Session) (id : Int) : Except Response PrescriptionRow :=
  match isAuthenticated db session with
  | .error r => .error r
  | .ok user =>
    match Prescription.findById db id with
    | none => .error { status := 404, text := "Prescription not found." }
    | some prescription =>
      if user.role == "patient" && prescription.patient_id != user.id then
        .error { status := 403, text := "Access denied." }
      else if user.role == "doctor" && prescription.doctor_id != user.id then
        .error { status := 403, text := "Access denied." }
      else .ok prescription

/-- `router.post('/:id/refill', requireRole('patient'), ...)`: the response, its
`prescription` member, and the database afterwards. -/
def refill (db : Db) (session : Option Session) (id : Int) (ip : String) :
    Response × Option PrescriptionRow × Db :=
  match isAuthenticated db session with
  | .error r => (r, none, db)
  | .ok user =>
    match requireRole ["patient"] db (some user) ip with
    | (.respond r, db0) => (r, none, db0)
    | (.next, db0) =>
      match Prescription.findById db0 id with
      | none => ({ status := 404, text := "Prescription not found." }, none, db0)
      | some prescription =>
        if prescription.patient_id != user.id then
          ({ status := 403, text := "Access denied." }, none, db0)
        else
          match Prescription.requestRefill db0 id with
          | (.error e, db1) => ({ status := 400, text := e }, none, db1)
          | (.ok none, db1) => ({ status := 500, text := "Failed to request refill." }, none, db1)
          | (.ok (some result), db1) =>
            if !db1.hasUser prescription.doctor_id then
              ({ status := 500, text := "Failed to request refill." }, none, db1)
            else
              let db2 : Db := { db1 with notifications := db1.notifications ++
                [{ user_id := prescription.doctor_id
                   type := "refill_request"
                   title := "Refill Request"
                   message := user.first_name ++ " " ++ user.last_name
                     ++ " requested a refill for " ++ prescription.medication ++ "."
                   link := some "/prescriptions" }] }
              let db3 := logAction db2 (some user.id) "REFILL_REQUEST" (some "prescriptions")
                (some id) ("Refill requested for " ++ prescription.medication) ip
              ({ status := 200, text := "Refill requested." }, some result, db3)

end PrescriptionRoutes

/-! ## Patient routes (src/routes/patients.js 54-85, 134-156) -/

namespace PatientRoutes

/-- `router.get('/:id')`; `.ok row` is the 200 response `{ patient: row }`. -/
def get (db : Db) (session : Option Session) (patientId : Int) : Except Response UserRow :=
  match isAuthenticated db session with
  | .error r => .error r
  | .ok user =>
    if user.role == "patient" && user.id != patientId then
      .error { status := 403, text := "Access denied." }
    else
      match User.findById db patientId with
      | none => .error { status := 404, text := "Patient not found." }
      | some patient =>
        if patient.role != "patient" then .error { status := 404, text := "Patient not found." }
        else if user.role == "doctor" &&
            (db.appointments.filter fun a =>
              a.doctor_id == user.id && a.patient_id == patientId).length == 0 then
          .error { status := 403, text := "This patient is not assigned to you." }
        else .ok patient

/-- `router.get('/:id/lab-results')`; `.ok rows` is the 200 response
`{ labResults: rows }`. -/
def labResults (db : Db) (session : Option Session) (patientId : Int) :
    Except Response (List LabResultRow) :=
  match isAuthenticated db session with
  | .error r => .error r
  | .ok user =>
    if user.role == "patient" && user.id != patientId then
      .error { status := 403, text := "Access denied." }
    else
      .ok (orderByDesc (fun r => r.test_date) <|
        db.lab_results.filter fun r => db.hasUser r.doctor_id && r.patient_id == patientId)

end PatientRoutes

/-! ## Running a sequence of login requests -/

/-- The statuses answered to a sequence of `POST /api/auth/login` requests, each
sent at the given instant by a client without a session, the Map and the
database being threaded from one request to the next. -/
def loginStatuses (P : Primitives) (testMode : Bool) :
    LoginAttempts → Db → List (Nat × LoginRequest) → List Nat
  | _, _, [] => []
  | attempts, db, (now, req) :: rest =>
    let out := AuthRoutes.login P testMode attempts db {} req now
    out.1.status :: loginStatuses P testMode out.2.2.2 out.2.2.1 rest

/-- The request passes validation and its credentials are wrong: no user has the
email, or the user is active and the password does not match. -/
def WrongCredentials (P : Primitives) (db : Db) (req : LoginRequest) : Prop :=
  req.errorsEmpty = true ∧
    (User.findByEmail P db req.email = none ∨
      ∃ u, User.findByEmail P db req.email = some u ∧ u.is_active = true ∧
        P.bcryptCompare req.password u.password = false)

/-! ## Stand-ins for the primitives, used to evaluate examples -/

/-- Toy primitives: the hash of `p` is `"hash:" ++ p`, `compare` recomputes it,
a one-time code verifies when it is `"123456"`, and `toLowerCase` lowers the
letters A-Z, which is what JavaScript does on the ASCII strings of the examples. -/
def toyPrimitives : Primitives :=
  { bcryptHash := fun p => "hash:" ++ p
    bcryptCompare := fun p h => h == "hash:" ++ p
    totpVerify := fun _ token _ => token == "123456"
    toLowerCase := fun s => String.mk (s.data.map Char.toLower) }

/-- The clinic with every password stored as the toy hash of `"Secret123"`. -/
def hashedClinic : Db :=
  { users := clinicUsers.map fun u => { u with password := "hash:Secret123" } }

/-- The hashed clinic in which patient 3 has been deactivated. -/
def clinicWithInactive : Db :=
  { users := hashedClinic.users.map fun u =>
      if u.id == 3 then { u with is_active := false } else u }

/-- The hashed clinic after `POST /auth/forgot-password` for patient 2 at
2025-01-06T09:00:00Z (1 736 154 000 000 ms), the random token being `"a3f1"`. -/
def resetRequested : Db :=
  (AuthRoutes.forgotPassword toyPrimitives hashedClinic true "p@x.org" "203.0.113.7" 1736154000000 "a3f1").2

/-- The Map and the database after five logins with a wrong password for
patient 2, one per minute from instant 0, all from the address 127.0.0.1. -/
def afterFiveFailures : LoginAttempts × Db :=
  [0, 60000, 120000, 180000, 240000].foldl (fun state now =>
    ((AuthRoutes.login toyPrimitives false state.1 state.2 {}
        { email := "p@x.org", password := "wrong" } now).2.2.2,
     (AuthRoutes.login toyPrimitives false state.1 state.2 {}
        { email := "p@x.org", password := "wrong" } now).2.2.1)) (noAttempts, hashedClinic)

/-! ## The password-reset round trip -/

/-- The responses of a reset round trip and the database after the reset. -/
structure RoundTrip where
  forgot : AuthResponse
  reset : AuthResponse
  afterReset : Db
  loginNew : AuthResponse
  loginOld : AuthResponse
  secondReset : AuthResponse

/-- Forgot-password at `t0`, reset-password at `t1` with the token taken from the
forgot-password response, `POST /auth/login` with the new password at `t2`,
`POST /auth/login` with the old password at `t3`, and a second reset with the same
token at `t4`, all from the address `ip`, starting with the Map `attempts` of the
rate limiter; every request passes validation and the logins come from clients
without a session. -/
def resetRoundTrip (P : Primitives) (testMode : Bool) (attempts : LoginAttempts) (db : Db)
    (email oldPassword newPassword ip : String) (randomToken : String)
    (t0 t1 t2 t3 t4 : Nat) : RoundTrip :=
  let s1 := AuthRoutes.forgotPassword P db true email ip t0 randomToken
  let token := s1.1.devResetToken.getD ""
  let s2 := AuthRoutes.resetPassword P s1.2 true token newPassword ip t1
  let l1 := AuthRoutes.login P testMode attempts s2.2 {}
    { ip := ip, email := email, password := newPassword } t2
  let l2 := AuthRoutes.login P testMode l1.2.2.2 l1.2.2.1 {}
    { ip := ip, email := email, password := oldPassword } t3
  let s3 := AuthRoutes.resetPassword P l2.2.2.1 true token newPassword ip t4
  { forgot := s1.1, reset := s2.1, afterReset := s2.2, loginNew := l1.1, loginOld := l2.1
    secondReset := s3.1 }

/-- A clinic with a second doctor (id 5) who treats patient 3: one appointment,
one lab result and one active prescription link doctor 5 and patient 3; no
appointment links doctor 1 and patient 3. -/
def twoDoctorClinic : Db :=
  { users := clinicUsers ++
      [{ id := 5, email := "e@x.org", password := "h5", first_name := "Eli", last_name := "Ng"
         role := "doctor" }]
    appointments := [{ id := 1, patient_id := 3, doctor_id := 5, date := "2025-01-06"
                       time := "10:00" }]
    appointments_seq := 1
    prescriptions := [{ id := 1, patient_id := 3, doctor_id := 5, medication := "Lisinopril"
                        dosage := "10 mg", frequency := "daily", start_date := "2025-01-06"
                        refills_remaining := 2, refills_total := 2
                        created_at := "2025-01-06 10:30:00" }]
    lab_results := [{ id := 1, patient_id := 3, doctor_id := 5, test_name := "HbA1c"
                      category := "blood", result_value := "5.4"
                      test_date := "2025-01-06" }] }

/-! ## Password validators (src/routes/auth.js 16-17, 301-302, 331-332) -/

/-- The line terminators of ECMAScript, which `.` does not match in a pattern
without the `s` flag. -/
def isLineTerminator (c : Char) : Bool :=
  c == '\n' || c == '\r' || c.val == 0x2028 || c.val == 0x2029

/-- The characters `.*` can run over from the start of the string. -/
def firstLine (s : String) : List Char :=
  s.data.takeWhile fun c => !isLineTerminator c

/-- `matches(/^(?=.*[a-z])(?=.*[A-Z])(?=.*\d)/)`: three lookaheads at the start
of the string, each asking for a character of its class after any run of
characters other than line terminators. -/
def matchesPasswordPattern (s : String) : Bool :=
  (firstLine s).any Char.isLower && (firstLine s).any Char.isUpper
    && (firstLine s).any Char.isDigit

/-- The variation selectors U+FE0E and U+FE0F, which `isLength` does not count. -/
def isVariationSelector (c : Char) : Bool :=
  c.val == 0xFE0F || c.val == 0xFE0E

/-- `isLength({ min })` of validator.js: the length it compares with `min` is
`str.length` less the number of surrogate pairs (that is, the number of
characters) less the number of variation selectors U+FE0E and U+FE0F. -/
def isLength (s : String) (min : Nat) : Bool :=
  decide (min ≤ s.length - (s.data.filter isVariationSelector).length)

namespace AuthRoutes

/-- The chain on `password` of `POST /auth/register` (lines 16-17). -/
def registerPasswordAccepted (password : String) : Bool :=
  isLength password 8 && matchesPasswordPattern password

/-- The chain on `password` of `POST /auth/reset-password` (lines 301-302). -/
def resetPasswordAccepted (password : String) : Bool :=
  isLength password 8 && matchesPasswordPattern password

/-- The chain on `new_password` of `POST /auth/change-password` (lines 331-332). -/
def changePasswordAccepted (new_password : String) : Bool :=
  isLength new_password 8 && matchesPasswordPattern new_password

end AuthRoutes

/-- The password policy as the specification words it: at least 8 characters,
with at least one lowercase letter a-z, one uppercase letter A-Z and one digit. -/
def PasswordPolicy (p : String) : Prop :=
  8 ≤ p.length ∧ (∃ c ∈ p.data, c.isLower = true) ∧ (∃ c ∈ p.data, c.isUpper = true) ∧
    (∃ c ∈ p.data, c.isDigit = true)

/-! ## User.update and the flag updates (src/models/User.js 69-94, 121-144) -/

namespace User

/-- The array `allowedFields` of `User.update`. -/
def allowedFields : List String :=
  ["first_name", "last_name", "phone", "date_of_birth", "gender", "address", "specialty",
   "license_number", "insurance_id", "emergency_contact", "emergency_phone", "profile_image"]

/-- The effect of one `key = ?` clause of an UPDATE of `users` on a row, for a
text value: the column named `key` takes the value.  Keys that name no text
column leave the row as it is. -/
def setColumn (u : UserRow) (key value : String) : UserRow :=
  match key with
  | "email" => { u with email := value }
  | "password" => { u with password := value }
  | "first_name" => { u with first_name := value }
  | "last_name" => { u with last_name := value }
  | "role" => { u with role := value }
  | "phone" => { u with phone := some value }
  | "date_of_birth" => { u with date_of_birth := some value }
  | "gender" => { u with gender := some value }
  | "address" => { u with address := some value }
  | "specialty" => { u with specialty := some value }
  | "license_number" => { u with license_number := some value }
  | "insurance_id" => { u with insurance_id := some value }
  | "emergency_contact" => { u with emergency_contact := some value }
  | "emergency_phone" => { u with emergency_phone := some value }
  | "profile_image" => { u with profile_image := some value }
  | "two_factor_secret" => { u with two_factor_secret := some value }
  | "password_reset_token" => { u with password_reset_token := some value }
  | "password_reset_expires" => { u with password_reset_expires := some value }
  | "last_login" => { u with last_login := some value }
  | _ => u

/-- `User.update(userId, updates)`; `updates` is the list `Object.entries(updates)`
of an object with text values.  The result is the returned row (`null` when no
key is allowed) and the database afterwards. -/
def update (db : Db) (userId : Int) (updates : List (String × String)) : Option UserRow × Db :=
  let setClauses := updates.filter fun entry => allowedFields.contains entry.1
  if setClauses.length == 0 then (none, db)
  else
    let db1 := db.updateUsers userId fun u =>
      setClauses.foldl (fun row entry => setColumn row entry.1 entry.2) u
    (findById db1 userId, db1)

/-- `User.set2FASecret(userId, secret)`. -/
def set2FASecret (db : Db) (userId : Int) (secret : String) : Db :=
  db.updateUsers userId fun u => { u with two_factor_secret := some secret }

/-- `User.enable2FA(userId)`. -/
def enable2FA (db : Db) (userId : Int) : Db :=
  db.updateUsers userId fun u => { u with two_factor_enabled := true }

/-- `User.disable2FA(userId)`. -/
def disable2FA (db : Db) (userId : Int) : Db :=
  db.updateUsers userId fun u => { u with two_factor_enabled := false, two_factor_secret := none }

/-- `User.deactivate(userId)`. -/
def deactivate (db : Db) (userId : Int) : Db :=
  db.updateUsers userId fun u => { u with is_active := false }

/-- `User.activate(userId)`. -/
def activate (db : Db) (userId : Int) : Db :=
  db.updateUsers userId fun u => { u with is_active := true }

end User

/-- The id and the role of every row of `users`, in table order. -/
def Db.roles (db : Db) : List (Int × String) :=
  db.users.map fun u => (u.id, u.role)

/-! ## Running a sequence of rateLimitLogin calls -/

/-- The Map and the database after a sequence of `rateLimitLogin` calls outside
test mode, each given by its source address and its instant. -/
def limiterRun (calls : List (String × Nat)) (start : LoginAttempts × Db) : LoginAttempts × Db :=
  calls.foldl (fun state call =>
    ((rateLimitLogin state.1 state.2 call.1 call.2 false).2.1,
     (rateLimitLogin state.1 state.2 call.1 call.2 false).2.2)) start

/-! ## More example data -/

/-- The clinic with two past appointments of patient 2 with doctor 1: a cancelled
one (id 1) and a completed one (id 2). -/
def finishedVisits : Db :=
  { users := clinicUsers
    appointments :=
      [ { id := 1, patient_id := 2, doctor_id := 1, date := "2025-01-06", time := "09:00"
          status := some "cancelled" },
        { id := 2, patient_id := 2, doctor_id := 1, date := "2025-01-07", time := "09:00"
          status := some "completed" } ]
    appointments_seq := 2 }

/-! ## Theorems -/

/-! ### Facts about the slot grid -/

theorem allSlots_eq_gridSlots : allSlots = gridSlots := by decide

theorem notCancelled_iff (status : Option String) :
    Appointment.notCancelled status = true ↔ ∃ s, status = some s ∧ s ≠ "cancelled" := by
  cases status with
  | none => simp [Appointment.notCancelled]
  | some s => simp [Appointment.notCancelled]

theorem mem_booked_times (db : Db) (doctorId : Int) (date s : String) :
    s ∈ (Appointment.booked db doctorId date).map (fun b => b.1) ↔
      ∃ a ∈ db.appointments,
        a.doctor_id = doctorId ∧ a.date = date ∧ Appointment.notCancelled a.status = true ∧
          a.time = s := by
  simp only [Appointment.booked, List.mem_map, List.mem_filter, Bool.and_eq_true, beq_iff_eq]
  constructor
  · rintro ⟨b, ⟨a, ⟨ha, ⟨hd, hdate⟩, hst⟩, rfl⟩, rfl⟩
    exact ⟨a, ha, hd, hdate, hst, rfl⟩
  · rintro ⟨a, ha, hd, hdate, hst, rfl⟩
    exact ⟨(a.time, a.duration), ⟨a, ⟨ha, ⟨hd, hdate⟩, hst⟩, rfl⟩, rfl⟩

theorem mem_getAvailableSlots (db : Db) (doctorId : Int) (date s : String) :
    s ∈ Appointment.getAvailableSlots db doctorId date ↔
      s ∈ gridSlots ∧ ¬ ∃ a ∈ db.appointments,
        a.doctor_id = doctorId ∧ a.date = date ∧ Appointment.notCancelled a.status = true ∧
          a.time = s := by
  rw [← mem_booked_times, ← allSlots_eq_gridSlots]
  simp [Appointment.getAvailableSlots, List.mem_filter]

/-! ### Facts about `Appointment.create` -/

theorem foldl_max_id_ge (l : List AppointmentRow) (m : Int) :
    m ≤ l.foldl (fun m a => max m a.id) m ∧
      ∀ a ∈ l, a.id ≤ l.foldl (fun m a => max m a.id) m := by
  induction l generalizing m with
  | nil => simp
  | cons b l ih =>
    obtain ⟨h1, h2⟩ := ih (max m b.id)
    refine ⟨le_trans (le_max_left _ _) h1, ?_⟩
    intro a ha
    rcases List.mem_cons.mp ha with rfl | ha
    · exact le_trans (le_max_right _ _) h1
    · exact h2 a ha

theorem id_lt_nextId (db : Db) (a : AppointmentRow) (ha : a ∈ db.appointments) :
    a.id < Appointment.nextId db := by
  have := (foldl_max_id_ge db.appointments db.appointments_seq).2 a ha
  unfold Appointment.nextId
  omega

theorem findById_inserted (db : Db) (row : AppointmentRow) (seq : Int)
    (hid : row.id = Appointment.nextId db)
    (hp : db.hasUser row.patient_id = true) (hd : db.hasUser row.doctor_id = true) :
    Appointment.findById
      { db with appointments := db.appointments ++ [row], appointments_seq := seq } row.id
      = some row := by
  unfold Appointment.findById
  have hnone : db.appointments.find? (fun a => a.id == row.id
      && Db.hasUser { db with appointments := db.appointments ++ [row], appointments_seq := seq }
          a.patient_id
      && Db.hasUser { db with appointments := db.appointments ++ [row], appointments_seq := seq }
          a.doctor_id) = none := by
    rw [List.find?_eq_none]
    intro a ha
    have := id_lt_nextId db a ha
    have hne : ¬ a.id = row.id := by omega
    simp [hne]
  simp only [List.find?_append, hnone, Option.none_or]
  have hp1 : Db.hasUser { db with appointments := db.appointments ++ [row], appointments_seq := seq }
      row.patient_id = true := hp
  have hd1 : Db.hasUser { db with appointments := db.appointments ++ [row], appointments_seq := seq }
      row.doctor_id = true := hd
  simp [List.find?, hp1, hd1]

theorem create_of_users (db : Db) (data : CreateData) (patientId : Int)
    (hs : data.status = none) (hpid : data.patient_id = some patientId)
    (hp : db.hasUser patientId = true) (hd : db.hasUser data.doctor_id = true) :
    Appointment.create db data =
      some (some (Appointment.newRow db data patientId),
        { db with appointments := db.appointments ++ [Appointment.newRow db data patientId]
                  appointments_seq := Appointment.nextId db }) := by
  have hst : (Appointment.newRow db data patientId).status = some "scheduled" := by
    simp [Appointment.newRow, hs, strOr]
  have hp1 : db.hasUser (Appointment.newRow db data patientId).patient_id = true := hp
  have hd1 : db.hasUser (Appointment.newRow db data patientId).doctor_id = true := hd
  have hfind := findById_inserted db (Appointment.newRow db data patientId)
    (Appointment.nextId db) rfl hp1 hd1
  have hidr : (Appointment.newRow db data patientId).id = Appointment.nextId db := rfl
  unfold Appointment.create
  simp only [hpid, hp1, hd1, hst, hidr] at hfind ⊢
  rw [hfind]
  simp [statusCheck, appointmentStatuses]

theorem create_none_of_no_patient (db : Db) (data : CreateData) (patientId : Int)
    (hpid : data.patient_id = some patientId)
    (hp : db.hasUser patientId = false) : Appointment.create db data = none := by
  have hp1 : db.hasUser (Appointment.newRow db data patientId).patient_id = false := hp
  unfold Appointment.create
  simp [hpid, hp1]

theorem create_none_of_nan (db : Db) (data : CreateData) (hpid : data.patient_id = none) :
    Appointment.create db data = none := by
  unfold Appointment.create
  simp [hpid]

theorem hasUser_of_findById (db : Db) (id : Int) (u : UserRow)
    (h : User.findById db id = some u) : db.hasUser id = true := by
  unfold User.findById at h
  have hm := List.mem_of_find?_eq_some h
  have hp := List.find?_some h
  simp only [beq_iff_eq] at hp
  simp only [Db.hasUser, List.any_eq_true, beq_iff_eq]
  exact ⟨u, hm, hp⟩

theorem findById_isSome_of_hasUser (db : Db) (id : Int) (h : db.hasUser id = true) :
    ∃ u, User.findById db id = some u := by
  simp only [Db.hasUser, List.any_eq_true, beq_iff_eq] at h
  obtain ⟨u, hu, hid⟩ := h
  unfold User.findById
  cases hf : db.users.find? (fun u => u.id == id) with
  | some v => exact ⟨v, rfl⟩
  | none =>
    rw [List.find?_eq_none] at hf
    exact absurd (by simpa using hid) (hf u hu)

theorem hasUser_of_validDoctor (db : Db) (id : Int)
    (h : AppointmentRoutes.validDoctor db id = true) : db.hasUser id = true := by
  unfold AppointmentRoutes.validDoctor at h
  cases hf : User.findById db id with
  | none => simp [hf] at h
  | some u => exact hasUser_of_findById db id u hf

/-! ### Facts about `POST /api/appointments` -/

theorem logAction_appointments (db : Db) (userId : Option Int) (action : String)
    (resource : Option String) (resourceId : Option Int) (details ip : String) :
    (logAction db userId action resource resourceId details ip).appointments = db.appointments ∧
    (logAction db userId action resource resourceId details ip).users = db.users := by
  unfold logAction
  dsimp only
  split_ifs <;> exact ⟨rfl, rfl⟩

theorem post_inserted (db : Db) (req : PostRequest) (user : ReqUser) (patientId : Int)
    (h : ReachesInsert db req user patientId) (hpat : db.hasUser patientId = true) :
    (AppointmentRoutes.post db req).1 =
      { status := 201, text := "Appointment scheduled successfully."
        appointment := some (Appointment.newRow db (postData req (some patientId)) patientId) } ∧
    (AppointmentRoutes.post db req).2.appointments =
      db.appointments ++ [Appointment.newRow db (postData req (some patientId)) patientId] ∧
    (AppointmentRoutes.post db req).2.users = db.users := by
  obtain ⟨hauth, hvalid, hpid, hdoc, hslot⟩ := h
  have hd := hasUser_of_validDoctor db _ hdoc
  have hcreate := create_of_users db (postData req (some patientId)) patientId rfl rfl hpat hd
  obtain ⟨patient, hpatient⟩ := findById_isSome_of_hasUser db patientId hpat
  have hslot' : (Appointment.getAvailableSlots db req.body.doctor_id req.body.date).contains
      req.body.time = true := by simpa using hslot
  unfold postData at hcreate
  have hpatient' : (some patientId).bind (User.findById
      { db with appointments := db.appointments ++
                  [Appointment.newRow db (postData req (some patientId)) patientId]
                appointments_seq := Appointment.nextId db }) = some patient := hpatient
  have hd' : Db.hasUser
      { db with appointments := db.appointments ++
                  [Appointment.newRow db (postData req (some patientId)) patientId]
                appointments_seq := Appointment.nextId db } req.body.doctor_id = true := hd
  unfold postData at hpatient' hd'
  unfold AppointmentRoutes.post
  simp only [hauth, hvalid, hpid, hdoc, hslot', hcreate, hpatient', hd', Bool.not_true,
    Bool.false_eq_true, if_false]
  refine ⟨rfl, ?_, ?_⟩
  · rw [(logAction_appointments _ _ _ _ _ _ _).1]; rfl
  · rw [(logAction_appointments _ _ _ _ _ _ _).2]

theorem post_rejected_by_foreign_key (db : Db) (req : PostRequest) (user : ReqUser)
    (patientId : Int) (h : ReachesInsert db req user patientId)
    (hpat : db.hasUser patientId = false) :
    AppointmentRoutes.post db req = (AppointmentRoutes.postFailed, db) := by
  obtain ⟨hauth, hvalid, hpid, hdoc, hslot⟩ := h
  have hcreate := create_none_of_no_patient db (postData req (some patientId)) patientId rfl hpat
  have hslot' : (Appointment.getAvailableSlots db req.body.doctor_id req.body.date).contains
      req.body.time = true := by simpa using hslot
  unfold postData at hcreate
  unfold AppointmentRoutes.post
  simp only [hauth, hvalid, hpid, hdoc, hslot', hcreate, Bool.not_true,
    Bool.false_eq_true, if_false]

/-- A `patient_id` that `parseInt` cannot read reaches the INSERT as `NaN`, and
the handler answers 500 with nothing inserted. -/
theorem post_rejected_nan (db : Db) (req : PostRequest) (user : ReqUser)
    (hauth : isAuthenticated db req.session = .ok user) (hvalid : req.errorsEmpty = true)
    (hpid : AppointmentRoutes.patientIdOf user req.body = some none)
    (hdoc : AppointmentRoutes.validDoctor db req.body.doctor_id = true)
    (hslot : req.body.time ∈ Appointment.getAvailableSlots db req.body.doctor_id req.body.date) :
    AppointmentRoutes.post db req = (AppointmentRoutes.postFailed, db) := by
  have hcreate := create_none_of_nan db (postData req none) rfl
  have hslot' : (Appointment.getAvailableSlots db req.body.doctor_id req.body.date).contains
      req.body.time = true := by simpa using hslot
  unfold postData at hcreate
  unfold AppointmentRoutes.post
  simp only [hauth, hvalid, hpid, hdoc, hslot', hcreate, Bool.not_true,
    Bool.false_eq_true, if_false]

/-- Every POST either inserts (status 201, through the path of `post_inserted`)
or answers another status and returns the database it was given. -/
theorem post_inserted_or_unchanged (db : Db) (req : PostRequest) :
    (∃ user patientId, ReachesInsert db req user patientId ∧ db.hasUser patientId = true) ∨
    ((AppointmentRoutes.post db req).1.status ≠ 201 ∧ (AppointmentRoutes.post db req).2 = db) := by
  cases hauth : isAuthenticated db req.session with
  | error r =>
    right
    have hr : r.status = 401 := by
      unfold isAuthenticated at hauth
      split at hauth
      · cases hauth; rfl
      · split at hauth
        · split at hauth
          · split at hauth
            · cases hauth
            · cases hauth; rfl
          · cases hauth; rfl
        · cases hauth; rfl
    unfold AppointmentRoutes.post
    simp [hauth, hr]
  | ok user =>
    by_cases hvalid : req.errorsEmpty = true
    swap
    · right
      unfold AppointmentRoutes.post
      simp [hauth, hvalid]
    cases hpid : AppointmentRoutes.patientIdOf user req.body with
    | none =>
      right
      unfold AppointmentRoutes.post
      simp [hauth, hvalid, hpid]
    | some parsed =>
      by_cases hdoc : AppointmentRoutes.validDoctor db req.body.doctor_id = true
      swap
      · right
        unfold AppointmentRoutes.post
        simp [hauth, hvalid, hpid, hdoc]
      by_cases hslot : req.body.time ∈
          Appointment.getAvailableSlots db req.body.doctor_id req.body.date
      swap
      · right
        unfold AppointmentRoutes.post
        simp [hauth, hvalid, hpid, hdoc, hslot]
      cases parsed with
      | none =>
        right
        rw [post_rejected_nan db req user hauth hvalid hpid hdoc hslot]
        simp [AppointmentRoutes.postFailed]
      | some patientId =>
        by_cases hpat : db.hasUser patientId = true
        · left
          exact ⟨user, patientId, ⟨hauth, hvalid, hpid, hdoc, hslot⟩, hpat⟩
        · right
          have hpat' : db.hasUser patientId = false := by simpa using hpat
          rw [post_rejected_by_foreign_key db req user patientId
            ⟨hauth, hvalid, hpid, hdoc, hslot⟩ hpat']
          simp [AppointmentRoutes.postFailed]

/-! ### Facts about `Appointment.cancel` and free days -/

theorem slots_of_free_day (db : Db) (doctorId : Int) (date : String)
    (hfree : ∀ a ∈ db.appointments, a.doctor_id = doctorId → a.date = date →
      a.status = some "cancelled") :
    Appointment.getAvailableSlots db doctorId date = gridSlots := by
  rw [← allSlots_eq_gridSlots]
  unfold Appointment.getAvailableSlots
  apply List.filter_eq_self.mpr
  intro s _
  have hnot : s ∉ (Appointment.booked db doctorId date).map (fun b => b.1) := by
    rw [mem_booked_times]
    rintro ⟨a, ha, hd, hdate, hst, _⟩
    rw [hfree a ha hd hdate] at hst
    exact absurd hst (by decide)
  simpa using hnot

theorem cancel_eq (db : Db) (id : Int) :
    Appointment.cancel db id =
      some (Appointment.findById { db with appointments := cancelledRows db.appointments id } id,
        { db with appointments := cancelledRows db.appointments id }) := by
  have hall : ((db.appointments.map fun a =>
      if a.id == id then Appointment.applySet { status := some (some "cancelled") } a else a).filter
        fun a => a.id == id).all (fun a =>
          Appointment.notNullOk { status := some (some "cancelled") } && statusCheck a.status)
        = true := by
    rw [List.all_eq_true]
    intro a ha
    rw [List.mem_filter, List.mem_map] at ha
    obtain ⟨⟨b, _, hb⟩, hid⟩ := ha
    by_cases hbid : b.id = id
    · simp only [hbid, beq_self_eq_true, if_true] at hb
      subst hb
      show (Appointment.notNullOk { status := some (some "cancelled") }
        && statusCheck (some "cancelled")) = true
      decide
    · have hb' : b = a := by simpa [hbid] using hb
      subst hb'
      simp [hbid] at hid
  unfold Appointment.cancel Appointment.update
  have hlen : ((Appointment.setClauses { status := some (some "cancelled") }).length == 0)
      = false := by
    decide
  simp only [hlen, hall, Bool.false_eq_true, if_false, if_true]
  rfl

/-! ### Claims -/

/-- C1 (fails on the code): starting from an empty appointment table, two accepted
bookings followed by an accepted `PUT /appointments/2` with body `{time: "09:00"}`
leave two `scheduled` rows with the same doctor, date and time, so the
booking-conflict invariant does not hold in every reachable store. -/
theorem C1_put_breaks_booking_invariant :
    clinic.appointments = [] ∧
    (AppointmentRoutes.post clinic
      { session := some (sessionOf 2)
        body := { doctor_id := 1, date := "2025-01-06", time := "09:00" } }).1.status = 201 ∧
    (AppointmentRoutes.post
      (AppointmentRoutes.post clinic
        { session := some (sessionOf 2)
          body := { doctor_id := 1, date := "2025-01-06", time := "09:00" } }).2
      { session := some (sessionOf 3)
        body := { doctor_id := 1, date := "2025-01-06", time := "09:30" } }).1.status = 201 ∧
    (AppointmentRoutes.put
      (AppointmentRoutes.post
        (AppointmentRoutes.post clinic
          { session := some (sessionOf 2)
            body := { doctor_id := 1, date := "2025-01-06", time := "09:00" } }).2
        { session := some (sessionOf 3)
          body := { doctor_id := 1, date := "2025-01-06", time := "09:30" } }).2
      { session := some (sessionOf 3), id := 2
        body := { time := some (some "09:00") } }).1.status = 200 ∧
    doubleBooked.appointments =
      [ { id := 1, patient_id := 2, doctor_id := 1, date := "2025-01-06", time := "09:00" },
        { id := 2, patient_id := 3, doctor_id := 1, date := "2025-01-06", time := "09:00" } ] ∧
    ¬ NoConflict doubleBooked.appointments := by
  refine ⟨rfl, ?_, ?_, ?_, ?_, ?_⟩ <;> decide

/-- C3 fails as stated: patient 2 sets the status of appointment 1 (doctor 1,
2025-01-06, 09:00) to NULL with `PUT /appointments/1` and body `{status: null}`,
which is answered 200.  The row then has a status other than `cancelled` and
starts at the grid slot 09:00, yet 09:00 is an available slot: for a NULL status
the condition `status != 'cancelled'` of the query is not true. -/
theorem C3_null_status_row_leaves_slot_available :
    (AppointmentRoutes.put hourLongVisit
      { session := some (sessionOf 2), id := 1, body := { status := some none } }).1.status = 200 ∧
    statusCleared.appointments =
      [ { id := 1, patient_id := 2, doctor_id := 1, date := "2025-01-06", time := "09:00"
          duration := some 60, status := none } ] ∧
    "09:00" ∈ gridSlots ∧
    (∃ a ∈ statusCleared.appointments, a.doctor_id = 1 ∧ a.date = "2025-01-06" ∧
      a.status ≠ some "cancelled" ∧ a.time = "09:00") ∧
    "09:00" ∈ Appointment.getAvailableSlots statusCleared 1 "2025-01-06" := by
  refine ⟨by decide, by decide, by decide, ?_, by decide⟩
  exact ⟨{ id := 1, patient_id := 2, doctor_id := 1, date := "2025-01-06", time := "09:00"
           duration := some 60, status := none }, by decide, rfl, rfl, by decide, rfl⟩

/-- C3 (amended): a string is an available slot exactly when it is one of the 18
grid slots and no row of that doctor and date whose status is set (not NULL) and
is not `cancelled` starts at it; durations play no part (rewriting every duration
leaves the result unchanged), and a 60-minute appointment at 09:00 removes 09:00
and leaves 09:30. -/
theorem C3_getAvailableSlots_mem_iff (db : Db) (doctorId : Int) (date s : String) :
    gridSlots.length = 18 ∧
    (s ∈ Appointment.getAvailableSlots db doctorId date ↔
      s ∈ gridSlots ∧ ¬ ∃ a ∈ db.appointments,
        a.doctor_id = doctorId ∧ a.date = date ∧
          (∃ status, a.status = some status ∧ status ≠ "cancelled") ∧ a.time = s) ∧
    (∀ f : AppointmentRow → Option Int,
      Appointment.getAvailableSlots
        { db with appointments := db.appointments.map fun a => { a with duration := f a } }
        doctorId date = Appointment.getAvailableSlots db doctorId date) ∧
    "09:00" ∉ Appointment.getAvailableSlots hourLongVisit 1 "2025-01-06" ∧
    "09:30" ∈ Appointment.getAvailableSlots hourLongVisit 1 "2025-01-06" := by
  refine ⟨by decide, ?_, ?_, by decide, by decide⟩
  · rw [mem_getAvailableSlots]
    simp only [notCancelled_iff]
  · intro f
    simp only [Appointment.getAvailableSlots, Appointment.booked, List.filter_map, List.map_map]
    rfl

/-- C4: when the doctor has no appointment that day other than cancelled ones,
the available slots are exactly 08:00, 08:30, ..., 16:30: 18 strings of the form
HH:MM, in ascending order, without duplicates. -/
theorem C4_free_day_full_grid (db : Db) (doctorId : Int) (date : String)
    (hfree : ∀ a ∈ db.appointments, a.doctor_id = doctorId → a.date = date →
      a.status = some "cancelled") :
    Appointment.getAvailableSlots db doctorId date =
      ["08:00", "08:30", "09:00", "09:30", "10:00", "10:30", "11:00", "11:30", "12:00",
       "12:30", "13:00", "13:30", "14:00", "14:30", "15:00", "15:30", "16:00", "16:30"] ∧
    (Appointment.getAvailableSlots db doctorId date).length = 18 ∧
    (Appointment.getAvailableSlots db doctorId date).Pairwise (fun s t => s < t) ∧
    (Appointment.getAvailableSlots db doctorId date).Nodup ∧
    ∀ s ∈ Appointment.getAvailableSlots db doctorId date, isHHMM s = true := by
  have hall : Appointment.getAvailableSlots db doctorId date = gridSlots :=
    slots_of_free_day db doctorId date hfree
  rw [hall]
  refine ⟨rfl, by decide, ?_, by decide, by decide⟩
  have hlt : gridSlots.Pairwise (fun s t => s.toList < t.toList) := by decide
  exact hlt.imp fun h => String.lt_iff_toList_lt.mpr h

/-- Witness for C4: doctor 1 has only a cancelled appointment on 2025-01-06. -/
theorem C4_free_day_full_grid_witness :
    Appointment.getAvailableSlots
      { users := clinicUsers
        appointments := [ { id := 1, patient_id := 2, doctor_id := 1, date := "2025-01-06",
                            time := "09:00", status := some "cancelled" } ] } 1 "2025-01-06" =
      ["08:00", "08:30", "09:00", "09:30", "10:00", "10:30", "11:00", "11:30", "12:00",
       "12:30", "13:00", "13:30", "14:00", "14:30", "15:00", "15:30", "16:00", "16:30"] :=
  (C4_free_day_full_grid
    { users := clinicUsers
      appointments := [ { id := 1, patient_id := 2, doctor_id := 1, date := "2025-01-06",
                          time := "09:00", status := some "cancelled" } ] } 1 "2025-01-06"
    (by decide)).1

/-- C2 fails as stated: an administrator's request passes validation, determines
patient id 99, names a valid doctor and a free slot, and still is not answered
201: no user has id 99, the INSERT violates the foreign key, and the handler
answers 500 with nothing inserted. -/
theorem C2_unknown_patient_gets_500 :
    isAuthenticated clinic bookingForUnknownPatient.session =
      .ok { id := 4, email := "a@x.org", role := "admin", first_name := "Ada",
            last_name := "Min", is_active := true } ∧
    bookingForUnknownPatient.errorsEmpty = true ∧
    AppointmentRoutes.patientIdOf
      { id := 4, email := "a@x.org", role := "admin", first_name := "Ada",
        last_name := "Min", is_active := true } bookingForUnknownPatient.body
      = some (some 99) ∧
    AppointmentRoutes.validDoctor clinic bookingForUnknownPatient.body.doctor_id = true ∧
    bookingForUnknownPatient.body.time ∈ Appointment.getAvailableSlots clinic
      bookingForUnknownPatient.body.doctor_id bookingForUnknownPatient.body.date ∧
    (AppointmentRoutes.post clinic bookingForUnknownPatient).1.status = 500 ∧
    (AppointmentRoutes.post clinic bookingForUnknownPatient).1.status ≠ 201 ∧
    (AppointmentRoutes.post clinic bookingForUnknownPatient).2 = clinic := by
  refine ⟨rfl, rfl, rfl, ?_, ?_, ?_, ?_, ?_⟩ <;> decide

/-- C2 (amended): for a request that passes field validation and determines a
patient id: an invalid doctor gives 400 and an unchanged database; else a time
outside the available slots gives 409 and an unchanged database; else, when the
patient id is the id of a user, the answer is 201 and exactly one row is appended,
with status `scheduled` and the requested patient, doctor, date and time; and when
no user has the patient id the answer is 500 and the database is unchanged. -/
theorem C2_post_result (db : Db) (req : PostRequest) (user : ReqUser) (patientId : Int)
    (hauth : isAuthenticated db req.session = .ok user)
    (hvalid : req.errorsEmpty = true)
    (hpid : AppointmentRoutes.patientIdOf user req.body = some (some patientId)) :
    (AppointmentRoutes.validDoctor db req.body.doctor_id = false →
      (AppointmentRoutes.post db req).1.status = 400 ∧ (AppointmentRoutes.post db req).2 = db) ∧
    (AppointmentRoutes.validDoctor db req.body.doctor_id = true →
      req.body.time ∉ Appointment.getAvailableSlots db req.body.doctor_id req.body.date →
      (AppointmentRoutes.post db req).1.status = 409 ∧ (AppointmentRoutes.post db req).2 = db) ∧
    (AppointmentRoutes.validDoctor db req.body.doctor_id = true →
      req.body.time ∈ Appointment.getAvailableSlots db req.body.doctor_id req.body.date →
      db.hasUser patientId = true →
      (AppointmentRoutes.post db req).1.status = 201 ∧
      ∃ row, (AppointmentRoutes.post db req).2.appointments = db.appointments ++ [row] ∧
        (AppointmentRoutes.post db req).1.appointment = some row ∧
        row.status = some "scheduled" ∧ row.patient_id = patientId ∧
        row.doctor_id = req.body.doctor_id ∧ row.date = req.body.date ∧
        row.time = req.body.time) ∧
    (AppointmentRoutes.validDoctor db req.body.doctor_id = true →
      req.body.time ∈ Appointment.getAvailableSlots db req.body.doctor_id req.body.date →
      db.hasUser patientId = false →
      (AppointmentRoutes.post db req).1.status = 500 ∧ (AppointmentRoutes.post db req).2 = db) := by
  refine ⟨?_, ?_, ?_, ?_⟩
  · intro hdoc
    unfold AppointmentRoutes.post
    simp [hauth, hvalid, hpid, hdoc]
  · intro hdoc hslot
    unfold AppointmentRoutes.post
    simp [hauth, hvalid, hpid, hdoc, hslot]
  · intro hdoc hslot hpat
    obtain ⟨hresp, happ, _⟩ :=
      post_inserted db req user patientId ⟨hauth, hvalid, hpid, hdoc, hslot⟩ hpat
    refine ⟨by rw [hresp], Appointment.newRow db (postData req (some patientId)) patientId, happ,
      by rw [hresp], rfl, rfl, rfl, rfl, rfl⟩
  · intro hdoc hslot hpat
    rw [post_rejected_by_foreign_key db req user patientId ⟨hauth, hvalid, hpid, hdoc, hslot⟩ hpat]
    exact ⟨rfl, rfl⟩

/-- Witness for C2: patient 2 books 09:00 with doctor 1 in the empty clinic. -/
theorem C2_post_result_witness :
    (AppointmentRoutes.post clinic
      { session := some (sessionOf 2)
        body := { doctor_id := 1, date := "2025-01-06", time := "09:00" } }).1.status = 201 :=
  ((C2_post_result clinic
      { session := some (sessionOf 2)
        body := { doctor_id := 1, date := "2025-01-06", time := "09:00" } }
      { id := 2, email := "p@x.org", role := "patient", first_name := "Pat",
        last_name := "Poe", is_active := true } 2 rfl rfl rfl).2.2.1
    (by decide) (by decide) (by decide)).1

/-- C6: a POST that is not answered 201 leaves the appointments, the
notifications and the audit log (indeed the whole database) as they were. -/
theorem C6_post_failure_changes_nothing (db : Db) (req : PostRequest)
    (h : (AppointmentRoutes.post db req).1.status ≠ 201) :
    (AppointmentRoutes.post db req).2.appointments = db.appointments ∧
    (AppointmentRoutes.post db req).2.notifications = db.notifications ∧
    (AppointmentRoutes.post db req).2.audit_log = db.audit_log ∧
    (AppointmentRoutes.post db req).2 = db := by
  rcases post_inserted_or_unchanged db req with ⟨user, patientId, hreach, hpat⟩ | ⟨_, hsame⟩
  · have hresp := (post_inserted db req user patientId hreach hpat).1
    rw [hresp] at h
    exact absurd rfl h
  · rw [hsame]
    exact ⟨rfl, rfl, rfl, rfl⟩

/-- Witness for C6: a second booking of the slot taken in `hourLongVisit` is
answered 409 and changes nothing. -/
theorem C6_post_failure_changes_nothing_witness :
    (AppointmentRoutes.post hourLongVisit
      { session := some (sessionOf 3)
        body := { doctor_id := 1, date := "2025-01-06", time := "09:00" } }).1.status = 409 ∧
    (AppointmentRoutes.post hourLongVisit
      { session := some (sessionOf 3)
        body := { doctor_id := 1, date := "2025-01-06", time := "09:00" } }).2 = hourLongVisit :=
  ⟨by decide,
   (C6_post_failure_changes_nothing hourLongVisit
      { session := some (sessionOf 3)
        body := { doctor_id := 1, date := "2025-01-06", time := "09:00" } } (by decide)).2.2.2⟩

/-- A second request for the slot a booking has just taken is answered 409 and
changes nothing. -/
theorem post_same_slot_conflict (db : Db) (r1 r2 : PostRequest) (u1 u2 : ReqUser) (p1 p2 : Int)
    (h1 : ReachesInsert db r1 u1 p1) (hp1 : db.hasUser p1 = true)
    (h2 : ReachesInsert db r2 u2 p2)
    (hdoctor : r1.body.doctor_id = r2.body.doctor_id) (hdate : r1.body.date = r2.body.date)
    (htime : r1.body.time = r2.body.time) :
    AppointmentRoutes.post (AppointmentRoutes.post db r1).2 r2 =
      ({ status := 409, text := "This time slot is no longer available." },
       (AppointmentRoutes.post db r1).2) := by
  obtain ⟨_, happ, husers⟩ := post_inserted db r1 u1 p1 h1 hp1
  obtain ⟨hauth, hvalid, hpid, hdoc, _⟩ := h2
  generalize AppointmentRoutes.post db r1 = out at happ husers ⊢
  have hauth1 : isAuthenticated out.2 r2.session = .ok u2 := by
    rw [← hauth]
    unfold isAuthenticated
    rw [husers]
  have hdoc1 : AppointmentRoutes.validDoctor out.2 r2.body.doctor_id = true := by
    rw [← hdoc]
    unfold AppointmentRoutes.validDoctor User.findById
    rw [husers]
  have hslot1 : r2.body.time ∉
      Appointment.getAvailableSlots out.2 r2.body.doctor_id r2.body.date := by
    rw [mem_getAvailableSlots]
    rintro ⟨_, hno⟩
    apply hno
    refine ⟨Appointment.newRow db (postData r1 (some p1)) p1, by rw [happ]; simp,
      hdoctor, hdate, rfl, htime⟩
  unfold AppointmentRoutes.post
  simp [hauth1, hvalid, hpid, hdoc1, hslot1]

/-- C7: the POST handler is a synchronous function and the server one process,
so two simultaneous calls are served one after the other, in one of the two
orders.  For two requests that name the same doctor, date and time and that the
store as it is would each accept (authenticated callers, valid fields, patient
ids of existing users, a valid doctor, a free slot): whichever is served first is
answered 201 and inserts one row, and the other is then answered 409 and leaves
the store as the first left it; never two successes. -/
theorem C7_simultaneous_bookings (db : Db) (r1 r2 : PostRequest) (u1 u2 : ReqUser) (p1 p2 : Int)
    (h1 : ReachesInsert db r1 u1 p1) (hp1 : db.hasUser p1 = true)
    (h2 : ReachesInsert db r2 u2 p2) (hp2 : db.hasUser p2 = true)
    (hdoctor : r1.body.doctor_id = r2.body.doctor_id) (hdate : r1.body.date = r2.body.date)
    (htime : r1.body.time = r2.body.time) :
    ((AppointmentRoutes.post db r1).1.status = 201 ∧
      (AppointmentRoutes.post (AppointmentRoutes.post db r1).2 r2).1.status = 409 ∧
      (AppointmentRoutes.post (AppointmentRoutes.post db r1).2 r2).2 =
        (AppointmentRoutes.post db r1).2 ∧
      (AppointmentRoutes.post (AppointmentRoutes.post db r1).2 r2).2.appointments.length =
        db.appointments.length + 1) ∧
    ((AppointmentRoutes.post db r2).1.status = 201 ∧
      (AppointmentRoutes.post (AppointmentRoutes.post db r2).2 r1).1.status = 409 ∧
      (AppointmentRoutes.post (AppointmentRoutes.post db r2).2 r1).2 =
        (AppointmentRoutes.post db r2).2 ∧
      (AppointmentRoutes.post (AppointmentRoutes.post db r2).2 r1).2.appointments.length =
        db.appointments.length + 1) := by
  constructor
  · have hfirst := post_inserted db r1 u1 p1 h1 hp1
    have hsecond := post_same_slot_conflict db r1 r2 u1 u2 p1 p2 h1 hp1 h2 hdoctor hdate htime
    refine ⟨by rw [hfirst.1], by rw [hsecond], by rw [hsecond], ?_⟩
    rw [hsecond, hfirst.2.1]
    simp
  · have hfirst := post_inserted db r2 u2 p2 h2 hp2
    have hsecond := post_same_slot_conflict db r2 r1 u2 u1 p2 p1 h2 hp2 h1 hdoctor.symm
      hdate.symm htime.symm
    refine ⟨by rw [hfirst.1], by rw [hsecond], by rw [hsecond], ?_⟩
    rw [hsecond, hfirst.2.1]
    simp

/-- Witness for C7: patients 2 and 3 both ask for 09:00 with doctor 1 on
2025-01-06 in the empty clinic. -/
theorem C7_simultaneous_bookings_witness :
    ((AppointmentRoutes.post clinic
        { session := some (sessionOf 2)
          body := { doctor_id := 1, date := "2025-01-06", time := "09:00" } }).1.status = 201 ∧
      (AppointmentRoutes.post
        (AppointmentRoutes.post clinic
          { session := some (sessionOf 2)
            body := { doctor_id := 1, date := "2025-01-06", time := "09:00" } }).2
        { session := some (sessionOf 3)
          body := { doctor_id := 1, date := "2025-01-06", time := "09:00" } }).1.status = 409) ∧
    ((AppointmentRoutes.post clinic
        { session := some (sessionOf 3)
          body := { doctor_id := 1, date := "2025-01-06", time := "09:00" } }).1.status = 201 ∧
      (AppointmentRoutes.post
        (AppointmentRoutes.post clinic
          { session := some (sessionOf 3)
            body := { doctor_id := 1, date := "2025-01-06", time := "09:00" } }).2
        { session := some (sessionOf 2)
          body := { doctor_id := 1, date := "2025-01-06", time := "09:00" } }).1.status = 409) :=
  have h := C7_simultaneous_bookings clinic
    { session := some (sessionOf 2)
      body := { doctor_id := 1, date := "2025-01-06", time := "09:00" } }
    { session := some (sessionOf 3)
      body := { doctor_id := 1, date := "2025-01-06", time := "09:00" } }
    { id := 2, email := "p@x.org", role := "patient", first_name := "Pat", last_name := "Poe"
      is_active := true }
    { id := 3, email := "q@x.org", role := "patient", first_name := "Quinn", last_name := "Roe"
      is_active := true } 2 3
    ⟨rfl, rfl, rfl, by decide, by decide⟩ (by decide)
    ⟨rfl, rfl, rfl, by decide, by decide⟩ (by decide) rfl rfl rfl
  ⟨⟨h.1.1, h.1.2.1⟩, ⟨h.2.1, h.2.2.1⟩⟩

/-- C5: when the doctor is free all day and a POST for 09:00 is answered 201, the
available slots afterwards leave out 09:00 and keep the other 17 grid slots; and
`Appointment.cancel` of the created appointment succeeds, keeps every row (the
created one now with status `cancelled`), and makes the available slots the full
grid again. -/
theorem C5_book_cancel_round_trip (db : Db) (req : PostRequest)
    (hfree : ∀ a ∈ db.appointments, a.doctor_id = req.body.doctor_id →
      a.date = req.body.date → a.status = some "cancelled")
    (htime : req.body.time = "09:00")
    (h201 : (AppointmentRoutes.post db req).1.status = 201) :
    ∃ created db1, AppointmentRoutes.post db req =
        ({ status := 201, text := "Appointment scheduled successfully."
           appointment := some created }, db1) ∧
      created ∈ db1.appointments ∧
      "09:00" ∉ Appointment.getAvailableSlots db1 req.body.doctor_id req.body.date ∧
      (∀ s ∈ gridSlots, s ≠ "09:00" →
        s ∈ Appointment.getAvailableSlots db1 req.body.doctor_id req.body.date) ∧
      ∃ returned db2, Appointment.cancel db1 created.id = some (returned, db2) ∧
        { created with status := some "cancelled" } ∈ db2.appointments ∧
        db2.appointments.length = db1.appointments.length ∧
        Appointment.getAvailableSlots db2 req.body.doctor_id req.body.date = gridSlots := by
  rcases post_inserted_or_unchanged db req with ⟨user, patientId, hreach, hpat⟩ | ⟨hne, _⟩
  swap
  · exact absurd h201 hne
  obtain ⟨hresp, happ, _⟩ := post_inserted db req user patientId hreach hpat
  have hrowtime : (Appointment.newRow db (postData req (some patientId)) patientId).time
      = "09:00" := htime
  generalize hrow : Appointment.newRow db (postData req (some patientId)) patientId = row
    at hresp happ hrowtime
  have hrd : row.doctor_id = req.body.doctor_id := by rw [← hrow]; rfl
  have hrdate : row.date = req.body.date := by rw [← hrow]; rfl
  have hrst : row.status = some "scheduled" := by rw [← hrow]; rfl
  refine ⟨row, (AppointmentRoutes.post db req).2, Prod.ext hresp rfl, ?_, ?_, ?_, ?_⟩
  · rw [happ]; simp
  · rw [mem_getAvailableSlots]
    rintro ⟨_, hno⟩
    apply hno
    refine ⟨row, by rw [happ]; simp, hrd, hrdate, ?_, hrowtime⟩
    rw [hrst]; decide
  · intro s hs hne
    rw [mem_getAvailableSlots]
    refine ⟨hs, ?_⟩
    rintro ⟨a, ha, hd, hdate, hst, ht⟩
    rw [happ, List.mem_append, List.mem_singleton] at ha
    rcases ha with ha | rfl
    · rw [hfree a ha hd hdate] at hst
      exact absurd hst (by decide)
    · exact hne (ht.symm.trans hrowtime)
  · rw [cancel_eq]
    refine ⟨_, _, rfl, ?_, ?_, ?_⟩
    · show _ ∈ cancelledRows _ _
      unfold cancelledRows
      rw [List.mem_map]
      refine ⟨row, by rw [happ]; simp, ?_⟩
      simp
    · show (cancelledRows _ _).length = _
      unfold cancelledRows
      rw [List.length_map]
    · apply slots_of_free_day
      intro a ha hd hdate
      change a ∈ cancelledRows _ _ at ha
      unfold cancelledRows at ha
      rw [List.mem_map] at ha
      obtain ⟨b, hb, hba⟩ := ha
      by_cases hbid : b.id = row.id
      · simp only [hbid, beq_self_eq_true, if_true] at hba
        rw [← hba]
      · have hba' : b = a := by simpa [hbid] using hba
        subst hba'
        rw [happ, List.mem_append, List.mem_singleton] at hb
        rcases hb with hb | rfl
        · exact hfree b hb hd hdate
        · exact absurd rfl hbid

/-- Witness for C5: patient 2 books 09:00 with doctor 1, who has only a cancelled
appointment that day, and the booking is then cancelled. -/
theorem C5_book_cancel_round_trip_witness :
    ∃ created db1, AppointmentRoutes.post
        { users := clinicUsers
          appointments := [ { id := 1, patient_id := 3, doctor_id := 1, date := "2025-01-06",
                              time := "09:00", status := some "cancelled" } ]
          appointments_seq := 1 }
        { session := some (sessionOf 2)
          body := { doctor_id := 1, date := "2025-01-06", time := "09:00" } } =
        ({ status := 201, text := "Appointment scheduled successfully."
           appointment := some created }, db1) ∧
      created ∈ db1.appointments ∧
      "09:00" ∉ Appointment.getAvailableSlots db1 1 "2025-01-06" ∧
      (∀ s ∈ gridSlots, s ≠ "09:00" → s ∈ Appointment.getAvailableSlots db1 1 "2025-01-06") ∧
      ∃ returned db2, Appointment.cancel db1 created.id = some (returned, db2) ∧
        { created with status := some "cancelled" } ∈ db2.appointments ∧
        db2.appointments.length = db1.appointments.length ∧
        Appointment.getAvailableSlots db2 1 "2025-01-06" = gridSlots :=
  C5_book_cancel_round_trip
    { users := clinicUsers
      appointments := [ { id := 1, patient_id := 3, doctor_id := 1, date := "2025-01-06",
                          time := "09:00", status := some "cancelled" } ]
      appointments_seq := 1 }
    { session := some (sessionOf 2)
      body := { doctor_id := 1, date := "2025-01-06", time := "09:00" } }
    (by decide) rfl (by decide)

/-- C8 (fails on the code): with a session in the PASSWORD_VERIFIED state
(patient 2 has 2FA enabled, `twoFactorVerified = false`), `isAuthenticated` calls
next, `GET /auth/me` answers 200 and `POST /appointments` answers 201; only
`is2FAVerified`, which no route mounts, answers 403. -/
theorem C8_pending_2fa_session_passes_isAuthenticated :
    (clinicWith2FA.users.find? fun u => u.id == 2).map (fun u => u.two_factor_enabled) = some true ∧
    isAuthenticated clinicWith2FA (some pendingSession) =
      .ok { id := 2, email := "p@x.org", role := "patient", first_name := "Pat",
            last_name := "Poe", is_active := true } ∧
    (AuthRoutes.me clinicWith2FA (some pendingSession)).status = 200 ∧
    (AppointmentRoutes.post clinicWith2FA
      { session := some pendingSession
        body := { doctor_id := 1, date := "2025-01-06", time := "09:00" } }).1.status = 201 ∧
    is2FAVerified clinicWith2FA (some pendingSession) =
      .respond { status := 403, text := "Two-factor authentication required." } := by
  refine ⟨by decide, rfl, by decide, by decide, by decide⟩

/-- C9 (fails on the code): `trackActivity` overwrites `lastActivity` with the
current time before it compares, so with both clock readings equal it calls next
for every session; a session last active at time 0 and used at 1 800 001 ms (one
millisecond past 30 minutes) is not destroyed and gets `lastActivity = 1800001`. -/
theorem C9_trackActivity_never_answers_440 (session : Option Session) (now : Nat) :
    (trackActivity session now now).1 = .next ∧
    trackActivity (some { userId := some 2, lastActivity := some 0 }) 1800001 1800001 =
      (.next, some { userId := some 2, lastActivity := some 1800001 }) := by
  refine ⟨?_, by decide⟩
  unfold trackActivity
  cases session with
  | none => rfl
  | some s =>
    by_cases hu : truthyInt s.userId = true
    · have hlt : ¬ sessionTimeout < 0 := by decide
      simp [hu, hlt]
    · simp [hu]

/-- C10: with no identity `canAccessPatient` answers 401; with an identity it
calls next exactly when the decision table allows (admin; patient with the target
id equal to their own; doctor with at least one appointment row, of any status,
linking them to the target) and answers 403 exactly when it does not. -/
theorem C10_canAccessPatient_decision_table (db : Db) (u : ReqUser) (target : Option Int) :
    (∃ r, canAccessPatient db none target = .respond r ∧ r.status = 401) ∧
    (canAccessPatient db (some u) target = .next ↔ AccessAllowed db u target) ∧
    ((∃ r, canAccessPatient db (some u) target = .respond r ∧ r.status = 403) ↔
      ¬ AccessAllowed db u target) ∧
    canAccessPatient
      { users := clinicUsers
        appointments := [ { id := 1, patient_id := 2, doctor_id := 1, date := "2025-01-06",
                            time := "09:00", status := some "cancelled" } ] }
      (some { id := 1, email := "d@x.org", role := "doctor", first_name := "Dana",
              last_name := "Diaz", is_active := true }) (some 2) = .next := by
  have hcount : (0 < (db.appointments.filter fun a =>
      a.doctor_id == u.id && some a.patient_id == target).length) ↔
      ∃ a ∈ db.appointments, a.doctor_id = u.id ∧ some a.patient_id = target := by
    rw [List.length_pos_iff_exists_mem]
    simp [List.mem_filter]
  refine ⟨⟨_, rfl, rfl⟩, ?_, ?_, by decide⟩
  · unfold canAccessPatient AccessAllowed
    by_cases ha : u.role = "admin"
    · simp [ha]
    by_cases hp : u.role = "patient"
    · by_cases hid : some u.id = target <;> simp [hp, hid]
    by_cases hd : u.role = "doctor"
    · simp only [hd, beq_iff_eq, gt_iff_lt]
      by_cases hc : ∃ a ∈ db.appointments, a.doctor_id = u.id ∧ some a.patient_id = target
      · simp [hcount.mpr hc, hc]
      · simp [mt hcount.mp hc, hc]
    · simp [ha, hp, hd]
  · unfold canAccessPatient AccessAllowed
    by_cases ha : u.role = "admin"
    · simp [ha]
    by_cases hp : u.role = "patient"
    · by_cases hid : some u.id = target <;> simp [hp, hid]
    by_cases hd : u.role = "doctor"
    · simp only [hd, beq_iff_eq, gt_iff_lt]
      by_cases hc : ∃ a ∈ db.appointments, a.doctor_id = u.id ∧ some a.patient_id = target
      · simp [hcount.mpr hc, hc]
      · simp [mt hcount.mp hc, hc]
    · simp [ha, hp, hd]


/-! ### Facts about `rateLimitLogin` -/

theorem recentAttempts_congr (a b : LoginAttempts) (ip : String) (now : Nat)
    (h : (a ip).getD [] = (b ip).getD []) : recentAttempts a ip now = recentAttempts b ip now := by
  unfold recentAttempts
  rw [h]

theorem recentAttempts_length_le (attempts : LoginAttempts) (ip : String) (now : Nat) :
    (recentAttempts attempts ip now).length ≤ ((attempts ip).getD []).length := by
  unfold recentAttempts
  exact List.length_filter_le _ _

/-- A call of `rateLimitLogin` in test mode, or with fewer than 5 unexpired
attempts stored for the address, calls next, records the attempt and leaves the
database alone. -/
theorem rateLimit_pass (attempts : LoginAttempts) (db : Db) (ip : String) (now : Nat)
    (testMode : Bool)
    (hpass : testMode = true ∨ (recentAttempts attempts ip now).length < maxAttempts) :
    (rateLimitLogin attempts db ip now testMode).1 = .next ∧
    (rateLimitLogin attempts db ip now testMode).2.1 ip =
      some (recentAttempts attempts ip now ++ [now]) ∧
    (rateLimitLogin attempts db ip now testMode).2.2 = db := by
  have hrec : recentAttempts
      (if (attempts ip).isNone then attempts.set ip [] else attempts) ip now =
      recentAttempts attempts ip now := by
    apply recentAttempts_congr
    cases h : attempts ip <;> simp [h, LoginAttempts.set]
  have hcond : (decide ((recentAttempts attempts ip now).length ≥ maxAttempts) && !testMode)
      = false := by
    rcases hpass with ht | hlen
    · simp [ht]
    · have : ¬ (recentAttempts attempts ip now).length ≥ maxAttempts := by omega
      simp [this]
  unfold rateLimitLogin
  simp only [hrec, hcond, Bool.false_eq_true, if_false]
  exact ⟨trivial, by simp [LoginAttempts.set], trivial⟩

theorem rateLimit_eq (attempts : LoginAttempts) (db : Db) (ip : String) (now : Nat) :
    (rateLimitLogin attempts db ip now false).1 =
      (if maxAttempts ≤ (recentAttempts attempts ip now).length then
        .respond { status := 429
                   text := "Too many login attempts. Please try again in 15 minutes." }
       else .next) ∧
    (rateLimitLogin attempts db ip now false).2.1 ip =
      some (if maxAttempts ≤ (recentAttempts attempts ip now).length then
        recentAttempts attempts ip now else recentAttempts attempts ip now ++ [now]) ∧
    (∀ key, key ≠ ip → (rateLimitLogin attempts db ip now false).2.1 key = attempts key) ∧
    (rateLimitLogin attempts db ip now false).2.2 =
      (if maxAttempts ≤ (recentAttempts attempts ip now).length then
        { db with audit_log := db.audit_log ++
            [{ user_id := none, action := "RATE_LIMIT_HIT", resource := none, resource_id := none
               details := "IP " ++ ip ++ " exceeded login rate limit", ip_address := ip }] }
       else db) := by
  have hrec : recentAttempts
      (if (attempts ip).isNone then attempts.set ip [] else attempts) ip now =
      recentAttempts attempts ip now := by
    apply recentAttempts_congr
    cases h : attempts ip <;> simp [h, LoginAttempts.set]
  unfold rateLimitLogin
  simp only [hrec]
  by_cases hlen : maxAttempts ≤ (recentAttempts attempts ip now).length
  · simp only [hlen, decide_True, Bool.not_false, Bool.and_self, if_true, ge_iff_le]
    refine ⟨trivial, by simp [LoginAttempts.set], ?_, by simp [logAction]⟩
    intro key hkey
    cases h : attempts ip <;> simp [h, LoginAttempts.set, hkey]
  · simp only [hlen, decide_False, Bool.false_and, Bool.false_eq_true, if_false, ge_iff_le]
    refine ⟨trivial, by simp [LoginAttempts.set], ?_, trivial⟩
    intro key hkey
    cases h : attempts ip <;> simp [h, LoginAttempts.set, hkey]

/-- C14: one call of `rateLimitLogin` outside test mode.  With `L` the stored
times `t` of the key such that `now - t < 15 min`: when `L` has 5 or more
entries the call answers 429, appends one RATE_LIMIT_HIT audit entry and stores
exactly `L`; otherwise it calls next, leaves the database alone and stores `L`
followed by `now`.  The entries of all other keys are unchanged. -/
theorem C14_rateLimitLogin_step (attempts : LoginAttempts) (db : Db) (ip : String) (now : Nat) :
    (rateLimitLogin attempts db ip now false).1 =
      (if 5 ≤ (((attempts ip).getD []).filter fun (t : Nat) =>
          decide ((now : Int) - (t : Int) < 15 * 60 * 1000)).length then
        .respond { status := 429
                   text := "Too many login attempts. Please try again in 15 minutes." }
       else .next) ∧
    (rateLimitLogin attempts db ip now false).2.1 ip =
      some (if 5 ≤ (((attempts ip).getD []).filter fun (t : Nat) =>
          decide ((now : Int) - (t : Int) < 15 * 60 * 1000)).length then
        ((attempts ip).getD []).filter fun (t : Nat) => decide ((now : Int) - (t : Int) < 15 * 60 * 1000)
       else (((attempts ip).getD []).filter fun (t : Nat) =>
          decide ((now : Int) - (t : Int) < 15 * 60 * 1000)) ++ [now]) ∧
    (∀ key, key ≠ ip → (rateLimitLogin attempts db ip now false).2.1 key = attempts key) ∧
    (rateLimitLogin attempts db ip now false).2.2 =
      (if 5 ≤ (((attempts ip).getD []).filter fun (t : Nat) =>
          decide ((now : Int) - (t : Int) < 15 * 60 * 1000)).length then
        { db with audit_log := db.audit_log ++
            [{ user_id := none, action := "RATE_LIMIT_HIT", resource := none, resource_id := none
               details := "IP " ++ ip ++ " exceeded login rate limit", ip_address := ip }] }
       else db) :=
  rateLimit_eq attempts db ip now


/-! ### Facts about the login route -/

theorem logAction_users (db : Db) (userId : Option Int) (action : String)
    (resource : Option String) (resourceId : Option Int) (details ip : String) :
    (logAction db userId action resource resourceId details ip).users = db.users :=
  (logAction_appointments db userId action resource resourceId details ip).2

theorem findByEmail_congr (P : Primitives) (db db1 : Db) (email : String)
    (h : db1.users = db.users) :
    User.findByEmail P db1 email = User.findByEmail P db email := by
  unfold User.findByEmail
  rw [h]

theorem wrongCredentials_congr (P : Primitives) (db db1 : Db) (req : LoginRequest)
    (h : db1.users = db.users) (hw : WrongCredentials P db req) : WrongCredentials P db1 req := by
  unfold WrongCredentials at hw ⊢
  rw [findByEmail_congr P db db1 req.email h]
  exact hw

theorem loginHandler_wrong (P : Primitives) (db : Db) (session : Session) (req : LoginRequest)
    (now : Nat) (hw : WrongCredentials P db req) :
    (AuthRoutes.loginHandler P db session req now).1 =
      { status := 401, text := "Invalid email or password." } ∧
    (AuthRoutes.loginHandler P db session req now).2.2.users = db.users := by
  obtain ⟨hvalid, hnone | ⟨u, hu, hact, hcmp⟩⟩ := hw
  · unfold AuthRoutes.loginHandler
    simp [hvalid, hnone]
  · unfold AuthRoutes.loginHandler
    simp [hvalid, hu, hact, hcmp, logAction_users]

theorem login_step (P : Primitives) (db : Db) (attempts : LoginAttempts) (session : Session)
    (req : LoginRequest) (now : Nat) (hw : WrongCredentials P db req) :
    (AuthRoutes.login P false attempts db session req now).1.status =
      (if maxAttempts ≤ (recentAttempts attempts req.ip now).length then 429 else 401) ∧
    (AuthRoutes.login P false attempts db session req now).2.2.1.users = db.users ∧
    (AuthRoutes.login P false attempts db session req now).2.2.2 req.ip =
      some (if maxAttempts ≤ (recentAttempts attempts req.ip now).length then
        recentAttempts attempts req.ip now else recentAttempts attempts req.ip now ++ [now]) := by
  obtain ⟨hv, hst, _, hdb⟩ := rateLimit_eq attempts db req.ip now
  rcases hrl : rateLimitLogin attempts db req.ip now false with ⟨v, a1, db1⟩
  rw [hrl] at hv hst hdb
  simp only at hv hst hdb
  unfold AuthRoutes.login
  rw [hrl]
  by_cases hlen : maxAttempts ≤ (recentAttempts attempts req.ip now).length
  · simp only [hlen, if_true] at hv hst hdb ⊢
    subst hv
    subst hdb
    exact ⟨rfl, rfl, hst⟩
  · simp only [hlen, if_false] at hv hst hdb ⊢
    subst hv
    subst hdb
    obtain ⟨h1, h2⟩ := loginHandler_wrong P db1 session req now hw
    refine ⟨by simp only [h1], h2, hst⟩

/-- When the limiter lets the request through, the route answers what the
handler answers on the same database, and the attempt is recorded. -/
theorem login_of_pass (P : Primitives) (testMode : Bool) (attempts : LoginAttempts) (db : Db)
    (session : Session) (req : LoginRequest) (now : Nat)
    (hpass : testMode = true ∨ (recentAttempts attempts req.ip now).length < maxAttempts) :
    (AuthRoutes.login P testMode attempts db session req now).1 =
      (AuthRoutes.loginHandler P db session req now).1 ∧
    (AuthRoutes.login P testMode attempts db session req now).2.1 =
      (AuthRoutes.loginHandler P db session req now).2.1 ∧
    (AuthRoutes.login P testMode attempts db session req now).2.2.1 =
      (AuthRoutes.loginHandler P db session req now).2.2 ∧
    (AuthRoutes.login P testMode attempts db session req now).2.2.2 req.ip =
      some (recentAttempts attempts req.ip now ++ [now]) := by
  obtain ⟨hv, hst, hdb⟩ := rateLimit_pass attempts db req.ip now testMode hpass
  rcases hrl : rateLimitLogin attempts db req.ip now testMode with ⟨v, a1, db1⟩
  rw [hrl] at hv hst hdb
  simp only at hv hst hdb
  subst hv
  subst hdb
  unfold AuthRoutes.login
  rw [hrl]
  exact ⟨rfl, rfl, rfl, hst⟩

/-- When the limiter refuses the request, the route answers 429 whatever the
credentials are, and the session and the users are left as they were. -/
theorem login_refused (P : Primitives) (attempts : LoginAttempts) (db : Db)
    (session : Session) (req : LoginRequest) (now : Nat)
    (hfull : maxAttempts ≤ (recentAttempts attempts req.ip now).length) :
    (AuthRoutes.login P false attempts db session req now).1 =
      { status := 429, text := "Too many login attempts. Please try again in 15 minutes." } ∧
    (AuthRoutes.login P false attempts db session req now).2.1 = session ∧
    (AuthRoutes.login P false attempts db session req now).2.2.1.users = db.users := by
  obtain ⟨hv, _, _, hdb⟩ := rateLimit_eq attempts db req.ip now
  rcases hrl : rateLimitLogin attempts db req.ip now false with ⟨v, a1, db1⟩
  rw [hrl] at hv hdb
  simp only [hfull, if_true] at hv hdb
  subst hv
  subst hdb
  unfold AuthRoutes.login
  rw [hrl]
  exact ⟨rfl, rfl, rfl⟩

theorem recent_of_stored (attempts : LoginAttempts) (ip : String) (now : Nat) (l : List Nat)
    (h : attempts ip = some l) :
    recentAttempts attempts ip now =
      l.filter fun (time : Nat) => decide ((now : Int) - (time : Int) < windowMs) := by
  unfold recentAttempts
  rw [h]
  rfl

/-- C13: seven login requests with wrong credentials from one address, outside
test mode, starting with no unexpired attempt recorded for it.  When the first six
fall within 15 minutes, the first five reach the handler and are answered 401 and
the sixth is answered 429; a seventh request made once every recorded attempt is
at least 15 minutes old reaches the handler again (401). -/
theorem C13_login_rate_limit (P : Primitives) (db : Db) (attempts : LoginAttempts)
    (ip : String) (r1 r2 r3 r4 r5 r6 r7 : LoginRequest) (t1 t2 t3 t4 t5 t6 t7 : Nat)
    (hip : r1.ip = ip ∧ r2.ip = ip ∧ r3.ip = ip ∧ r4.ip = ip ∧ r5.ip = ip ∧ r6.ip = ip ∧
      r7.ip = ip)
    (hstart : ∀ t ∈ (attempts ip).getD [], t + 900000 ≤ t1)
    (horder : t1 ≤ t2 ∧ t2 ≤ t3 ∧ t3 ≤ t4 ∧ t4 ≤ t5 ∧ t5 ≤ t6)
    (hwindow : t6 < t1 + 900000)
    (hlater : t5 + 900000 ≤ t7)
    (hwrong : WrongCredentials P db r1 ∧ WrongCredentials P db r2 ∧ WrongCredentials P db r3 ∧
      WrongCredentials P db r4 ∧ WrongCredentials P db r5 ∧ WrongCredentials P db r6 ∧
      WrongCredentials P db r7) :
    loginStatuses P false attempts db
        [(t1, r1), (t2, r2), (t3, r3), (t4, r4), (t5, r5), (t6, r6), (t7, r7)] =
      [401, 401, 401, 401, 401, 429, 401] := by
  obtain ⟨hip1, hip2, hip3, hip4, hip5, hip6, hip7⟩ := hip
  obtain ⟨h12, h23, h34, h45, h56⟩ := horder
  obtain ⟨hw1, hw2, hw3, hw4, hw5, hw6, hw7⟩ := hwrong
  subst hip1
  simp only [loginStatuses]
  have hrec0 : recentAttempts attempts r1.ip t1 = [] := by
    unfold recentAttempts
    rw [List.filter_eq_nil_iff]
    intro t ht
    have := hstart t ht
    simp only [decide_eq_true_eq, windowMs]
    omega
  -- first request
  obtain ⟨hs1, hu1, ha1⟩ := login_step P db attempts {} r1 t1 hw1
  generalize AuthRoutes.login P false attempts db {} r1 t1 = o1 at hs1 hu1 ha1 ⊢
  simp [hrec0, maxAttempts] at hs1 ha1
  -- second request
  obtain ⟨hs2, hu2, ha2⟩ := login_step P o1.2.2.1 o1.2.2.2 {} r2 t2
    (wrongCredentials_congr P db _ r2 hu1 hw2)
  generalize AuthRoutes.login P false o1.2.2.2 o1.2.2.1 {} r2 t2 = o2 at hs2 hu2 ha2 ⊢
  rw [hip2, recent_of_stored _ _ _ _ ha1] at hs2 ha2
  have e21 : ((t2 : Int) - (t1 : Int) < windowMs) := by unfold windowMs; omega
  simp [maxAttempts, List.filter, e21] at hs2 ha2
  -- third request
  obtain ⟨hs3, hu3, ha3⟩ := login_step P o2.2.2.1 o2.2.2.2 {} r3 t3
    (wrongCredentials_congr P db _ r3 (hu2.trans hu1) hw3)
  generalize AuthRoutes.login P false o2.2.2.2 o2.2.2.1 {} r3 t3 = o3 at hs3 hu3 ha3 ⊢
  rw [hip3, recent_of_stored _ _ _ _ ha2] at hs3 ha3
  have e31 : ((t3 : Int) - (t1 : Int) < windowMs) := by unfold windowMs; omega
  have e32 : ((t3 : Int) - (t2 : Int) < windowMs) := by unfold windowMs; omega
  simp [maxAttempts, List.filter, e31, e32] at hs3 ha3
  -- fourth request
  obtain ⟨hs4, hu4, ha4⟩ := login_step P o3.2.2.1 o3.2.2.2 {} r4 t4
    (wrongCredentials_congr P db _ r4 (hu3.trans (hu2.trans hu1)) hw4)
  generalize AuthRoutes.login P false o3.2.2.2 o3.2.2.1 {} r4 t4 = o4 at hs4 hu4 ha4 ⊢
  rw [hip4, recent_of_stored _ _ _ _ ha3] at hs4 ha4
  have e41 : ((t4 : Int) - (t1 : Int) < windowMs) := by unfold windowMs; omega
  have e42 : ((t4 : Int) - (t2 : Int) < windowMs) := by unfold windowMs; omega
  have e43 : ((t4 : Int) - (t3 : Int) < windowMs) := by unfold windowMs; omega
  simp [maxAttempts, List.filter, e41, e42, e43] at hs4 ha4
  -- fifth request
  obtain ⟨hs5, hu5, ha5⟩ := login_step P o4.2.2.1 o4.2.2.2 {} r5 t5
    (wrongCredentials_congr P db _ r5 (hu4.trans (hu3.trans (hu2.trans hu1))) hw5)
  generalize AuthRoutes.login P false o4.2.2.2 o4.2.2.1 {} r5 t5 = o5 at hs5 hu5 ha5 ⊢
  rw [hip5, recent_of_stored _ _ _ _ ha4] at hs5 ha5
  have e51 : ((t5 : Int) - (t1 : Int) < windowMs) := by unfold windowMs; omega
  have e52 : ((t5 : Int) - (t2 : Int) < windowMs) := by unfold windowMs; omega
  have e53 : ((t5 : Int) - (t3 : Int) < windowMs) := by unfold windowMs; omega
  have e54 : ((t5 : Int) - (t4 : Int) < windowMs) := by unfold windowMs; omega
  simp [maxAttempts, List.filter, e51, e52, e53, e54] at hs5 ha5
  -- sixth request
  obtain ⟨hs6, hu6, ha6⟩ := login_step P o5.2.2.1 o5.2.2.2 {} r6 t6
    (wrongCredentials_congr P db _ r6 (hu5.trans (hu4.trans (hu3.trans (hu2.trans hu1)))) hw6)
  generalize AuthRoutes.login P false o5.2.2.2 o5.2.2.1 {} r6 t6 = o6 at hs6 hu6 ha6 ⊢
  rw [hip6, recent_of_stored _ _ _ _ ha5] at hs6 ha6
  have e61 : ((t6 : Int) - (t1 : Int) < windowMs) := by unfold windowMs; omega
  have e62 : ((t6 : Int) - (t2 : Int) < windowMs) := by unfold windowMs; omega
  have e63 : ((t6 : Int) - (t3 : Int) < windowMs) := by unfold windowMs; omega
  have e64 : ((t6 : Int) - (t4 : Int) < windowMs) := by unfold windowMs; omega
  have e65 : ((t6 : Int) - (t5 : Int) < windowMs) := by unfold windowMs; omega
  simp [maxAttempts, List.filter, e61, e62, e63, e64, e65] at hs6 ha6
  -- seventh request
  obtain ⟨hs7, _, _⟩ := login_step P o6.2.2.1 o6.2.2.2 {} r7 t7
    (wrongCredentials_congr P db _ r7
      (hu6.trans (hu5.trans (hu4.trans (hu3.trans (hu2.trans hu1))))) hw7)
  generalize AuthRoutes.login P false o6.2.2.2 o6.2.2.1 {} r7 t7 = o7 at hs7 ⊢
  rw [hip7, recent_of_stored _ _ _ _ ha6] at hs7
  have e71 : ¬ ((t7 : Int) - (t1 : Int) < windowMs) := by unfold windowMs; omega
  have e72 : ¬ ((t7 : Int) - (t2 : Int) < windowMs) := by unfold windowMs; omega
  have e73 : ¬ ((t7 : Int) - (t3 : Int) < windowMs) := by unfold windowMs; omega
  have e74 : ¬ ((t7 : Int) - (t4 : Int) < windowMs) := by unfold windowMs; omega
  have e75 : ¬ ((t7 : Int) - (t5 : Int) < windowMs) := by unfold windowMs; omega
  simp [maxAttempts, List.filter, e71, e72, e73, e74, e75] at hs7
  rw [hs1, hs2, hs3, hs4, hs5, hs6, hs7]

/-- Toy primitives for evaluating examples: the hash of `p` is `"hash:" ++ p`,
and the only accepted one-time code is `"123456"`. -/
theorem toyPrimitives_spec :
    (∀ p, toyPrimitives.bcryptCompare p (toyPrimitives.bcryptHash p) = true) ∧
    (∀ p q, q ≠ p → toyPrimitives.bcryptCompare q (toyPrimitives.bcryptHash p) = false) := by
  constructor
  · intro p
    simp [toyPrimitives]
  · intro p q hne
    simp only [toyPrimitives, beq_eq_false_iff_ne, ne_eq]
    intro h
    apply hne
    have h2 := congrArg String.data h
    simp only [String.data_append] at h2
    exact (String.ext (List.append_cancel_left h2)).symm

/-- Witness for C13: seven requests for an unknown email, one per minute for the
first six and the seventh twenty minutes after the fifth. -/
theorem C13_login_rate_limit_witness :
    loginStatuses toyPrimitives false noAttempts clinic
        [(0, { email := "x@x.org", password := "pw" }),
         (60000, { email := "x@x.org", password := "pw" }),
         (120000, { email := "x@x.org", password := "pw" }),
         (180000, { email := "x@x.org", password := "pw" }),
         (240000, { email := "x@x.org", password := "pw" }),
         (300000, { email := "x@x.org", password := "pw" }),
         (1440000, { email := "x@x.org", password := "pw" })] =
      [401, 401, 401, 401, 401, 429, 401] :=
  C13_login_rate_limit toyPrimitives clinic noAttempts "127.0.0.1"
    { email := "x@x.org", password := "pw" } { email := "x@x.org", password := "pw" }
    { email := "x@x.org", password := "pw" } { email := "x@x.org", password := "pw" }
    { email := "x@x.org", password := "pw" } { email := "x@x.org", password := "pw" }
    { email := "x@x.org", password := "pw" } 0 60000 120000 180000 240000 300000 1440000
    ⟨rfl, rfl, rfl, rfl, rfl, rfl, rfl⟩ (by simp [noAttempts]) (by decide) (by decide) (by decide)
    ⟨⟨rfl, Or.inl (by decide)⟩, ⟨rfl, Or.inl (by decide)⟩, ⟨rfl, Or.inl (by decide)⟩,
     ⟨rfl, Or.inl (by decide)⟩, ⟨rfl, Or.inl (by decide)⟩, ⟨rfl, Or.inl (by decide)⟩,
     ⟨rfl, Or.inl (by decide)⟩⟩


theorem mem_of_findByEmail (P : Primitives) (db : Db) (email : String) (u : UserRow)
    (h : User.findByEmail P db email = some u) : u ∈ db.users :=
  List.mem_of_find?_eq_some h

theorem hasUser_of_mem (db : Db) (u : UserRow) (h : u ∈ db.users) : db.hasUser u.id = true := by
  simp only [Db.hasUser, List.any_eq_true, beq_iff_eq]
  exact ⟨u, h, rfl⟩

theorem hasUser_updateUsers (db : Db) (id x : Int) (f : UserRow → UserRow)
    (hf : ∀ u, (f u).id = u.id) : (db.updateUsers id f).hasUser x = db.hasUser x := by
  simp only [Db.hasUser, Db.updateUsers, List.any_map]
  congr 1
  funext u
  simp only [Function.comp]
  split
  · rw [hf]
  · rfl

theorem logAction_of_hasUser (db : Db) (userId : Int) (action : String)
    (resource : Option String) (resourceId : Option Int) (details ip : String)
    (h : db.hasUser userId = true) :
    logAction db (some userId) action resource resourceId details ip =
      { db with audit_log := db.audit_log ++
          [{ user_id := some userId, action := action, resource := resource
             resource_id := resourceId, details := details, ip_address := ip }] } := by
  simp [logAction, h]

/-- C16 fails as stated: patient 3 is deactivated, and a login with that email
is answered 403 with the deactivation message, with the right password and with
a wrong one, whereas an unknown email and a wrong password for an active account
are answered 401 with the generic message. -/
theorem C16_inactive_account_gets_403 :
    (AuthRoutes.loginHandler toyPrimitives clinicWithInactive {}
      { email := "q@x.org", password := "Secret123" } 0).1 =
      { status := 403
        text := "This account has been deactivated. Contact an administrator." } ∧
    (AuthRoutes.loginHandler toyPrimitives clinicWithInactive {}
      { email := "q@x.org", password := "wrong" } 0).1 =
      { status := 403
        text := "This account has been deactivated. Contact an administrator." } ∧
    (AuthRoutes.loginHandler toyPrimitives clinicWithInactive {}
      { email := "nobody@x.org", password := "Secret123" } 0).1 =
      { status := 401, text := "Invalid email or password." } ∧
    (AuthRoutes.loginHandler toyPrimitives clinicWithInactive {}
      { email := "p@x.org", password := "wrong" } 0).1 =
      { status := 401, text := "Invalid email or password." } := by
  refine ⟨by decide, by decide, by decide, by decide⟩

/-- C16 (amended): for a request that passes validation, the response is the same
401 with the generic message when no identity has the email and when the password
does not match an active identity; an inactive identity is answered 403 with the
deactivation message whatever the password. -/
theorem C16_login_failure_responses (P : Primitives) (db : Db) (session : Session)
    (req : LoginRequest) (now : Nat) (hvalid : req.errorsEmpty = true) :
    (User.findByEmail P db req.email = none →
      (AuthRoutes.loginHandler P db session req now).1 =
        { status := 401, text := "Invalid email or password." }) ∧
    (∀ u, User.findByEmail P db req.email = some u → u.is_active = true →
      P.bcryptCompare req.password u.password = false →
      (AuthRoutes.loginHandler P db session req now).1 =
        { status := 401, text := "Invalid email or password." }) ∧
    (∀ u, User.findByEmail P db req.email = some u → u.is_active = false →
      (AuthRoutes.loginHandler P db session req now).1 =
        { status := 403
          text := "This account has been deactivated. Contact an administrator." }) := by
  refine ⟨?_, ?_, ?_⟩
  · intro hnone
    exact (loginHandler_wrong P db session req now ⟨hvalid, Or.inl hnone⟩).1
  · intro u hu hact hcmp
    exact (loginHandler_wrong P db session req now ⟨hvalid, Or.inr ⟨u, hu, hact, hcmp⟩⟩).1
  · intro u hu hact
    unfold AuthRoutes.loginHandler
    simp [hvalid, hu, hact]

/-- Witness for C16: a wrong password for the active patient 2. -/
theorem C16_login_failure_responses_witness :
    (AuthRoutes.loginHandler toyPrimitives hashedClinic {}
      { email := "p@x.org", password := "wrong" } 0).1 =
      { status := 401, text := "Invalid email or password." } :=
  (C16_login_failure_responses toyPrimitives hashedClinic {}
    { email := "p@x.org", password := "wrong" } 0 rfl).2.1
    { id := 2, email := "p@x.org", password := "hash:Secret123", first_name := "Pat"
      last_name := "Poe", role := "patient" } (by decide) rfl (by decide)

/-- What the login handler does with the right password of an active identity. -/
theorem loginHandler_success (P : Primitives) (db : Db) (session : Session) (req : LoginRequest)
    (now : Nat) (u : UserRow)
    (hvalid : req.errorsEmpty = true)
    (hu : User.findByEmail P db req.email = some u)
    (hactive : u.is_active = true)
    (hpw : P.bcryptCompare req.password u.password = true) :
    (AuthRoutes.loginHandler P db session req now).1.status = 200 ∧
    (AuthRoutes.loginHandler P db session req now).2.1.userId = some u.id ∧
    (u.two_factor_enabled = false →
      (AuthRoutes.loginHandler P db session req now).2.1.twoFactorVerified = some true ∧
      (AuthRoutes.loginHandler P db session req now).1.requires2FA = false ∧
      (AuthRoutes.loginHandler P db session req now).2.2.users =
        (db.users.map fun v =>
          if v.id == u.id then { v with last_login := some (sqliteDatetime now) } else v) ∧
      (AuthRoutes.loginHandler P db session req now).2.2.audit_log = db.audit_log ++
        [{ user_id := some u.id, action := "LOGIN", resource := some "users"
           resource_id := some u.id, details := "Successful login", ip_address := req.ip }]) ∧
    (u.two_factor_enabled = true →
      (AuthRoutes.loginHandler P db session req now).2.1.twoFactorVerified = some false ∧
      (AuthRoutes.loginHandler P db session req now).1.requires2FA = true ∧
      (AuthRoutes.loginHandler P db session req now).1.user =
        some { id := u.id, email := u.email, role := u.role
               first_name := none, last_name := none } ∧
      (AuthRoutes.loginHandler P db session req now).2.2.users = db.users ∧
      (AuthRoutes.loginHandler P db session req now).2.2.audit_log = db.audit_log ++
        [{ user_id := some u.id, action := "LOGIN_2FA_PENDING", resource := some "users"
           resource_id := some u.id, details := "2FA verification pending"
           ip_address := req.ip }]) := by
  have hhas : db.hasUser u.id = true := hasUser_of_mem db u (mem_of_findByEmail P db _ u hu)
  have hhas2 : (User.updateLastLogin db u.id now).hasUser u.id = true := by
    unfold User.updateLastLogin
    exact (hasUser_updateUsers db u.id u.id
      (fun v => { v with last_login := some (sqliteDatetime now) }) (fun _ => rfl)).trans hhas
  cases h2fa : u.two_factor_enabled
  · unfold AuthRoutes.loginHandler
    simp only [hvalid, hu, hactive, hpw, h2fa, Bool.not_true, Bool.false_eq_true, if_false]
    rw [logAction_of_hasUser _ _ _ _ _ _ _ hhas2]
    simp [User.updateLastLogin, Db.updateUsers]
  · unfold AuthRoutes.loginHandler
    simp only [hvalid, hu, hactive, hpw, h2fa, Bool.not_true, Bool.false_eq_true, if_false,
      if_true]
    rw [logAction_of_hasUser _ _ _ _ _ _ _ hhas]
    simp

/-- C17 fails as stated: after five logins with a wrong password from the address
127.0.0.1 within five minutes, a login from that address with the right password
of the active patient 2 is answered 429 and binds no session; the same request
from another address is answered 200. -/
theorem C17_correct_password_rate_limited :
    afterFiveFailures.1 "127.0.0.1" = some [0, 60000, 120000, 180000, 240000] ∧
    (AuthRoutes.login toyPrimitives false afterFiveFailures.1 afterFiveFailures.2 {}
      { email := "p@x.org", password := "Secret123" } 300000).1 =
      { status := 429, text := "Too many login attempts. Please try again in 15 minutes." } ∧
    (AuthRoutes.login toyPrimitives false afterFiveFailures.1 afterFiveFailures.2 {}
      { email := "p@x.org", password := "Secret123" } 300000).2.1.userId = none ∧
    (AuthRoutes.login toyPrimitives false afterFiveFailures.1 afterFiveFailures.2 {}
      { ip := "198.51.100.9", email := "p@x.org", password := "Secret123" } 300000).1.status
      = 200 := by
  refine ⟨by decide, by decide, by decide, by decide⟩

/-- C17 (amended): a `POST /auth/login` request that passes validation with the
right password of an active identity, and that the rate limiter lets through
(test mode, or fewer than 5 attempts from its address in the last 15 minutes), is
answered 200 and binds the session to the identity.  Without 2FA the session gets
`twoFactorVerified = true`, `last_login` is set, a LOGIN entry is appended to the
audit log and the response has no `requires2FA`.  With 2FA the session gets
`twoFactorVerified = false`, the users table is untouched, a LOGIN_2FA_PENDING
entry is appended, and the response has `requires2FA` and a user object holding
only the id, the email and the role.  When the limiter does not let the request
through, the answer is 429 and the session and the users table are left as they
were. -/
theorem C17_login_success (P : Primitives) (testMode : Bool) (attempts : LoginAttempts)
    (db : Db) (session : Session) (req : LoginRequest) (now : Nat) (u : UserRow)
    (hvalid : req.errorsEmpty = true)
    (hu : User.findByEmail P db req.email = some u)
    (hactive : u.is_active = true)
    (hpw : P.bcryptCompare req.password u.password = true) :
    ((testMode = true ∨ (recentAttempts attempts req.ip now).length < 5) →
      (AuthRoutes.login P testMode attempts db session req now).1.status = 200 ∧
      (AuthRoutes.login P testMode attempts db session req now).2.1.userId = some u.id ∧
      (u.two_factor_enabled = false →
        (AuthRoutes.login P testMode attempts db session req now).2.1.twoFactorVerified = some true ∧
        (AuthRoutes.login P testMode attempts db session req now).1.requires2FA = false ∧
        (AuthRoutes.login P testMode attempts db session req now).2.2.1.users =
          (db.users.map fun v =>
            if v.id == u.id then { v with last_login := some (sqliteDatetime now) } else v) ∧
        (AuthRoutes.login P testMode attempts db session req now).2.2.1.audit_log = db.audit_log ++
          [{ user_id := some u.id, action := "LOGIN", resource := some "users"
             resource_id := some u.id, details := "Successful login", ip_address := req.ip }]) ∧
      (u.two_factor_enabled = true →
        (AuthRoutes.login P testMode attempts db session req now).2.1.twoFactorVerified = some false ∧
        (AuthRoutes.login P testMode attempts db session req now).1.requires2FA = true ∧
        (AuthRoutes.login P testMode attempts db session req now).1.user =
          some { id := u.id, email := u.email, role := u.role
                 first_name := none, last_name := none } ∧
        (AuthRoutes.login P testMode attempts db session req now).2.2.1.users = db.users ∧
        (AuthRoutes.login P testMode attempts db session req now).2.2.1.audit_log = db.audit_log ++
          [{ user_id := some u.id, action := "LOGIN_2FA_PENDING", resource := some "users"
             resource_id := some u.id, details := "2FA verification pending"
             ip_address := req.ip }])) ∧
    (testMode = false → 5 ≤ (recentAttempts attempts req.ip now).length →
      (AuthRoutes.login P testMode attempts db session req now).1 =
        { status := 429, text := "Too many login attempts. Please try again in 15 minutes." } ∧
      (AuthRoutes.login P testMode attempts db session req now).2.1 = session ∧
      (AuthRoutes.login P testMode attempts db session req now).2.2.1.users = db.users) := by
  constructor
  · intro hpass
    obtain ⟨h1, h2, h3, _⟩ := login_of_pass P testMode attempts db session req now hpass
    rw [h1, h2, h3]
    exact loginHandler_success P db session req now u hvalid hu hactive hpw
  · intro htest hfull
    subst htest
    exact login_refused P attempts db session req now hfull

/-- Witness for C17: patient 2 logs in with the right password from an address
without recorded attempts. -/
theorem C17_login_success_witness :
    (AuthRoutes.login toyPrimitives false noAttempts hashedClinic {}
      { email := "p@x.org", password := "Secret123" } 0).1.status = 200 :=
  ((C17_login_success toyPrimitives false noAttempts hashedClinic {}
    { email := "p@x.org", password := "Secret123" } 0
    { id := 2, email := "p@x.org", password := "hash:Secret123", first_name := "Pat"
      last_name := "Poe", role := "patient" } rfl (by decide) rfl (by decide)).1
    (Or.inr (by decide))).1


/-- C18: on a session of an identity that has a 2FA secret (the session user's
row is the one its email looks up), `POST /auth/verify-2fa` sets
`twoFactorVerified = true` exactly when the TOTP primitive accepts the submitted
code for the stored secret; then the answer is 200, `last_login` is set and a
LOGIN_2FA_VERIFIED entry is appended; otherwise the answer is 401 and the session
and the database are unchanged. -/
theorem C18_verify2fa (P : Primitives) (db : Db) (session : Session) (token ip : String)
    (now : Nat) (id : Int) (row : UserRow) (secret : String)
    (hsid : session.userId = some id) (hid : id ≠ 0)
    (hpending : session.twoFactorVerified = some false)
    (hrow : (db.users.find? fun u => some u.id == session.userId) = some row)
    (huser : User.findByEmail P db row.email = some row)
    (hsecret : row.two_factor_secret = some secret) (hne : secret ≠ "") :
    ((AuthRoutes.verify2fa P db session token ip now).2.1.twoFactorVerified = some true ↔
      P.totpVerify secret token now = true) ∧
    (P.totpVerify secret token now = true →
      (AuthRoutes.verify2fa P db session token ip now).1.status = 200 ∧
      (AuthRoutes.verify2fa P db session token ip now).2.1 =
        { session with twoFactorVerified := some true } ∧
      (AuthRoutes.verify2fa P db session token ip now).2.2.users =
        (db.users.map fun v =>
          if v.id == row.id then { v with last_login := some (sqliteDatetime now) } else v) ∧
      (AuthRoutes.verify2fa P db session token ip now).2.2.audit_log = db.audit_log ++
        [{ user_id := some row.id, action := "LOGIN_2FA_VERIFIED", resource := some "users"
           resource_id := some row.id, details := "2FA verification successful"
           ip_address := ip }]) ∧
    (P.totpVerify secret token now = false →
      (AuthRoutes.verify2fa P db session token ip now).1 =
        { status := 401, text := "Invalid verification code." } ∧
      (AuthRoutes.verify2fa P db session token ip now).2.1 = session ∧
      (AuthRoutes.verify2fa P db session token ip now).2.2 = db) := by
  have htruthy : truthyInt session.userId = true := by
    rw [hsid]
    simp [truthyInt, hid]
  have hhas : db.hasUser row.id = true := hasUser_of_mem db row (mem_of_findByEmail P db _ row huser)
  have hhas2 : (User.updateLastLogin db row.id now).hasUser row.id = true := by
    unfold User.updateLastLogin
    exact (hasUser_updateUsers db row.id row.id
      (fun v => { v with last_login := some (sqliteDatetime now) }) (fun _ => rfl)).trans hhas
  have hsec : (secret == "") = false := by simpa using hne
  cases hv : P.totpVerify secret token now
  · unfold AuthRoutes.verify2fa
    simp only [htruthy, hrow, huser, hsecret, hsec, hv, Bool.not_true, Bool.not_false,
      Bool.false_eq_true, if_false, if_true]
    simp [hpending]
  · unfold AuthRoutes.verify2fa
    simp only [htruthy, hrow, huser, hsecret, hsec, hv, Bool.not_true, Bool.not_false,
      Bool.false_eq_true, if_false, if_true]
    rw [logAction_of_hasUser _ _ _ _ _ _ _ hhas2]
    simp [User.updateLastLogin, Db.updateUsers]

/-- Witness for C18: patient 2, who has a 2FA secret, submits the code the toy
primitive accepts. -/
theorem C18_verify2fa_witness :
    (AuthRoutes.verify2fa toyPrimitives clinicWith2FA pendingSession "123456" "203.0.113.7"
      0).2.1.twoFactorVerified = some true :=
  (C18_verify2fa toyPrimitives clinicWith2FA pendingSession "123456" "203.0.113.7" 0 2
    { id := 2, email := "p@x.org", password := "h2", first_name := "Pat", last_name := "Poe"
      role := "patient", two_factor_secret := some "JBSWY3DP", two_factor_enabled := true }
    "JBSWY3DP" rfl (by decide) rfl (by decide) (by decide) rfl (by decide)).1.mpr (by decide)

/-- C20 (fails on the code): the forgot-password handler reads no environment
variable and always puts the token in the body for a registered email, so the
responses for a registered and an unregistered email differ in every posture,
production included. -/
theorem C20_forgot_password_returns_token :
    (AuthRoutes.forgotPassword toyPrimitives hashedClinic true "p@x.org" "203.0.113.7" 1736154000000
      "a3f1").1 =
      { status := 200, text := AuthRoutes.resetLinkSent, devResetToken := some "a3f1" } ∧
    (AuthRoutes.forgotPassword toyPrimitives hashedClinic true "nobody@x.org" "203.0.113.7" 1736154000000
      "a3f1").1 =
      { status := 200, text := AuthRoutes.resetLinkSent, devResetToken := none } ∧
    (AuthRoutes.forgotPassword toyPrimitives hashedClinic true "p@x.org" "203.0.113.7" 1736154000000
      "a3f1").1 ≠
    (AuthRoutes.forgotPassword toyPrimitives hashedClinic true "nobody@x.org" "203.0.113.7" 1736154000000
      "a3f1").1 := by
  refine ⟨by decide, by decide, by decide⟩

/-- C15 (fails on the code): a token issued at 09:00:00Z is stored with the
expiry `2025-01-06T10:00:00.000Z`, and `findByResetToken` compares that text with
`datetime('now')`, whose form is `2025-01-06 11:00:00`; the `T` sorts after the
space, so the token is still found at 11:00:00Z and at 23:59:59Z of that day, a
reset at 11:00:00Z is answered 200, and the token stops being found only at
00:00:00Z of the next day. -/
theorem C15_reset_token_accepted_after_expiry :
    (resetRequested.users.find? fun u => u.id == 2).map (fun u => u.password_reset_expires) =
      some (some "2025-01-06T10:00:00.000Z") ∧
    sqliteDatetime 1736161200000 = "2025-01-06 11:00:00" ∧
    (User.findByResetToken resetRequested "a3f1" 1736161200000).map (fun u => u.id) = some 2 ∧
    (AuthRoutes.resetPassword toyPrimitives resetRequested true "a3f1" "NewPassw0rd"
      "203.0.113.7" 1736161200000).1.status = 200 ∧
    sqliteDatetime 1736207999000 = "2025-01-06 23:59:59" ∧
    (User.findByResetToken resetRequested "a3f1" 1736207999000).map (fun u => u.id) = some 2 ∧
    sqliteDatetime 1736208000000 = "2025-01-07 00:00:00" ∧
    User.findByResetToken resetRequested "a3f1" 1736208000000 = none := by
  refine ⟨by decide, by decide, by decide, by decide, by decide, by decide, by decide, by decide⟩


/-! ### Facts about the password-reset routes -/

theorem find_congr_mem {α : Type} (l : List α) (p q : α → Bool) (h : ∀ x ∈ l, p x = q x) :
    l.find? p = l.find? q := by
  induction l with
  | nil => rfl
  | cons a l ih =>
    have ha := h a (List.mem_cons_self a l)
    have hl : ∀ x ∈ l, p x = q x := fun x hx => h x (List.mem_cons_of_mem a hx)
    simp only [List.find?_cons, ha, ih hl]

theorem findByEmail_map (P : Primitives) (db db1 : Db) (F : UserRow → UserRow) (email : String)
    (h : db1.users = db.users.map F) (hF : ∀ v, (F v).email = v.email) :
    User.findByEmail P db1 email = (User.findByEmail P db email).map F := by
  unfold User.findByEmail
  rw [h, List.find?_map]
  congr 2
  funext v
  simp only [Function.comp, hF]

theorem findByResetToken_none (db : Db) (token : String) (now : Nat)
    (h : ∀ v ∈ db.users, v.password_reset_token ≠ some token) :
    User.findByResetToken db token now = none := by
  unfold User.findByResetToken
  rw [List.find?_eq_none]
  intro v hv
  have := h v hv
  simp [this]

theorem forgotPassword_registered (P : Primitives) (db : Db) (email ip : String) (now : Nat)
    (token : String)
    (u : UserRow) (hu : User.findByEmail P db email = some u) :
    (AuthRoutes.forgotPassword P db true email ip now token).1 =
      { status := 200, text := AuthRoutes.resetLinkSent, devResetToken := some token } ∧
    (AuthRoutes.forgotPassword P db true email ip now token).2.users =
      db.users.map fun v => if v.id == u.id then
        { v with password_reset_token := some token
                 password_reset_expires := some (toISOString (now + 3600000)) } else v := by
  unfold AuthRoutes.forgotPassword
  simp only [hu, Bool.not_true, Bool.false_eq_true, if_false, logAction_users]
  exact ⟨trivial, rfl⟩

theorem resetPassword_found (P : Primitives) (db : Db) (token password ip : String) (now : Nat)
    (w : UserRow) (hw : User.findByResetToken db token now = some w) :
    (AuthRoutes.resetPassword P db true token password ip now).1.status = 200 ∧
    (AuthRoutes.resetPassword P db true token password ip now).2.users =
      db.users.map fun v => if v.id == w.id then
        { v with password := P.bcryptHash password, password_reset_token := none
                 password_reset_expires := none } else v := by
  unfold AuthRoutes.resetPassword
  simp only [hw, Bool.not_true, Bool.false_eq_true, if_false, logAction_users]
  refine ⟨trivial, ?_⟩
  simp only [User.clearResetToken, User.updatePassword, Db.updateUsers, List.map_map]
  apply List.map_congr_left
  intro v _
  simp only [Function.comp]
  by_cases hv : v.id = w.id <;> simp [hv]

theorem resetPassword_not_found (P : Primitives) (db : Db) (token password ip : String)
    (now : Nat) (hw : User.findByResetToken db token now = none) :
    (AuthRoutes.resetPassword P db true token password ip now).1.status = 400 := by
  unfold AuthRoutes.resetPassword
  simp [hw]

theorem loginHandler_accepts (P : Primitives) (db : Db) (session : Session) (req : LoginRequest)
    (now : Nat) (u : UserRow) (hvalid : req.errorsEmpty = true)
    (hu : User.findByEmail P db req.email = some u) (hactive : u.is_active = true)
    (hpw : P.bcryptCompare req.password u.password = true)
    (h2fa : u.two_factor_enabled = false) :
    (AuthRoutes.loginHandler P db session req now).1.status = 200 ∧
    (AuthRoutes.loginHandler P db session req now).2.2.users =
      db.users.map fun v =>
        if v.id == u.id then { v with last_login := some (sqliteDatetime now) } else v := by
  unfold AuthRoutes.loginHandler
  simp only [hvalid, hu, hactive, hpw, h2fa, Bool.not_true, Bool.false_eq_true, if_false,
    logAction_users]
  exact ⟨trivial, rfl⟩


theorem findByResetToken_after_forgot (db db1 : Db) (token : String) (t0 t1 : Nat) (u : UserRow)
    (hmem : u ∈ db.users)
    (hfu : db1.users = db.users.map fun v => if v.id == u.id then
        { v with password_reset_token := some token
                 password_reset_expires := some (toISOString (t0 + 3600000)) } else v)
    (hfresh : ∀ v ∈ db.users, v.id ≠ u.id → v.password_reset_token ≠ some token)
    (htime : textGt (toISOString (t0 + 3600000)) (sqliteDatetime t1) = true) :
    ∃ w, User.findByResetToken db1 token t1 = some w ∧ w.id = u.id := by
  unfold User.findByResetToken
  rw [hfu, List.find?_map]
  have hcongr : ∀ v ∈ db.users,
      ((fun x : UserRow => x.password_reset_token == some token &&
          match x.password_reset_expires with
          | some expires => textGt expires (sqliteDatetime t1)
          | none => false) ∘
        fun v : UserRow => if v.id == u.id then
          { v with password_reset_token := some token
                   password_reset_expires := some (toISOString (t0 + 3600000)) } else v) v
        = (v.id == u.id) := by
    intro v hv
    by_cases hid : v.id = u.id
    · simp [Function.comp, hid, htime]
    · have hb : (v.password_reset_token == some token) = false := by
        simpa using hfresh v hv hid
      simp [Function.comp, hid, hb]
  rw [find_congr_mem _ _ _ hcongr]
  cases hf : db.users.find? (fun v => v.id == u.id) with
  | none =>
    rw [List.find?_eq_none] at hf
    exact absurd (by simp) (hf u hmem)
  | some w0 =>
    have hw0 : w0.id = u.id := by simpa using List.find?_some hf
    refine ⟨_, rfl, ?_⟩
    simp [hw0]

/-- C19 fails as stated: after five logins with a wrong password for patient 2
from the address 127.0.0.1, the password is reset from that address (both steps
answered 200), and the login with the new password, five minutes after the first
failure, is answered 429, not 200. -/
theorem C19_login_after_reset_rate_limited :
    (resetRoundTrip toyPrimitives false afterFiveFailures.1 afterFiveFailures.2 "p@x.org"
      "Secret123" "NewPassw0rd" "127.0.0.1" "a3f1" 260000 270000 300000 310000
      320000).forgot.status = 200 ∧
    (resetRoundTrip toyPrimitives false afterFiveFailures.1 afterFiveFailures.2 "p@x.org"
      "Secret123" "NewPassw0rd" "127.0.0.1" "a3f1" 260000 270000 300000 310000
      320000).reset.status = 200 ∧
    (resetRoundTrip toyPrimitives false afterFiveFailures.1 afterFiveFailures.2 "p@x.org"
      "Secret123" "NewPassw0rd" "127.0.0.1" "a3f1" 260000 270000 300000 310000
      320000).loginNew =
      { status := 429, text := "Too many login attempts. Please try again in 15 minutes." } := by
  refine ⟨by decide, by decide, by decide⟩

/-- C19 (amended): with a hashing primitive whose `compare` accepts exactly the
password that was hashed, for an active identity without 2FA, a token no other
identity holds, a reset made while the stored expiry still compares greater than
`datetime('now')`, and a rate limiter in test mode or holding fewer than 4
attempts for the address of the two logins: forgot-password answers 200,
reset-password with the returned token answers 200 and leaves the identity's
token and expiry cleared, `POST /auth/login` with the new password answers 200,
`POST /auth/login` with a different (old) password then answers 401, and a second
reset with the same token answers 400. -/
theorem C19_password_reset_round_trip (P : Primitives) (testMode : Bool)
    (attempts : LoginAttempts) (db : Db)
    (email oldPassword newPassword ip token : String) (t0 t1 t2 t3 t4 : Nat) (u : UserRow)
    (hverify : ∀ p, P.bcryptCompare p (P.bcryptHash p) = true)
    (hreject : ∀ p q, q ≠ p → P.bcryptCompare q (P.bcryptHash p) = false)
    (hu : User.findByEmail P db email = some u)
    (hactive : u.is_active = true) (h2fa : u.two_factor_enabled = false)
    (hne : newPassword ≠ oldPassword)
    (hfresh : ∀ v ∈ db.users, v.id ≠ u.id → v.password_reset_token ≠ some token)
    (htime : textGt (toISOString (t0 + 3600000)) (sqliteDatetime t1) = true)
    (hpass : testMode = true ∨ ((attempts ip).getD []).length < 4) :
    (resetRoundTrip P testMode attempts db email oldPassword newPassword ip token t0 t1 t2 t3
      t4).forgot.status = 200 ∧
    (resetRoundTrip P testMode attempts db email oldPassword newPassword ip token t0 t1 t2 t3
      t4).reset.status = 200 ∧
    (resetRoundTrip P testMode attempts db email oldPassword newPassword ip token t0 t1 t2 t3
      t4).loginNew.status = 200 ∧
    (resetRoundTrip P testMode attempts db email oldPassword newPassword ip token t0 t1 t2 t3
      t4).loginOld.status = 401 ∧
    (∀ v ∈ (resetRoundTrip P testMode attempts db email oldPassword newPassword ip token t0 t1 t2 t3
      t4).afterReset.users,
      v.id = u.id → v.password_reset_token = none ∧ v.password_reset_expires = none) ∧
    (resetRoundTrip P testMode attempts db email oldPassword newPassword ip token t0 t1 t2 t3
      t4).secondReset.status = 400 := by
  have hmem := mem_of_findByEmail P db email u hu
  dsimp only [resetRoundTrip]
  -- forgot-password
  obtain ⟨hf1, hfu⟩ := forgotPassword_registered P db email ip t0 token u hu
  generalize AuthRoutes.forgotPassword P db true email ip t0 token = s1 at hf1 hfu ⊢
  have htok : s1.1.devResetToken.getD "" = token := by rw [hf1]; rfl
  rw [htok]
  -- reset-password
  obtain ⟨w, hw, hwid⟩ := findByResetToken_after_forgot db s1.2 token t0 t1 u hmem hfu hfresh htime
  obtain ⟨hr1, hru⟩ := resetPassword_found P s1.2 token newPassword ip t1 w hw
  generalize AuthRoutes.resetPassword P s1.2 true token newPassword ip t1 = s2 at hr1 hru ⊢
  have hu2 : s2.2.users = db.users.map fun v => if v.id == u.id then
      { v with password := P.bcryptHash newPassword, password_reset_token := none
               password_reset_expires := none } else v := by
    rw [hru, hfu, List.map_map, hwid]
    apply List.map_congr_left
    intro v _
    by_cases hv : v.id = u.id <;> simp [Function.comp, hv]
  -- login with the new password
  have hfe2 := findByEmail_map P db s2.2 _ email hu2 (fun v => by split <;> rfl)
  rw [hu] at hfe2
  simp only [Option.map_some', beq_self_eq_true, if_true] at hfe2
  obtain ⟨hl1, hlu1⟩ := loginHandler_accepts P s2.2 {}
    { ip := ip, email := email, password := newPassword } t2 _ rfl hfe2 hactive
    (hverify newPassword) h2fa
  have hpass1 : testMode = true ∨ (recentAttempts attempts ip t2).length < maxAttempts := by
    rcases hpass with ht | hlen
    · exact Or.inl ht
    · right
      have := recentAttempts_length_le attempts ip t2
      unfold maxAttempts
      omega
  obtain ⟨hp1, _, hp3, hp4⟩ := login_of_pass P testMode attempts s2.2 {}
    { ip := ip, email := email, password := newPassword } t2 hpass1
  rw [← hp1] at hl1
  rw [← hp3] at hlu1
  generalize AuthRoutes.login P testMode attempts s2.2 {}
    { ip := ip, email := email, password := newPassword } t2 = l1 at hl1 hlu1 hp4 ⊢
  -- login with the old password
  have hfe3 := findByEmail_map P s2.2 l1.2.2.1 _ email hlu1 (fun v => by split <;> rfl)
  rw [hfe2] at hfe3
  simp only [Option.map_some', beq_self_eq_true, if_true] at hfe3
  have hwrong : WrongCredentials P l1.2.2.1
      { ip := ip, email := email, password := oldPassword } :=
    ⟨rfl, Or.inr ⟨_, hfe3, hactive, hreject newPassword oldPassword (Ne.symm hne)⟩⟩
  obtain ⟨hl2, hlu2⟩ := loginHandler_wrong P l1.2.2.1 {}
    { ip := ip, email := email, password := oldPassword } t3 hwrong
  have hpass2 : testMode = true ∨ (recentAttempts l1.2.2.2 ip t3).length < maxAttempts := by
    rcases hpass with ht | hlen
    · exact Or.inl ht
    · right
      have h1 := recentAttempts_length_le l1.2.2.2 ip t3
      have h2 := recentAttempts_length_le attempts ip t2
      have h3 : ((l1.2.2.2 ip).getD []).length = (recentAttempts attempts ip t2).length + 1 := by
        have hp4' : l1.2.2.2 ip = some (recentAttempts attempts ip t2 ++ [t2]) := hp4
        rw [hp4']
        simp
      unfold maxAttempts
      omega
  obtain ⟨hq1, _, hq3, _⟩ := login_of_pass P testMode l1.2.2.2 l1.2.2.1 {}
    { ip := ip, email := email, password := oldPassword } t3 hpass2
  rw [← hq1] at hl2
  rw [← hq3] at hlu2
  generalize AuthRoutes.login P testMode l1.2.2.2 l1.2.2.1 {}
    { ip := ip, email := email, password := oldPassword } t3 = l2 at hl2 hlu2 ⊢
  -- second reset
  have hnone : User.findByResetToken l2.2.2.1 token t4 = none := by
    apply findByResetToken_none
    intro v hv
    rw [hlu2, hlu1, hu2, List.map_map, List.mem_map] at hv
    obtain ⟨v0, hv0, rfl⟩ := hv
    by_cases hid : v0.id = u.id
    · simp [Function.comp, hid]
    · have := hfresh v0 hv0 hid
      simp [Function.comp, hid, this]
  refine ⟨by rw [hf1], hr1, hl1, by rw [hl2], ?_, resetPassword_not_found P _ _ _ _ _ hnone⟩
  intro v hv hvid
  rw [hu2, List.mem_map] at hv
  obtain ⟨v0, _, rfl⟩ := hv
  by_cases hid : v0.id = u.id
  · simp [hid]
  · simp [hid] at hvid


/-- Witness for C19: patient 2 of the hashed clinic resets the password one
minute after asking for the token, from an address without recorded attempts. -/
theorem C19_password_reset_round_trip_witness :
    (resetRoundTrip toyPrimitives false noAttempts hashedClinic "p@x.org" "Secret123"
      "NewPassw0rd" "203.0.113.7" "a3f1" 1736154000000 1736154060000 1736154120000 1736154180000
      1736154240000).loginNew.status = 200 :=
  (C19_password_reset_round_trip toyPrimitives false noAttempts hashedClinic "p@x.org"
    "Secret123" "NewPassw0rd"
    "203.0.113.7" "a3f1" 1736154000000 1736154060000 1736154120000 1736154180000 1736154240000
    { id := 2, email := "p@x.org", password := "hash:Secret123", first_name := "Pat"
      last_name := "Poe", role := "patient" }
    toyPrimitives_spec.1 toyPrimitives_spec.2 (by decide) rfl rfl (by decide) (by decide)
    (by decide) (Or.inr (by decide))).2.2.1

/-! ### Facts about the list queries -/

theorem mem_of_mem_sqlLimit {α : Type} (n : Int) (rows out : List α) (r : α)
    (h : sqlLimit n rows = some out) (hr : r ∈ out) : r ∈ rows := by
  unfold sqlLimit at h
  split at h
  · cases h
  · split at h
    · cases h
      exact hr
    · cases h
      exact List.mem_of_mem_take hr

theorem mem_of_mem_limitIfTruthy {α : Type} (limit : Option Int) (rows out : List α) (r : α)
    (h : limitIfTruthy limit rows = some out) (hr : r ∈ out) : r ∈ rows := by
  unfold limitIfTruthy at h
  split at h
  · split at h
    · exact mem_of_mem_sqlLimit _ rows out r h hr
    · cases h
      exact hr
  · cases h
    exact hr

/-- The `LIMIT` clause of the model queries throws exactly when the limit is a
number that is not strictly between -2^63 and 2^63. -/
theorem limitIfTruthy_eq_none_iff {α : Type} (limit : Option Int) (rows : List α) :
    limitIfTruthy limit rows = none ↔
      ∃ n, limit = some n ∧ (n ≤ -(2 ^ 63) ∨ 2 ^ 63 ≤ n) := by
  unfold limitIfTruthy
  cases limit with
  | none => simp
  | some n =>
    simp only [Option.some.injEq, exists_eq_left']
    by_cases h0 : n = 0
    · subst h0
      have hne : ((0 : Int) != 0) = false := rfl
      rw [hne]
      constructor
      · intro h
        cases h
      · intro h
        omega
    · have hne : (n != 0) = true := by simpa using h0
      rw [hne, if_pos rfl]
      unfold sqlLimit
      by_cases hr : n ≤ -(2 ^ 63) ∨ 2 ^ 63 ≤ n
      · rw [if_pos hr]
        exact ⟨fun _ => hr, fun _ => rfl⟩
      · rw [if_neg hr]
        constructor
        · intro h
          split at h <;> cases h
        · intro h
          exact absurd h hr

theorem mem_orderByDesc {α : Type} (key : α → String) (rows : List α) (r : α) :
    r ∈ orderByDesc key rows ↔ r ∈ rows := by
  unfold orderByDesc
  exact List.mem_insertionSort _

theorem mem_orderByDesc2 {α : Type} (key1 key2 : α → String) (rows : List α) (r : α) :
    r ∈ orderByDesc2 key1 key2 rows ↔ r ∈ rows := by
  unfold orderByDesc2
  exact List.mem_insertionSort _

theorem patient_of_mem_getByPatient (db : Db) (patientId : Int) (filters : AppointmentFilters)
    (rows : List AppointmentRow) (a : AppointmentRow)
    (h : Appointment.getByPatient db patientId filters = some rows) (ha : a ∈ rows) :
    a ∈ db.appointments ∧ a.patient_id = patientId := by
  unfold Appointment.getByPatient at h
  have h1 := mem_of_mem_limitIfTruthy _ _ _ _ h ha
  rw [mem_orderByDesc2, List.mem_filter] at h1
  obtain ⟨hmem, hcond⟩ := h1
  simp only [Bool.and_eq_true, beq_iff_eq] at hcond
  exact ⟨hmem, hcond.1.1.1.2⟩

theorem patient_of_mem_rxByPatient (db : Db) (patientId : Int) (filters : PrescriptionFilters)
    (rows : List PrescriptionRow) (p : PrescriptionRow)
    (h : Prescription.getByPatient db patientId filters = some rows) (hp : p ∈ rows) :
    p ∈ db.prescriptions ∧ p.patient_id = patientId := by
  unfold Prescription.getByPatient at h
  have h1 := mem_of_mem_limitIfTruthy _ _ _ _ h hp
  rw [mem_orderByDesc, List.mem_filter] at h1
  obtain ⟨hmem, hcond⟩ := h1
  simp only [Bool.and_eq_true, beq_iff_eq] at hcond
  exact ⟨hmem, hcond.1.2⟩

theorem patient_of_mem_active (db : Db) (patientId : Int) (p : PrescriptionRow)
    (h : p ∈ Prescription.getActiveMedications db patientId) :
    p ∈ db.prescriptions ∧ p.patient_id = patientId := by
  unfold Prescription.getActiveMedications at h
  rw [mem_orderByDesc, List.mem_filter] at h
  obtain ⟨hmem, hcond⟩ := h
  simp only [Bool.and_eq_true, beq_iff_eq] at hcond
  exact ⟨hmem, hcond.1.2⟩

/-- C11: for a caller authenticated as a patient.  Reading, updating or
cancelling an appointment of another patient, reading another patient's
prescription, asking a refill of it, and reading another patient's lab results
are all answered 403, and the writes leave the database unchanged.  The active
medications the caller gets hold only rows whose `patient_id` is the caller's id,
whatever the query says.  The appointment list and the prescription list are
answered 200 with rows whose `patient_id` is the caller's id whenever the `limit`
parameter is absent, empty, unreadable for `parseInt`, or parsed to a number
strictly between -2^63 and 2^63; for a `limit` parsed to any other number the
query throws and the answer is 500, with no row at all. -/
theorem C11_patient_isolation (db : Db) (session : Option Session) (user : ReqUser)
    (hauth : isAuthenticated db session = .ok user) (hrole : user.role = "patient") :
    (∀ id a, Appointment.findById db id = some a → a.patient_id ≠ user.id →
      AppointmentRoutes.get db session id = .error { status := 403, text := "Access denied." }) ∧
    (∀ ip id body a, Appointment.findById db id = some a → a.patient_id ≠ user.id →
      AppointmentRoutes.put db { session := session, ip := ip, id := id, body := body } =
        ({ status := 403, text := "Access denied." }, db)) ∧
    (∀ ip id body a, Appointment.findById db id = some a → a.patient_id ≠ user.id →
      AppointmentRoutes.putCancel db { session := session, ip := ip, id := id, body := body } =
        ({ status := 403, text := "Access denied." }, db)) ∧
    (∀ id p, Prescription.findById db id = some p → p.patient_id ≠ user.id →
      PrescriptionRoutes.get db session id =
        .error { status := 403, text := "Access denied." }) ∧
    (∀ ip id p, Prescription.findById db id = some p → p.patient_id ≠ user.id →
      PrescriptionRoutes.refill db session id ip =
        ({ status := 403, text := "Access denied." }, none, db)) ∧
    (∀ patientId, patientId ≠ user.id →
      PatientRoutes.labResults db session patientId =
        .error { status := 403, text := "Access denied." }) ∧
    (∀ param, ∃ rows, PrescriptionRoutes.active db session param = .ok rows ∧
      ∀ r ∈ rows, r ∈ db.prescriptions ∧ r.patient_id = user.id) ∧
    (∀ query,
      ((∀ n, parsedLimit query.limit = some n → -(2 ^ 63) < n ∧ n < 2 ^ 63) →
        ∃ rows, AppointmentRoutes.list db session query = .ok rows ∧
          ∀ r ∈ rows, r ∈ db.appointments ∧ r.patient_id = user.id) ∧
      (∀ n, parsedLimit query.limit = some n → (n ≤ -(2 ^ 63) ∨ 2 ^ 63 ≤ n) →
        AppointmentRoutes.list db session query =
          .error { status := 500, text := "Failed to retrieve appointments." })) ∧
    (∀ query,
      ((∀ n, parsedLimit query.limit = some n → -(2 ^ 63) < n ∧ n < 2 ^ 63) →
        ∃ rows, PrescriptionRoutes.list db session query = .ok rows ∧
          ∀ r ∈ rows, r ∈ db.prescriptions ∧ r.patient_id = user.id) ∧
      (∀ n, parsedLimit query.limit = some n → (n ≤ -(2 ^ 63) ∨ 2 ^ 63 ≤ n) →
        PrescriptionRoutes.list db session query =
          .error { status := 500, text := "Failed to retrieve prescriptions." })) := by
  refine ⟨?_, ?_, ?_, ?_, ?_, ?_, ?_, ?_, ?_⟩
  · intro id a ha hne
    unfold AppointmentRoutes.get
    simp [hauth, ha, hrole, hne]
  · intro ip id body a ha hne
    unfold AppointmentRoutes.put
    simp [hauth, ha, hrole, hne]
  · intro ip id body a ha hne
    unfold AppointmentRoutes.putCancel
    simp [hauth, ha, hrole, hne]
  · intro id p hp hne
    unfold PrescriptionRoutes.get
    simp [hauth, hp, hrole, hne]
  · intro ip id p hp hne
    unfold PrescriptionRoutes.refill requireRole
    simp [hauth, hp, hrole, hne]
  · intro patientId hne
    unfold PatientRoutes.labResults
    simp [hauth, hrole, Ne.symm hne]
  · intro param
    refine ⟨Prescription.getActiveMedications db user.id, ?_, ?_⟩
    · unfold PrescriptionRoutes.active
      simp [hauth, hrole]
    · intro r hr
      exact patient_of_mem_active db user.id r hr
  · intro query
    have hlist : AppointmentRoutes.list db session query =
        rowsOrFailed "Failed to retrieve appointments."
          (Appointment.getByPatient db user.id
            { status := query.status, from_ := query.from_, to_ := query.to_
              limit := parsedLimit query.limit }) := by
      unfold AppointmentRoutes.list
      simp [hauth, hrole]
    rw [hlist]
    constructor
    · intro hrange
      cases hq : Appointment.getByPatient db user.id
          { status := query.status, from_ := query.from_, to_ := query.to_
            limit := parsedLimit query.limit } with
      | none =>
        exfalso
        unfold Appointment.getByPatient at hq
        obtain ⟨n, hn, hout⟩ := (limitIfTruthy_eq_none_iff _ _).mp hq
        have := hrange n hn
        omega
      | some rows =>
        exact ⟨rows, rfl, fun r hr => patient_of_mem_getByPatient db user.id _ rows r hq hr⟩
    · intro n hn hout
      have hq : Appointment.getByPatient db user.id
          { status := query.status, from_ := query.from_, to_ := query.to_
            limit := parsedLimit query.limit } = none := by
        unfold Appointment.getByPatient
        exact (limitIfTruthy_eq_none_iff _ _).mpr ⟨n, hn, hout⟩
      rw [hq]
      rfl
  · intro query
    have hlist : PrescriptionRoutes.list db session query =
        rowsOrFailed "Failed to retrieve prescriptions."
          (Prescription.getByPatient db user.id
            { status := query.status, limit := parsedLimit query.limit }) := by
      unfold PrescriptionRoutes.list
      simp [hauth, hrole]
    rw [hlist]
    constructor
    · intro hrange
      cases hq : Prescription.getByPatient db user.id
          { status := query.status, limit := parsedLimit query.limit } with
      | none =>
        exfalso
        unfold Prescription.getByPatient at hq
        obtain ⟨n, hn, hout⟩ := (limitIfTruthy_eq_none_iff _ _).mp hq
        have := hrange n hn
        omega
      | some rows =>
        exact ⟨rows, rfl, fun r hr => patient_of_mem_rxByPatient db user.id _ rows r hq hr⟩
    · intro n hn hout
      have hq : Prescription.getByPatient db user.id
          { status := query.status, limit := parsedLimit query.limit } = none := by
        unfold Prescription.getByPatient
        exact (limitIfTruthy_eq_none_iff _ _).mpr ⟨n, hn, hout⟩
      rw [hq]
      rfl

/-- Witness for C11: patient 2 asks for the appointment of patient 3, and lists
the appointments with `limit=99999999999999999999`, which `parseInt` reads as
10^20. -/
theorem C11_patient_isolation_witness :
    AppointmentRoutes.get twoDoctorClinic (some (sessionOf 2)) 1 =
      .error { status := 403, text := "Access denied." } ∧
    parsedLimit (some "99999999999999999999") = some 100000000000000000000 ∧
    AppointmentRoutes.list twoDoctorClinic (some (sessionOf 2))
        { limit := some "99999999999999999999" } =
      .error { status := 500, text := "Failed to retrieve appointments." } :=
  ⟨(C11_patient_isolation twoDoctorClinic (some (sessionOf 2))
      { id := 2, email := "p@x.org", role := "patient", first_name := "Pat", last_name := "Poe"
        is_active := true } rfl rfl).1 1
      { id := 1, patient_id := 3, doctor_id := 5, date := "2025-01-06", time := "10:00" }
      (by decide) (by decide),
   by decide,
   ((C11_patient_isolation twoDoctorClinic (some (sessionOf 2))
      { id := 2, email := "p@x.org", role := "patient", first_name := "Pat", last_name := "Poe"
        is_active := true } rfl rfl).2.2.2.2.2.2.2.1 { limit := some "99999999999999999999" }).2
      100000000000000000000 (by decide) (by decide)⟩

/-- C12 (fails on the code): no appointment links doctor 1 and patient 3.
`GET /patients/3` answers 403 to doctor 1, but `GET /patients/3/lab-results` and
`GET /prescriptions/active?patient_id=3` answer 200 with the patient's lab result
and prescription. -/
theorem C12_unassigned_doctor_reads_patient_data :
    (twoDoctorClinic.appointments.filter fun a => a.doctor_id == 1 && a.patient_id == 3) = [] ∧
    PatientRoutes.get twoDoctorClinic (some (sessionOf 1)) 3 =
      .error { status := 403, text := "This patient is not assigned to you." } ∧
    PatientRoutes.labResults twoDoctorClinic (some (sessionOf 1)) 3 =
      .ok [{ id := 1, patient_id := 3, doctor_id := 5, test_name := "HbA1c", category := "blood"
             result_value := "5.4", test_date := "2025-01-06" }] ∧
    PrescriptionRoutes.active twoDoctorClinic (some (sessionOf 1)) (some "3") =
      .ok [{ id := 1, patient_id := 3, doctor_id := 5, medication := "Lisinopril"
             dosage := "10 mg", frequency := "daily", start_date := "2025-01-06"
             refills_remaining := 2, refills_total := 2
             created_at := "2025-01-06 10:30:00" }] ∧
    canAccessPatient twoDoctorClinic
      (some { id := 1, email := "d@x.org", role := "doctor", first_name := "Dana"
              last_name := "Diaz", is_active := true }) (some 3) =
      .respond { status := 403, text := "Access denied. This patient is not assigned to you." } := by
  refine ⟨by decide, rfl, rfl, rfl, by decide⟩


/-! ### Facts about the password validators -/

theorem firstLine_eq_of_no_terminator (p : String)
    (h : ∀ c ∈ p.data, isLineTerminator c = false) : firstLine p = p.data := by
  unfold firstLine
  rw [List.takeWhile_eq_self_iff]
  intro c hc
  simp [h c hc]

theorem matchesPasswordPattern_iff (p : String) :
    matchesPasswordPattern p = true ↔
      (∃ c ∈ firstLine p, c.isLower = true) ∧ (∃ c ∈ firstLine p, c.isUpper = true) ∧
        (∃ c ∈ firstLine p, c.isDigit = true) := by
  unfold matchesPasswordPattern
  simp only [Bool.and_eq_true, List.any_eq_true]
  tauto

/-- C21 (fails on the code): `"Abcdefg\n1"` has 9 characters, among them a
lowercase letter, an uppercase letter and a digit, so it conforms to the policy
of the specification, which is also what the validators' own message says
('Password must contain uppercase, lowercase, and number'); yet the three
validators reject it, because the digit comes after a line break, which `.` in
the pattern does not cross.  With the digit before the line break the same
characters are accepted.  The three validators agree on every password, and on
every password without line terminator and without variation selector they accept
exactly the passwords that conform to the policy. -/
theorem C21_policy_conforming_password_rejected :
    PasswordPolicy "Abcdefg\n1" ∧
    AuthRoutes.registerPasswordAccepted "Abcdefg\n1" = false ∧
    AuthRoutes.resetPasswordAccepted "Abcdefg\n1" = false ∧
    AuthRoutes.changePasswordAccepted "Abcdefg\n1" = false ∧
    AuthRoutes.registerPasswordAccepted "Abcdef1\ng" = true ∧
    (∀ p, AuthRoutes.resetPasswordAccepted p = AuthRoutes.registerPasswordAccepted p ∧
      AuthRoutes.changePasswordAccepted p = AuthRoutes.registerPasswordAccepted p) ∧
    (∀ p : String, (∀ c ∈ p.data, isLineTerminator c = false) →
      (∀ c ∈ p.data, isVariationSelector c = false) →
      (AuthRoutes.registerPasswordAccepted p = true ↔ PasswordPolicy p)) := by
  refine ⟨⟨by decide, ⟨'b', by decide, by decide⟩, ⟨'A', by decide, by decide⟩,
    ⟨'1', by decide, by decide⟩⟩, by decide, by decide, by decide, by decide,
    fun p => ⟨rfl, rfl⟩, ?_⟩
  intro p hno hsel
  have hfilter : p.data.filter isVariationSelector = [] := by
    rw [List.filter_eq_nil_iff]
    intro c hc
    simp [hsel c hc]
  unfold AuthRoutes.registerPasswordAccepted isLength
  rw [Bool.and_eq_true, matchesPasswordPattern_iff, decide_eq_true_eq, hfilter,
    firstLine_eq_of_no_terminator p hno]
  rfl

/-! ### Facts about the updates of `users` -/

theorem updateUsers_roles (db : Db) (id : Int) (f : UserRow → UserRow)
    (hf : ∀ u, (f u).id = u.id ∧ (f u).role = u.role) : (db.updateUsers id f).roles = db.roles := by
  simp only [Db.roles, Db.updateUsers, List.map_map]
  apply List.map_congr_left
  intro u _
  simp only [Function.comp]
  split
  · rw [(hf u).1, (hf u).2]
  · rfl

theorem setColumn_allowed (u : UserRow) (key value : String)
    (h : User.allowedFields.contains key = true) :
    (User.setColumn u key value).id = u.id ∧ (User.setColumn u key value).role = u.role := by
  simp only [User.allowedFields, List.contains_eq_any_beq, List.any_cons, List.any_nil,
    Bool.or_false, Bool.or_eq_true, beq_iff_eq] at h
  rcases h with h | h | h | h | h | h | h | h | h | h | h | h <;> subst h <;> exact ⟨rfl, rfl⟩

theorem foldl_setColumn_allowed (entries : List (String × String))
    (h : ∀ e ∈ entries, User.allowedFields.contains e.1 = true) (u : UserRow) :
    (entries.foldl (fun row entry => User.setColumn row entry.1 entry.2) u).id = u.id ∧
    (entries.foldl (fun row entry => User.setColumn row entry.1 entry.2) u).role = u.role := by
  induction entries generalizing u with
  | nil => exact ⟨rfl, rfl⟩
  | cons e rest ih =>
    have he := setColumn_allowed u e.1 e.2 (h e (List.mem_cons_self e rest))
    have hrest := ih (fun x hx => h x (List.mem_cons_of_mem e hx)) (User.setColumn u e.1 e.2)
    simp only [List.foldl_cons]
    exact ⟨hrest.1.trans he.1, hrest.2.trans he.2⟩

theorem hasUser_of_isAuthenticated (db : Db) (session : Option Session) (u : ReqUser)
    (h : isAuthenticated db session = .ok u) : db.hasUser u.id = true ∧ u.is_active = true := by
  unfold isAuthenticated at h
  split at h
  · cases h
  · split at h
    · split at h
      · rename_i user hfind
        split at h
        · rename_i hact
          cases h
          exact ⟨hasUser_of_mem db user (List.mem_of_find?_eq_some hfind), hact⟩
        · cases h
      · cases h
    · cases h

/-- C28: none of the updates of `users` changes the role (or the id) of any row:
`User.update` with any list of entries, a `role` entry included, and
`updatePassword`, `updateLastLogin`, `setResetToken`, `clearResetToken`,
`set2FASecret`, `enable2FA`, `disable2FA`, `deactivate` and `activate`. -/
theorem C28_role_is_immutable (P : Primitives) (db : Db) (userId : Int)
    (updates : List (String × String)) (newPassword secret token expires : String) (now : Nat) :
    (User.update db userId updates).2.roles = db.roles ∧
    (User.updatePassword P db userId newPassword).roles = db.roles ∧
    (User.updateLastLogin db userId now).roles = db.roles ∧
    (User.setResetToken db userId token expires).roles = db.roles ∧
    (User.clearResetToken db userId).roles = db.roles ∧
    (User.set2FASecret db userId secret).roles = db.roles ∧
    (User.enable2FA db userId).roles = db.roles ∧
    (User.disable2FA db userId).roles = db.roles ∧
    (User.deactivate db userId).roles = db.roles ∧
    (User.activate db userId).roles = db.roles ∧
    (User.update clinic 2 [("role", "admin"), ("first_name", "Eve")]).2.roles = clinic.roles ∧
    ((User.update clinic 2 [("role", "admin"), ("first_name", "Eve")]).1.map
      fun u => (u.first_name, u.role)) = some ("Eve", "patient") := by
  refine ⟨?_, updateUsers_roles _ _ _ (fun _ => ⟨rfl, rfl⟩),
    updateUsers_roles _ _ _ (fun _ => ⟨rfl, rfl⟩), updateUsers_roles _ _ _ (fun _ => ⟨rfl, rfl⟩),
    updateUsers_roles _ _ _ (fun _ => ⟨rfl, rfl⟩), updateUsers_roles _ _ _ (fun _ => ⟨rfl, rfl⟩),
    updateUsers_roles _ _ _ (fun _ => ⟨rfl, rfl⟩), updateUsers_roles _ _ _ (fun _ => ⟨rfl, rfl⟩),
    updateUsers_roles _ _ _ (fun _ => ⟨rfl, rfl⟩), updateUsers_roles _ _ _ (fun _ => ⟨rfl, rfl⟩),
    by decide, by decide⟩
  unfold User.update
  dsimp only
  split
  · rfl
  · apply updateUsers_roles
    intro u
    apply foldl_setColumn_allowed
    intro e he
    exact (List.mem_filter.mp he).2

/-- C26: for an authenticated identity, `requireRole(roles)` calls next and
leaves the database alone exactly when the role is one of `roles`; otherwise it
answers 403 and appends one ACCESS_DENIED audit entry naming the role, the
required roles and the source address.  Without `req.user` it answers 401. -/
theorem C26_requireRole (roles : List String) (db : Db) (session : Option Session)
    (u : ReqUser) (ip : String) (hauth : isAuthenticated db session = .ok u) :
    (requireRole roles db (some u) ip = (.next, db) ↔ u.role ∈ roles) ∧
    (u.role ∉ roles →
      requireRole roles db (some u) ip =
        (.respond { status := 403, text := "Access denied. Insufficient permissions." },
         { db with audit_log := db.audit_log ++
            [{ user_id := some u.id, action := "ACCESS_DENIED", resource := none
               resource_id := none
               details := "User with role '" ++ u.role ++ "' attempted to access route requiring: "
                 ++ String.intercalate ", " roles
               ip_address := ip }] })) ∧
    requireRole roles db none ip =
      (.respond { status := 401, text := "Authentication required." }, db) := by
  have hhas := (hasUser_of_isAuthenticated db session u hauth).1
  refine ⟨?_, ?_, rfl⟩
  · unfold requireRole
    by_cases hin : u.role ∈ roles
    · simp [hin]
    · simp [hin]
  · intro hnot
    unfold requireRole
    dsimp only
    rw [logAction_of_hasUser _ _ _ _ _ _ _ hhas]
    simp [hnot]

/-- Witness for C26: patient 2 calls a route that requires the role doctor. -/
theorem C26_requireRole_witness :
    (requireRole ["doctor"] clinic
      (some { id := 2, email := "p@x.org", role := "patient", first_name := "Pat"
              last_name := "Poe", is_active := true }) "203.0.113.7").2.audit_log =
      [{ user_id := some 2, action := "ACCESS_DENIED", resource := none, resource_id := none
         details := "User with role 'patient' attempted to access route requiring: doctor"
         ip_address := "203.0.113.7" }] :=
  ((C26_requireRole ["doctor"] clinic (some (sessionOf 2))
      { id := 2, email := "p@x.org", role := "patient", first_name := "Pat"
        last_name := "Poe", is_active := true } "203.0.113.7" rfl).2.1 (by decide)) ▸ by decide


/-- C25: `canAccessPatient` answers 403 to every identity the decision table
(rules 1-3) does not admit, in particular, with the message 'Access denied.', to
every identity whose role is none of admin, patient and doctor, such as a role
`nurse`.  The check reads `req.user`, which only `isAuthenticated` sets, and only
from a row of `users` whose `is_active` is set: an identity that reaches the check
is active, so that none reaches it inactive, whatever its role; the session of the
deactivated patient 3 is answered 401 by `isAuthenticated`. -/
theorem C25_canAccessPatient_rule4 (db : Db) (u : ReqUser) (target : Option Int) :
    (¬ AccessAllowed db u target →
      ∃ r, canAccessPatient db (some u) target = .respond r ∧ r.status = 403) ∧
    (u.role ≠ "admin" → u.role ≠ "patient" → u.role ≠ "doctor" →
      canAccessPatient db (some u) target =
        .respond { status := 403, text := "Access denied." }) ∧
    (∀ session, isAuthenticated db session = .ok u → u.is_active = true) ∧
    (∀ session, isAuthenticated db session = .ok u → u.is_active = false →
      ∃ r, canAccessPatient db (some u) target = .respond r ∧ r.status = 403) ∧
    canAccessPatient clinic
      (some { id := 9, email := "n@x.org", role := "nurse", first_name := "Noa"
              last_name := "Nye", is_active := true }) (some 2) =
      .respond { status := 403, text := "Access denied." } ∧
    isAuthenticated clinicWithInactive (some (sessionOf 3)) =
      .error { status := 401, text := "Authentication required. Please log in." } := by
  have hcount : (0 < (db.appointments.filter fun a =>
      a.doctor_id == u.id && some a.patient_id == target).length) ↔
      ∃ a ∈ db.appointments, a.doctor_id = u.id ∧ some a.patient_id = target := by
    rw [List.length_pos_iff_exists_mem]
    simp [List.mem_filter]
  refine ⟨?_, ?_, fun session h => (hasUser_of_isAuthenticated db session u h).2, ?_,
    by decide, rfl⟩
  · unfold canAccessPatient AccessAllowed
    by_cases ha : u.role = "admin"
    · simp [ha]
    by_cases hp : u.role = "patient"
    · by_cases hid : some u.id = target <;> simp [hp, hid]
    by_cases hd : u.role = "doctor"
    · simp only [hd, beq_iff_eq, gt_iff_lt]
      by_cases hc : ∃ a ∈ db.appointments, a.doctor_id = u.id ∧ some a.patient_id = target
      · simp [hcount.mpr hc, hc]
      · simp [mt hcount.mp hc, hc]
    · simp [ha, hp, hd]
  · intro ha hp hd
    unfold canAccessPatient
    simp [ha, hp, hd]
  · intro session h hinactive
    have hactive := (hasUser_of_isAuthenticated db session u h).2
    rw [hactive] at hinactive
    cases hinactive

/-- C24 fails as stated: an administrator books with `patient_id: 2.9` in the
body and is answered 201; the inserted row has `patient_id = 2`, which is
`parseInt(2.9)`, not the body's value.  With `patient_id: 1e21` the row gets
`patient_id = 1`, the first digit of the text `1e+21`. -/
theorem C24_fractional_patient_id_is_truncated :
    (AppointmentRoutes.post clinic
      { session := some (sessionOf 4)
        body := { doctor_id := 1, date := "2025-01-06", time := "09:00"
                  patient_id := .number "2.9" } }).1.status = 201 ∧
    (AppointmentRoutes.post clinic
      { session := some (sessionOf 4)
        body := { doctor_id := 1, date := "2025-01-06", time := "09:00"
                  patient_id := .number "2.9" } }).2.appointments =
      [ { id := 1, patient_id := 2, doctor_id := 1, date := "2025-01-06", time := "09:00" } ] ∧
    (AppointmentRoutes.post clinic
      { session := some (sessionOf 4)
        body := { doctor_id := 1, date := "2025-01-06", time := "09:00"
                  patient_id := .number "1e+21" } }).1.status = 201 ∧
    (AppointmentRoutes.post clinic
      { session := some (sessionOf 4)
        body := { doctor_id := 1, date := "2025-01-06", time := "09:00"
                  patient_id := .number "1e+21" } }).2.appointments =
      [ { id := 1, patient_id := 1, doctor_id := 1, date := "2025-01-06", time := "09:00" } ] := by
  refine ⟨by decide, by decide, by decide, by decide⟩

/-- C24 (amended): for a caller with role patient, a request that passes
validation and names a valid doctor and a free slot is answered 201, and every
booking answered 201 inserts a row whose `patient_id` is the caller's id, whatever
the body says.  For a caller with another role whose body has a truthy
`patient_id`, such a request is answered 201 when `parseInt` of that member is the
id of a user, and every booking answered 201 inserts a row whose `patient_id` is
`parseInt` of the member: the member itself for an integer such as 3, but 2 for
2.9, 1 for 1e21 and 42 for the string `" 42abc"`.  A caller with another role
whose body has no truthy `patient_id` is answered 400 with the database
unchanged. -/
theorem C24_patient_id_of_booking (db : Db) (req : PostRequest) (user : ReqUser)
    (hauth : isAuthenticated db req.session = .ok user) :
    (user.role = "patient" →
      (req.errorsEmpty = true →
        AppointmentRoutes.validDoctor db req.body.doctor_id = true →
        req.body.time ∈ Appointment.getAvailableSlots db req.body.doctor_id req.body.date →
        (AppointmentRoutes.post db req).1.status = 201) ∧
      ((AppointmentRoutes.post db req).1.status = 201 →
        ∃ row, (AppointmentRoutes.post db req).2.appointments = db.appointments ++ [row] ∧
          row.patient_id = user.id)) ∧
    (user.role ≠ "patient" → req.body.patient_id.truthy = true →
      (∀ p, parseInt req.body.patient_id.text = some p → db.hasUser p = true →
        req.errorsEmpty = true →
        AppointmentRoutes.validDoctor db req.body.doctor_id = true →
        req.body.time ∈ Appointment.getAvailableSlots db req.body.doctor_id req.body.date →
        (AppointmentRoutes.post db req).1.status = 201) ∧
      ((AppointmentRoutes.post db req).1.status = 201 →
        ∃ row, (AppointmentRoutes.post db req).2.appointments = db.appointments ++ [row] ∧
          parseInt req.body.patient_id.text = some row.patient_id)) ∧
    (user.role ≠ "patient" → req.body.patient_id.truthy = false →
      (AppointmentRoutes.post db req).1.status = 400 ∧ (AppointmentRoutes.post db req).2 = db) ∧
    parseInt "3" = some 3 ∧ parseInt "2.9" = some 2 ∧ parseInt "1e+21" = some 1 ∧
    parseInt " 42abc" = some 42 ∧ parseInt "abc" = none := by
  have key : (AppointmentRoutes.post db req).1.status = 201 →
      ∃ patientId, AppointmentRoutes.patientIdOf user req.body = some (some patientId) ∧
        (AppointmentRoutes.post db req).2.appointments =
          db.appointments ++ [Appointment.newRow db (postData req (some patientId)) patientId] := by
    intro h201
    rcases post_inserted_or_unchanged db req with ⟨user1, patientId, hreach, hpat⟩ | ⟨hne, _⟩
    · have huser : user1 = user := by
        have := hreach.1.symm.trans hauth
        cases this
        rfl
      subst huser
      exact ⟨patientId, hreach.2.2.1, (post_inserted db req user1 patientId hreach hpat).2.1⟩
    · exact absurd h201 hne
  refine ⟨?_, ?_, ?_, by decide, by decide, by decide, by decide, by decide⟩
  · intro hrole
    constructor
    · intro hvalid hdoc hslot
      have hpid : AppointmentRoutes.patientIdOf user req.body = some (some user.id) := by
        simp [AppointmentRoutes.patientIdOf, hrole]
      have hhas := (hasUser_of_isAuthenticated db req.session user hauth).1
      rw [(post_inserted db req user user.id ⟨hauth, hvalid, hpid, hdoc, hslot⟩ hhas).1]
    · intro h201
      obtain ⟨patientId, hpid, happ⟩ := key h201
      refine ⟨_, happ, ?_⟩
      unfold AppointmentRoutes.patientIdOf at hpid
      simp only [hrole, beq_self_eq_true, if_true, Option.some.injEq] at hpid
      exact hpid.symm
  · intro hrole htruthy
    have hr : (user.role == "patient") = false := by simpa using hrole
    have hpidOf : AppointmentRoutes.patientIdOf user req.body =
        some (parseInt req.body.patient_id.text) := by
      simp [AppointmentRoutes.patientIdOf, hr, htruthy]
    constructor
    · intro p hp hhas hvalid hdoc hslot
      rw [hp] at hpidOf
      rw [(post_inserted db req user p ⟨hauth, hvalid, hpidOf, hdoc, hslot⟩ hhas).1]
    · intro h201
      obtain ⟨patientId, hpid, happ⟩ := key h201
      refine ⟨_, happ, ?_⟩
      rw [hpidOf] at hpid
      exact Option.some.inj hpid
  · intro hrole hnone
    have hr : (user.role == "patient") = false := by simpa using hrole
    unfold AppointmentRoutes.post
    by_cases hvalid : req.errorsEmpty = true
    · simp [hauth, hvalid, AppointmentRoutes.patientIdOf, hr, hnone]
    · simp [hauth, hvalid]

/-- Witness for C24: the administrator books for patient 3, and patient 2 books
while the body names patient 3. -/
theorem C24_patient_id_of_booking_witness :
    (AppointmentRoutes.post clinic
      { session := some (sessionOf 4)
        body := { doctor_id := 1, date := "2025-01-06", time := "09:00"
                  patient_id := .number "3" } }).1.status = 201 ∧
    (AppointmentRoutes.post clinic
      { session := some (sessionOf 2)
        body := { doctor_id := 1, date := "2025-01-06", time := "09:00"
                  patient_id := .number "3" } }).1.status = 201 :=
  ⟨((C24_patient_id_of_booking clinic
      { session := some (sessionOf 4)
        body := { doctor_id := 1, date := "2025-01-06", time := "09:00"
                  patient_id := .number "3" } }
      { id := 4, email := "a@x.org", role := "admin", first_name := "Ada", last_name := "Min"
        is_active := true } rfl).2.1 (by decide) (by decide)).1 3 (by decide) (by decide) rfl
      (by decide) (by decide),
   ((C24_patient_id_of_booking clinic
      { session := some (sessionOf 2)
        body := { doctor_id := 1, date := "2025-01-06", time := "09:00"
                  patient_id := .number "3" } }
      { id := 2, email := "p@x.org", role := "patient", first_name := "Pat", last_name := "Poe"
        is_active := true } rfl).1 rfl).1 rfl (by decide) (by decide)⟩

/-- C23 (fails on the code): appointment 1 is between patient 3 and doctor 5.
Doctor 1, who is not the appointment's doctor, is answered 403 by
`PUT /appointments/1` but 200 by `PUT /appointments/1/cancel`, and the appointment
is then cancelled. -/
theorem C23_other_doctor_cancels :
    twoDoctorClinic.appointments =
      [{ id := 1, patient_id := 3, doctor_id := 5, date := "2025-01-06", time := "10:00" }] ∧
    (AppointmentRoutes.put twoDoctorClinic
      { session := some (sessionOf 1), id := 1
        body := { status := some (some "cancelled") } }).1.status = 403 ∧
    (AppointmentRoutes.putCancel twoDoctorClinic
      { session := some (sessionOf 1), id := 1 }).1.status = 200 ∧
    (AppointmentRoutes.putCancel twoDoctorClinic
      { session := some (sessionOf 1), id := 1 }).2.appointments =
      [{ id := 1, patient_id := 3, doctor_id := 5, date := "2025-01-06", time := "10:00"
         status := some "cancelled" }] ∧
    (AppointmentRoutes.putCancel twoDoctorClinic
      { session := some (sessionOf 2), id := 1 }).1.status = 403 := by
  refine ⟨rfl, by decide, by decide, by decide, by decide⟩

/-- C27 (fails on the code): a login for an unknown email and a login for a
deactivated account are rejected without any audit entry; only a wrong password
for an active account appends a LOGIN_FAILED entry. -/
theorem C27_failed_logins_not_all_audited :
    (AuthRoutes.loginHandler toyPrimitives clinicWithInactive {}
      { email := "nobody@x.org", password := "Secret123" } 0).1.status = 401 ∧
    (AuthRoutes.loginHandler toyPrimitives clinicWithInactive {}
      { email := "nobody@x.org", password := "Secret123" } 0).2.2.audit_log = [] ∧
    (AuthRoutes.loginHandler toyPrimitives clinicWithInactive {}
      { email := "q@x.org", password := "Secret123" } 0).1.status = 403 ∧
    (AuthRoutes.loginHandler toyPrimitives clinicWithInactive {}
      { email := "q@x.org", password := "Secret123" } 0).2.2.audit_log = [] ∧
    (AuthRoutes.loginHandler toyPrimitives clinicWithInactive {}
      { email := "p@x.org", password := "wrong" } 0).1.status = 401 ∧
    (AuthRoutes.loginHandler toyPrimitives clinicWithInactive {}
      { email := "p@x.org", password := "wrong" } 0).2.2.audit_log =
      [{ user_id := none, action := "LOGIN_FAILED", resource := some "users", resource_id := none
         details := "Failed login attempt for p@x.org", ip_address := "127.0.0.1" }] := by
  refine ⟨by decide, by decide, by decide, by decide, by decide, by decide⟩


/-! ### Facts about `Appointment.update` and the PUT routes -/

theorem update_appointments (db : Db) (id : Int) (u : Updates) (r : Option AppointmentRow)
    (db1 : Db) (h : Appointment.update db id u = some (r, db1)) :
    db1.appointments = db.appointments ∨
    db1.appointments =
      db.appointments.map fun a => if a.id == id then Appointment.applySet u a else a := by
  unfold Appointment.update at h
  split at h
  · cases h
    exact Or.inl rfl
  · dsimp only at h
    split at h
    · cases h
      exact Or.inr rfl
    · cases h

theorem put_appointments (db : Db) (req : PutRequest) :
    (AppointmentRoutes.put db req).2.appointments = db.appointments ∨
    (AppointmentRoutes.put db req).2.appointments =
      db.appointments.map fun a =>
        if a.id == req.id then Appointment.applySet req.body a else a := by
  unfold AppointmentRoutes.put
  split
  · exact Or.inl rfl
  · split
    · exact Or.inl rfl
    · split
      · exact Or.inl rfl
      · split
        · exact Or.inl rfl
        · split
          · exact Or.inl rfl
          · rename_i updated db1 hupd
            simp only [(logAction_appointments _ _ _ _ _ _ _).1]
            exact update_appointments db req.id req.body updated db1 hupd

/-- `UPDATE appointments SET status = ? WHERE id = ?` with a value the CHECK
admits. -/
theorem update_status (db : Db) (id : Int) (v : Option String) (hv : statusCheck v = true) :
    Appointment.update db id { status := some v } =
      some (Appointment.findById
          { db with appointments := db.appointments.map fun b =>
              if b.id == id then { b with status := v } else b } id,
        { db with appointments := db.appointments.map fun b =>
            if b.id == id then { b with status := v } else b }) := by
  have hall : ((db.appointments.map fun a =>
      if a.id == id then Appointment.applySet { status := some v } a else a).filter
        fun a => a.id == id).all (fun a =>
          Appointment.notNullOk { status := some v } && statusCheck a.status) = true := by
    rw [List.all_eq_true]
    intro a ha
    rw [List.mem_filter, List.mem_map] at ha
    obtain ⟨⟨b, _, hb⟩, hid⟩ := ha
    by_cases hbid : b.id = id
    · simp only [hbid, beq_self_eq_true, if_true] at hb
      subst hb
      show (Appointment.notNullOk { status := some v } && statusCheck v) = true
      rw [hv]
      rfl
    · have hb' : b = a := by simpa [hbid] using hb
      subst hb'
      simp [hbid] at hid
  unfold Appointment.update
  have hlen : ((Appointment.setClauses { status := some v }).length == 0) = false := by
    cases v <;> rfl
  simp only [hlen, hall, Bool.false_eq_true, if_false, if_true]
  rfl

/-- The same UPDATE with a string outside the six allowed values, when a row has
the id: the CHECK fails and the statement throws. -/
theorem update_status_refused (db : Db) (id : Int) (t : String) (a : AppointmentRow)
    (ha : a ∈ db.appointments) (hid : a.id = id) (ht : t ∉ appointmentStatuses) :
    Appointment.update db id { status := some (some t) } = none := by
  have hcheck : statusCheck (some t) = false := by
    simpa [statusCheck] using ht
  have hall : ((db.appointments.map fun a =>
      if a.id == id then Appointment.applySet { status := some (some t) } a else a).filter
        fun a => a.id == id).all (fun a =>
          Appointment.notNullOk { status := some (some t) } && statusCheck a.status) = false := by
    rw [← Bool.not_eq_true, List.all_eq_true]
    intro hall
    have hmem : Appointment.applySet { status := some (some t) } a ∈
        (db.appointments.map fun a =>
          if a.id == id then Appointment.applySet { status := some (some t) } a else a).filter
            fun a => a.id == id := by
      rw [List.mem_filter, List.mem_map]
      refine ⟨⟨a, ha, by simp [hid]⟩, ?_⟩
      show (a.id == id) = true
      simp [hid]
    have := hall _ hmem
    have hst : statusCheck (Appointment.applySet { status := some (some t) } a).status
        = false := hcheck
    rw [hst] at this
    simp at this
  unfold Appointment.update
  have hlen : ((Appointment.setClauses { status := some (some t) }).length == 0) = false := rfl
  simp only [hlen, hall, Bool.false_eq_true, if_false]

theorem mem_of_appointment_findById (db : Db) (id : Int) (a : AppointmentRow)
    (h : Appointment.findById db id = some a) : a ∈ db.appointments ∧ a.id = id := by
  unfold Appointment.findById at h
  have hp := List.find?_some h
  simp only [Bool.and_eq_true, beq_iff_eq] at hp
  exact ⟨List.mem_of_find?_eq_some h, hp.1.1⟩

/-- What `PUT /appointments/:id` does once the caller has passed the access
check of the route. -/
theorem put_of_access (db : Db) (session : Option Session) (ip : String) (id : Int)
    (body : Updates) (user : ReqUser) (a : AppointmentRow)
    (hauth : isAuthenticated db session = .ok user)
    (hfind : Appointment.findById db id = some a)
    (hpatient : user.role = "patient" → a.patient_id = user.id)
    (hdoctor : user.role = "doctor" → a.doctor_id = user.id) :
    AppointmentRoutes.put db { session := session, ip := ip, id := id, body := body } =
      match Appointment.update db id body with
      | none => ({ status := 500, text := "Failed to update appointment." }, db)
      | some (updated, db1) =>
        ({ status := 200, text := "Appointment updated.", appointment := updated },
         logAction db1 (some user.id) "UPDATE_APPOINTMENT" (some "appointments") (some id)
           "Appointment updated" ip) := by
  have h1 : (user.role == "patient" && a.patient_id != user.id) = false := by
    by_cases hr : user.role = "patient"
    · simp [hr, hpatient hr]
    · simp [hr]
  have h2 : (user.role == "doctor" && a.doctor_id != user.id) = false := by
    by_cases hr : user.role = "doctor"
    · simp [hr, hdoctor hr]
    · simp [hr]
  unfold AppointmentRoutes.put
  simp only [hauth, hfind, h1, h2, Bool.false_eq_true, if_false]

/-- What `PUT /appointments/:id/cancel` does once the caller has passed the access
check of the route. -/
theorem putCancel_of_access (db : Db) (session : Option Session) (ip : String) (id : Int)
    (body : Updates) (user : ReqUser) (a : AppointmentRow)
    (hauth : isAuthenticated db session = .ok user)
    (hfind : Appointment.findById db id = some a)
    (hpatient : user.role = "patient" → a.patient_id = user.id) :
    AppointmentRoutes.putCancel db { session := session, ip := ip, id := id, body := body } =
      match Appointment.cancel db id with
      | none => ({ status := 500, text := "Failed to cancel appointment." }, db)
      | some (cancelled, db1) =>
        ({ status := 200, text := "Appointment cancelled.", appointment := cancelled },
         logAction db1 (some user.id) "CANCEL_APPOINTMENT" (some "appointments") (some id)
           "Appointment cancelled" ip) := by
  have h1 : (user.role == "patient" && a.patient_id != user.id) = false := by
    by_cases hr : user.role = "patient"
    · simp [hr, hpatient hr]
    · simp [hr]
  unfold AppointmentRoutes.putCancel
  simp only [hauth, hfind, h1, Bool.false_eq_true, if_false]

/-- C22 fails as stated: patient 2 sets the cancelled appointment 1 back to
`scheduled` with `PUT /appointments/1` and body `{status: "scheduled"}`, and turns
the completed appointment 2 into `cancelled` with `PUT /appointments/2/cancel`;
both requests are answered 200. -/
theorem C22_terminal_status_changed :
    (finishedVisits.appointments.map fun a => (a.id, a.status)) =
      [(1, some "cancelled"), (2, some "completed")] ∧
    (AppointmentRoutes.put finishedVisits
      { session := some (sessionOf 2), id := 1
        body := { status := some (some "scheduled") } }).1.status = 200 ∧
    ((AppointmentRoutes.put finishedVisits
      { session := some (sessionOf 2), id := 1
        body := { status := some (some "scheduled") } }).2.appointments.map
          fun a => (a.id, a.status)) =
      [(1, some "scheduled"), (2, some "completed")] ∧
    (AppointmentRoutes.putCancel finishedVisits
      { session := some (sessionOf 2), id := 2 }).1.status = 200 ∧
    ((AppointmentRoutes.putCancel finishedVisits
      { session := some (sessionOf 2), id := 2 }).2.appointments.map fun a => (a.id, a.status)) =
      [(1, some "cancelled"), (2, some "cancelled")] := by
  refine ⟨by decide, by decide, by decide, by decide, by decide⟩

/-- C22 (amended): the code has no terminal states.  For every appointment the
route finds, whatever its current status, and every caller other than a patient
who is not the appointment's patient.
When the caller is not a doctor either, or is the appointment's doctor:
`PUT /appointments/:id` with body `{status: s}` is answered 200 and gives the
rows with that id the status `s` when `s` is one of the six allowed values, and
is answered 500 and changes nothing when `s` is any other string; with body
`{status: null}` it is answered 200 and makes the status NULL; and with any body
the request is either answered 200, the rows with that id then having every
allowed member of the body written to them (among them the `status` member, which
is then one of the six values or NULL), or answered 500 with the database
unchanged.
`PUT /appointments/:id/cancel`, which has no test on doctors, is answered 200 and
makes the status `cancelled`.
After a PUT with any body no row has changed its id, and no status has changed
other than to the `status` member of the body, on the rows with that id. -/
theorem C22_status_after_put (db : Db) (session : Option Session) (ip : String) (id : Int)
    (user : ReqUser) (a : AppointmentRow)
    (hauth : isAuthenticated db session = .ok user)
    (hfind : Appointment.findById db id = some a)
    (hpatient : user.role = "patient" → a.patient_id = user.id) :
    ((user.role = "doctor" → a.doctor_id = user.id) →
    (∀ s ∈ appointmentStatuses,
      (AppointmentRoutes.put db
        { session := session, ip := ip, id := id
          body := { status := some (some s) } }).1.status = 200 ∧
      (AppointmentRoutes.put db
        { session := session, ip := ip, id := id
          body := { status := some (some s) } }).2.appointments =
        db.appointments.map fun b => if b.id == id then { b with status := some s } else b) ∧
    (∀ s, s ∉ appointmentStatuses →
      AppointmentRoutes.put db
        { session := session, ip := ip, id := id, body := { status := some (some s) } } =
        ({ status := 500, text := "Failed to update appointment." }, db)) ∧
    ((AppointmentRoutes.put db
        { session := session, ip := ip, id := id, body := { status := some none } }).1.status
        = 200 ∧
      (AppointmentRoutes.put db
        { session := session, ip := ip, id := id
          body := { status := some none } }).2.appointments =
        db.appointments.map fun b => if b.id == id then { b with status := none } else b) ∧
    (∀ body,
      ((AppointmentRoutes.put db
          { session := session, ip := ip, id := id, body := body }).1.status = 200 ∧
        (AppointmentRoutes.put db
          { session := session, ip := ip, id := id, body := body }).2.appointments =
          (if (Appointment.setClauses body).length == 0 then db.appointments
           else db.appointments.map fun b =>
             if b.id == id then Appointment.applySet body b else b) ∧
        (∀ s, body.status = some (some s) → s ∈ appointmentStatuses)) ∨
      AppointmentRoutes.put db { session := session, ip := ip, id := id, body := body } =
        ({ status := 500, text := "Failed to update appointment." }, db))) ∧
    (∀ body,
      (AppointmentRoutes.putCancel db
        { session := session, ip := ip, id := id, body := body }).1.status = 200 ∧
      (AppointmentRoutes.putCancel db
        { session := session, ip := ip, id := id, body := body }).2.appointments =
        db.appointments.map fun b =>
          if b.id == id then { b with status := some "cancelled" } else b) ∧
    (∀ body, ∃ f : AppointmentRow → AppointmentRow,
      (AppointmentRoutes.put db
        { session := session, ip := ip, id := id, body := body }).2.appointments =
        db.appointments.map f ∧
      ∀ b, (f b).id = b.id ∧
        ((f b).status = b.status ∨ (b.id = id ∧ body.status = some (f b).status))) := by
  obtain ⟨hmem, haid⟩ := mem_of_appointment_findById db id a hfind
  refine ⟨fun hdoctor => ⟨?_, ?_, ?_, ?_⟩, ?_, ?_⟩
  · intro s hs
    have hv : statusCheck (some s) = true := by simpa [statusCheck] using hs
    rw [put_of_access db session ip id _ user a hauth hfind hpatient hdoctor,
      update_status db id (some s) hv]
    exact ⟨rfl, (logAction_appointments _ _ _ _ _ _ _).1⟩
  · intro s hs
    rw [put_of_access db session ip id _ user a hauth hfind hpatient hdoctor,
      update_status_refused db id s a hmem haid hs]
  · rw [put_of_access db session ip id _ user a hauth hfind hpatient hdoctor,
      update_status db id none rfl]
    exact ⟨rfl, (logAction_appointments _ _ _ _ _ _ _).1⟩
  · intro body
    rw [put_of_access db session ip id body user a hauth hfind hpatient hdoctor]
    unfold Appointment.update
    by_cases hlen : ((Appointment.setClauses body).length == 0) = true
    · left
      simp only [hlen, if_true]
      refine ⟨trivial, (logAction_appointments _ _ _ _ _ _ _).1, ?_⟩
      intro s hs
      exfalso
      have hpos : 0 < (Appointment.setClauses body).length := by
        simp [Appointment.setClauses, hs]
      simp only [beq_iff_eq] at hlen
      omega
    · simp only [hlen, Bool.false_eq_true, if_false]
      by_cases hall : ((db.appointments.map fun b =>
          if b.id == id then Appointment.applySet body b else b).filter
            fun b => b.id == id).all (fun b =>
              Appointment.notNullOk body && statusCheck b.status) = true
      · left
        simp only [hall, if_true]
        refine ⟨trivial, (logAction_appointments _ _ _ _ _ _ _).1, ?_⟩
        intro s hs
        rw [List.all_eq_true] at hall
        have hrow : Appointment.applySet body a ∈
            (db.appointments.map fun b =>
              if b.id == id then Appointment.applySet body b else b).filter
                fun b => b.id == id := by
          rw [List.mem_filter, List.mem_map]
          refine ⟨⟨a, hmem, by simp [haid]⟩, ?_⟩
          show (a.id == id) = true
          simp [haid]
        have hcheck := hall _ hrow
        have hst : (Appointment.applySet body a).status = some s := by
          simp [Appointment.applySet, hs]
        rw [hst] at hcheck
        have hcheck2 : statusCheck (some s) = true := by
          rw [Bool.and_eq_true] at hcheck
          exact hcheck.2
        simpa [statusCheck] using hcheck2
      · right
        simp only [hall, Bool.false_eq_true, if_false]
  · intro body
    rw [putCancel_of_access db session ip id body user a hauth hfind hpatient]
    unfold Appointment.cancel
    rw [update_status db id (some "cancelled") (by decide)]
    exact ⟨rfl, (logAction_appointments _ _ _ _ _ _ _).1⟩
  · intro body
    rcases put_appointments db { session := session, ip := ip, id := id, body := body }
      with h | h
    · exact ⟨fun b => b, by rw [h, List.map_id'], fun b => ⟨rfl, Or.inl rfl⟩⟩
    · refine ⟨_, h, ?_⟩
      intro b
      by_cases hid : b.id = id
      · simp only [hid, beq_self_eq_true, if_true]
        refine ⟨hid.symm ▸ rfl, ?_⟩
        cases hs : body.status with
        | none => left; simp [Appointment.applySet, hs]
        | some s => right; exact ⟨trivial, by simp [Appointment.applySet, hs]⟩
      · simp [hid]

/-- Witness for C22: patient 2 sets the cancelled appointment 1 of
`finishedVisits` to `confirmed`. -/
theorem C22_status_after_put_witness :
    (AppointmentRoutes.put finishedVisits
      { session := some (sessionOf 2), ip := "127.0.0.1", id := 1
        body := { status := some (some "confirmed") } }).1.status = 200 ∧
    (AppointmentRoutes.put finishedVisits
      { session := some (sessionOf 2), ip := "127.0.0.1", id := 1
        body := { status := some (some "confirmed") } }).2.appointments =
      finishedVisits.appointments.map fun b =>
        if b.id == 1 then { b with status := some "confirmed" } else b :=
  ((C22_status_after_put finishedVisits (some (sessionOf 2)) "127.0.0.1" 1
    { id := 2, email := "p@x.org", role := "patient", first_name := "Pat", last_name := "Poe"
      is_active := true }
    { id := 1, patient_id := 2, doctor_id := 1, date := "2025-01-06", time := "09:00"
      status := some "cancelled" }
    rfl (by decide) (fun _ => rfl)).1 (by decide)).1 "confirmed" (by decide)

/-- C29 fails as stated: the store of `statusCleared` holds one row, so no two
non-cancelled rows share a slot; its row (doctor 1, 2025-01-06, 09:00) has a NULL
status.  Patient 3 books the same slot and is answered 201, and the store then
holds two rows for that slot, neither of them cancelled. -/
theorem C29_null_status_row_double_booked :
    NoConflict statusCleared.appointments ∧
    (AppointmentRoutes.post statusCleared
      { session := some (sessionOf 3)
        body := { doctor_id := 1, date := "2025-01-06", time := "09:00" } }).1.status = 201 ∧
    (AppointmentRoutes.post statusCleared
      { session := some (sessionOf 3)
        body := { doctor_id := 1, date := "2025-01-06", time := "09:00" } }).2.appointments =
      [ { id := 1, patient_id := 2, doctor_id := 1, date := "2025-01-06", time := "09:00"
          duration := some 60, status := none },
        { id := 2, patient_id := 3, doctor_id := 1, date := "2025-01-06", time := "09:00" } ] ∧
    ¬ NoConflict (AppointmentRoutes.post statusCleared
      { session := some (sessionOf 3)
        body := { doctor_id := 1, date := "2025-01-06", time := "09:00" } }).2.appointments := by
  refine ⟨by decide, by decide, by decide, by decide⟩

/-- C29 (amended): in a store where every row has a status (none is NULL) and no
two non-cancelled rows share doctor, date and time (the dates and times compared
as the stored strings), the same two facts hold after any
`POST /api/appointments`, whether it is answered 201 or not. -/
theorem C29_post_preserves_no_conflict (db : Db) (req : PostRequest)
    (hstatus : ∀ a ∈ db.appointments, a.status ≠ none)
    (h : NoConflict db.appointments) :
    NoConflict (AppointmentRoutes.post db req).2.appointments ∧
    ∀ a ∈ (AppointmentRoutes.post db req).2.appointments, a.status ≠ none := by
  rcases post_inserted_or_unchanged db req with ⟨user, patientId, hreach, hpat⟩ | ⟨_, hsame⟩
  · obtain ⟨_, happ, _⟩ := post_inserted db req user patientId hreach hpat
    rw [happ]
    constructor
    · unfold NoConflict at h ⊢
      rw [List.pairwise_append]
      refine ⟨h, List.pairwise_singleton _ _, ?_⟩
      intro a ha b hb
      rw [List.mem_singleton] at hb
      subst hb
      by_cases hc : a.status = some "cancelled"
      · exact Or.inl hc
      · right
        right
        rintro ⟨hd, hdate, htime⟩
        have hslot := (mem_getAvailableSlots db req.body.doctor_id req.body.date
          req.body.time).mp hreach.2.2.2.2
        apply hslot.2
        refine ⟨a, ha, hd, hdate, ?_, htime⟩
        rw [notCancelled_iff]
        cases hst : a.status with
        | none => exact absurd hst (hstatus a ha)
        | some st =>
          refine ⟨st, rfl, ?_⟩
          intro hcancel
          apply hc
          rw [hst, hcancel]
    · intro a ha
      rw [List.mem_append, List.mem_singleton] at ha
      rcases ha with ha | rfl
      · exact hstatus a ha
      · intro hnone
        cases hnone
  · rw [hsame]
    exact ⟨h, hstatus⟩

/-- Witness for C29: a booking of 09:30 next to the appointment at 09:00. -/
theorem C29_post_preserves_no_conflict_witness :
    NoConflict (AppointmentRoutes.post hourLongVisit
      { session := some (sessionOf 3)
        body := { doctor_id := 1, date := "2025-01-06", time := "09:30" } }).2.appointments :=
  (C29_post_preserves_no_conflict hourLongVisit
    { session := some (sessionOf 3)
      body := { doctor_id := 1, date := "2025-01-06", time := "09:30" } } (by decide)
    (by decide)).1

/-! ### Facts about sequences of `rateLimitLogin` calls -/

theorem rateLimit_bounded (attempts : LoginAttempts) (db : Db) (ip : String) (now : Nat)
    (hinv : ∀ key l, attempts key = some l → l.length ≤ maxAttempts) :
    ∀ key l, (rateLimitLogin attempts db ip now false).2.1 key = some l →
      l.length ≤ maxAttempts := by
  obtain ⟨_, hst, hother, _⟩ := rateLimit_eq attempts db ip now
  intro key l hl
  by_cases hkey : key = ip
  · subst hkey
    rw [hst] at hl
    have hl2 := Option.some.inj hl
    have hle : (recentAttempts attempts key now).length ≤ maxAttempts := by
      refine le_trans (recentAttempts_length_le attempts key now) ?_
      cases hk : attempts key with
      | none => simp
      | some l0 => simpa using hinv key l0 hk
    by_cases hfull : maxAttempts ≤ (recentAttempts attempts key now).length
    · rw [if_pos hfull] at hl2
      rw [← hl2]
      exact hle
    · rw [if_neg hfull] at hl2
      rw [← hl2, List.length_append, List.length_singleton]
      omega
  · rw [hother key hkey] at hl
    exact hinv key l hl

theorem limiterRun_bounded (calls : List (String × Nat)) (start : LoginAttempts × Db)
    (hinv : ∀ key l, start.1 key = some l → l.length ≤ maxAttempts) :
    ∀ key l, (limiterRun calls start).1 key = some l → l.length ≤ maxAttempts := by
  induction calls generalizing start with
  | nil => exact hinv
  | cons call rest ih =>
    unfold limiterRun
    rw [List.foldl_cons]
    exact ih _ (rateLimit_bounded start.1 start.2 call.1 call.2 hinv)

/-- C30: after any sequence of `rateLimitLogin` calls outside test mode that
starts from the empty Map and ends with a call for `ip` at `now`, the list stored
for `ip` has at most 5 entries and every entry `t` satisfies `now - t < 15 min`.
(The times of the earlier calls need not even be ordered.) -/
theorem C30_limiter_state_bounded (calls : List (String × Nat)) (db : Db) (ip : String)
    (now : Nat) :
    ∃ l, (limiterRun (calls ++ [(ip, now)]) (noAttempts, db)).1 ip = some l ∧ l.length ≤ 5 ∧
      ∀ t ∈ l, (now : Int) - (t : Int) < 15 * 60 * 1000 := by
  have hinv0 : ∀ key l, (noAttempts, db).1 key = some l → l.length ≤ maxAttempts := by
    intro key l hl
    cases hl
  have hprev := limiterRun_bounded calls (noAttempts, db) hinv0
  have hrun : limiterRun (calls ++ [(ip, now)]) (noAttempts, db) =
      ((rateLimitLogin (limiterRun calls (noAttempts, db)).1 (limiterRun calls (noAttempts, db)).2
          ip now false).2.1,
       (rateLimitLogin (limiterRun calls (noAttempts, db)).1 (limiterRun calls (noAttempts, db)).2
          ip now false).2.2) := by
    unfold limiterRun
    rw [List.foldl_append]
    rfl
  rw [hrun]
  generalize limiterRun calls (noAttempts, db) = state at hprev
  obtain ⟨_, hst, _, _⟩ := rateLimit_eq state.1 state.2 ip now
  refine ⟨_, hst, ?_, ?_⟩
  · exact rateLimit_bounded state.1 state.2 ip now hprev ip _ hst
  · intro t ht
    have hrecent : ∀ x ∈ recentAttempts state.1 ip now, (now : Int) - (x : Int) < 15 * 60 * 1000 := by
      intro x hx
      unfold recentAttempts at hx
      rw [List.mem_filter] at hx
      simpa [windowMs] using hx.2
    split at ht
    · exact hrecent t ht
    · rw [List.mem_append, List.mem_singleton] at ht
      rcases ht with ht | rfl
      · exact hrecent t ht
      · omega

end Portal
